import Mathlib

/-!
The r300 driver context: pool coordination, atom registry, priming, context
lifecycle, reference release and finish; the `ResizeBuffers` contract the
Graphics3D test exercises; the mount-table watcher; and the network
selection screen.

A shallow embedding of
`third_party/mesa/MesaLib/src/gallium/drivers/r300/r300_context.c`, of the
`ResizeBuffers` calls of
`ppapi/native_client/tests/ppapi_browser/ppb_graphics3d/ppapi_ppb_graphics3d.cc`,
of `ReadMtab` and `UpdateMtab` of
`chrome/browser/media_gallery/media_device_notifications_linux.cc` and of
`ItemChanged` of `chrome/browser/chromeos/login/network_selection_view.cc`.

Pointers are modelled by what the code tests about them (null or not);
a null dereference is the failure result `none` of the operations that can
reach one.
-/

namespace PPAPI

/-! ## `PPB_Graphics3D::ResizeBuffers` as exercised by `ppapi_ppb_graphics3d.cc` -/

/-- The result codes the Graphics3D tests compare against. -/
inductive pp_result where
  | PP_OK
  | PP_ERROR_BADARGUMENT
deriving DecidableEq, Repr

/-- A bound Graphics3D context: the size of its buffers and the depth size
it was created with (0 without a depth buffer). -/
structure Graphics3D where
  width : Int
  height : Int
  depth_size : Int
deriving DecidableEq, Repr

/-- Modelled from the spec: `PPB_Graphics3D::ResizeBuffers` (its
implementation is not among the sources, only the test that calls it): a
negative width or height "is rejected with the bad argument error" with "no
partial mutation"; any other size is taken over and the call returns `PP_OK`,
as `TestResizeAndSwapCallback` expects down to size 0. -/
def ResizeBuffers (g : Graphics3D) (width height : Int) :
    pp_result × Graphics3D :=
  if width < 0 ∨ height < 0 then (pp_result.PP_ERROR_BADARGUMENT, g)
  else (pp_result.PP_OK, { g with width := width, height := height })

/-- The constant `kWidth` of the test file. -/
def kWidth : Int := 320

/-- The constant `kHeight` of the test file. -/
def kHeight : Int := 200

/-- The three `ResizeBuffers` calls of `TestResizeBuffers` with negative
arguments, each on the context the previous one left. -/
def TestResizeBuffers (g : Graphics3D) : List pp_result × Graphics3D :=
  let r1 := ResizeBuffers g (-1000) 0
  let r2 := ResizeBuffers r1.2 100 (-1)
  let r3 := ResizeBuffers r2.2 (-1) (-1)
  ([r1.1, r2.1, r3.1], r3.2)

/-- The `ResizeBuffers` call of `TestResizeAndSwapCallback` at a given
`frame_counter`: the new size shrinks with the counter and is clamped at 0. -/
def TestResizeAndSwapCallback (g : Graphics3D) (frame_counter : Int) :
    pp_result × Graphics3D :=
  let new_width := kWidth - frame_counter * 2
  let new_height := kHeight - frame_counter * 2
  let new_width := if new_width < 0 then 0 else new_width
  let new_height := if new_height < 0 then 0 else new_height
  ResizeBuffers g new_width new_height

end PPAPI

namespace MediaDeviceNotificationsLinux

/-! ## Mount-table watcher (`media_device_notifications_linux.cc`) -/

/-- Embedding of the fields of `struct mntent` that `ReadMtab` reads. -/
structure mntent where
  mnt_fsname : String
  mnt_dir : String
  mnt_type : String
deriving DecidableEq, Repr

/-- The constant `kDCIMDirName`. -/
def kDCIMDirName : String := "DCIM"

/-- The table `kKnownFileSystems`: the file systems we care about. -/
def kKnownFileSystems : List String :=
  ["ext2", "ext3", "ext4", "fat", "hfsplus", "iso9660", "msdos", "ntfs", "udf",
   "vfat"]

/-- Embedding of `std::map<std::string, V>::find` on a map held as a list of
key-value pairs in iteration order: the value at key `k`, `none` for
`end()`. -/
def map_find {V : Type} : List (String × V) → String → Option V
  | [], _ => none
  | (k1, v1) :: m, k => if k = k1 then some v1 else map_find m k

/-- Embedding of `std::map::insert(std::make_pair(k, v))`: the pair is added
at its place in key order when no element has key `k`; an existing element
is left as it is.  The key order of `std::string` is the lexicographic order
of the characters. -/
def map_insert {V : Type} : List (String × V) → String → V → List (String × V)
  | [], k, v => [(k, v)]
  | (k1, v1) :: m, k, v =>
    if k.data < k1.data then (k, v) :: (k1, v1) :: m
    else if k = k1 then (k1, v1) :: m
    else (k1, v1) :: map_insert m k v

/-- Embedding of the assignment `it->second = v` through an iterator that
`find(k)` returned. -/
def map_assign {V : Type} : List (String × V) → String → V → List (String × V)
  | [], _, _ => []
  | (k1, v1) :: m, k, v =>
    if k = k1 then (k1, v) :: m else (k1, v1) :: map_assign m k v

/-- Embedding of `std::map::erase(k)`. -/
def map_erase {V : Type} : List (String × V) → String → List (String × V)
  | [], _ => []
  | (k1, v1) :: m, k => if k = k1 then m else (k1, v1) :: map_erase m k

/-- The type `MountMap`: mount point to mount device and device id. -/
abbrev MountMap : Type := List (String × (String × Nat))

/-- The local type `DeviceMap` of `ReadMtab`: mount device to mount point
and position in the file. -/
abbrev DeviceMap : Type := List (String × (String × Nat))

/-- One pass of the `getmntent_r` loop of `ReadMtab` on the device map and
`mount_position`.  The argument `M` is the number of values of
`SystemMonitor::DeviceIdType`, an unsigned integer type declared outside
this file: `mount_position++` wraps at `M`. -/
def ReadMtab_entry (M : Nat) (acc : DeviceMap × Nat) (entry : mntent) :
    DeviceMap × Nat :=
  -- We only care about real file systems.
  if entry.mnt_type ∉ kKnownFileSystems then acc
  else
    let mount_point_and_id := (entry.mnt_dir, acc.2)
    let mount_position := (acc.2 + 1) % M
    match map_find acc.1 entry.mnt_fsname with
    | none => (map_insert acc.1 entry.mnt_fsname mount_point_and_id, mount_position)
    | some _ => (map_assign acc.1 entry.mnt_fsname mount_point_and_id, mount_position)

/-- One pass of the loop of `ReadMtab` over `device_map`. -/
def ReadMtab_device (new_mtab : MountMap) (device_it : String × (String × Nat)) :
    MountMap :=
  let device := device_it.1
  let mount_point := device_it.2.1
  let position := device_it.2.2
  match map_find new_mtab mount_point with
  -- No device at |mount_point|, save |device| to it.
  | none => map_insert new_mtab mount_point (device, position)
  | some existing =>
    -- Check to see if the existing mount entry is newer than the current one.
    if existing.2 > position then new_mtab
    else map_assign new_mtab mount_point (device, position)

/-- Embedding of `ReadMtab`.  The file is the sequence of entries
`getmntent_r` returns, `none` when `setmntent` fails; `mtab` is the map the
caller passes in. -/
def ReadMtab (M : Nat) (fp : Option (List mntent)) (mtab : MountMap) : MountMap :=
  match fp with
  | none => mtab
  | some entries =>
    let device_map := (entries.foldl (ReadMtab_entry M) ([], 0)).1
    device_map.foldl ReadMtab_device mtab

/-- Embedding of `IsMediaDevice`.  `DirectoryExists p d` stands for
`file_util::DirectoryExists(FilePath(p).Append(d))`; the lower-case name is
`StringToLowerASCII(kDCIMDirName)`. -/
def IsMediaDevice (DirectoryExists : String → String → Bool)
    (mount_point : String) : Bool :=
  if !DirectoryExists mount_point kDCIMDirName then
    -- Check for lowercase 'dcim' as well.
    if !DirectoryExists mount_point "dcim" then false else true
  else true

/-- The notifications sent to `base::SystemMonitor`. -/
inductive event where
  | ProcessMediaDeviceAttached (id : Nat) (name : String) (path : String)
  | ProcessMediaDeviceDetached (id : Nat)
deriving DecidableEq, Repr

/-- The members of `MediaDeviceNotificationsLinux` that `UpdateMtab` reads
and writes. -/
structure notifier where
  mtab_ : MountMap
  current_device_id_ : Nat
deriving DecidableEq, Repr

/-- The members as the constructor leaves them. -/
def notifier.init : notifier := { mtab_ := [], current_device_id_ := 0 }

/-- Embedding of `AddNewDevice`: the id written to `*device_id`, the
incremented counter (wrapping at `M`) and the notification. -/
def AddNewDevice (M : Nat) (self : notifier) (mount_device mount_point : String) :
    notifier × Nat × List event :=
  let device_id := self.current_device_id_
  ({ self with current_device_id_ := (self.current_device_id_ + 1) % M },
   device_id,
   [event.ProcessMediaDeviceAttached device_id mount_device mount_point])

/-- Embedding of `RemoveOldDevice`. -/
def RemoveOldDevice (device_id : Nat) : List event :=
  [event.ProcessMediaDeviceDetached device_id]

/-- One pass of the first loop of `UpdateMtab`, over the existing entries:
a mount point that is not in `new_mtab` is reported removed and queued in
`mount_points_to_erase`. -/
def UpdateMtab_old_entry (new_mtab : MountMap)
    (acc : List event × List String) (it : String × (String × Nat)) :
    List event × List String :=
  let mount_point := it.1
  match map_find new_mtab mount_point with
  | none =>
    let device_id := it.2.2
    (acc.1 ++ RemoveOldDevice device_id, acc.2 ++ [mount_point])
  | some _ => acc

/-- One pass of the last loop of `UpdateMtab`, over the new entries.  The id
`AddNewDevice` writes through `&id` lands in the entry that is then copied
into `mtab_`. -/
def UpdateMtab_new_entry (M : Nat) (DirectoryExists : String → String → Bool)
    (acc : notifier × List event) (newiter : String × (String × Nat)) :
    notifier × List event :=
  let self := acc.1
  let mount_point := newiter.1
  let mount_device := newiter.2.1
  match map_find self.mtab_ mount_point with
  -- Check to see if it is a new mount point.
  | none =>
    if IsMediaDevice DirectoryExists mount_point then
      let r := AddNewDevice M self mount_device mount_point
      ({ r.1 with mtab_ := map_insert r.1.mtab_ mount_point (mount_device, r.2.1) },
       acc.2 ++ r.2.2)
    else acc
  -- Existing mount point. Check to see if a new device is mounted there.
  | some old_mount_device_and_id =>
    if mount_device = old_mount_device_and_id.1 then acc
    else
      -- New device mounted.
      let events := acc.2 ++ RemoveOldDevice old_mount_device_and_id.2
      if IsMediaDevice DirectoryExists mount_point then
        let r := AddNewDevice M self mount_device mount_point
        ({ r.1 with mtab_ := map_assign r.1.mtab_ mount_point (mount_device, r.2.1) },
         events ++ r.2.2)
      else (self, events)

/-- Embedding of `UpdateMtab`: the members afterwards and the notifications
sent, in order.  `fp` is the content of the mtab file at the time of the
call and `DirectoryExists` the state of the directories. -/
def UpdateMtab (M : Nat) (self : notifier) (fp : Option (List mntent))
    (DirectoryExists : String → String → Bool) : notifier × List event :=
  let new_mtab := ReadMtab M fp []
  -- Check existing mtab entries for unaccounted mount points.
  let removed := self.mtab_.foldl (UpdateMtab_old_entry new_mtab) ([], [])
  -- Erase the |mtab_| entries afterwards.
  let self := { self with mtab_ := removed.2.foldl map_erase self.mtab_ }
  -- Check new mtab entries against existing ones.
  new_mtab.foldl (UpdateMtab_new_entry M DirectoryExists) (self, removed.1)

/-- A sequence of `UpdateMtab` calls on one instance, each with the file
content and directory state it finds; the notifications of all calls in
order. -/
def UpdateMtab_seq (M : Nat) (self : notifier) :
    List (Option (List mntent) × (String → String → Bool)) →
      notifier × List event
  | [] => (self, [])
  | c :: cs =>
    let r := UpdateMtab M self c.1 c.2
    let rest := UpdateMtab_seq M r.1 cs
    (rest.1, r.2 ++ rest.2)

/-- The ids of the attach notifications of a trace, in order. -/
def attached_ids (t : List event) : List Nat :=
  t.filterMap (fun e =>
    match e with
    | event.ProcessMediaDeviceAttached id _ _ => some id
    | _ => none)

/-- The ids of the detach notifications of a trace, in order. -/
def detached_ids (t : List event) : List Nat :=
  t.filterMap (fun e =>
    match e with
    | event.ProcessMediaDeviceDetached id => some id
    | _ => none)

/-- A camera card on `/dev/sdb1` mounted at `/media/cam`. -/
def mtab_camera : List mntent :=
  [{ mnt_fsname := "/dev/sdb1", mnt_dir := "/media/cam", mnt_type := "vfat" }]

/-- Another device, `/dev/sdc1`, mounted at the same mount point. -/
def mtab_other : List mntent :=
  [{ mnt_fsname := "/dev/sdc1", mnt_dir := "/media/cam", mnt_type := "ext4" }]

/-- Every mount point has a `DCIM` directory. -/
def dcim_everywhere : String → String → Bool := fun _ d => d == "DCIM"

/-- No mount point has a `DCIM` or `dcim` directory. -/
def dcim_nowhere : String → String → Bool := fun _ _ => false

/-- The entries of a mount table whose file system type is one of the known
ones, in file order. -/
def known_entries (entries : List mntent) : List mntent :=
  entries.filter (fun e => decide (e.mnt_type ∈ kKnownFileSystems))

/-- The function `last` of the conflict rule, as a relation: the entry at
position `p` of the known-type entries `ks` is the last entry of device `d`,
and its mount directory is `m`. -/
def is_last (ks : List mntent) (d m : String) (p : Nat) : Prop :=
  ∃ e, ks.get? p = some e ∧ e.mnt_fsname = d ∧ e.mnt_dir = m ∧
    ∀ q e1, p < q → ks.get? q = some e1 → e1.mnt_fsname ≠ d

/-- The attach notifications of a trace for one mount point, in order, as
id and device. -/
def attached_at (t : List event) (mount_point : String) : List (Nat × String) :=
  t.filterMap (fun e =>
    match e with
    | event.ProcessMediaDeviceAttached id name path =>
      if path = mount_point then some (id, name) else none
    | _ => none)

/-- A mount table in which two devices were mounted on `/x`, one of them
again elsewhere, with a `proc` line in between. -/
def mtab_conflict : List mntent :=
  [{ mnt_fsname := "b", mnt_dir := "/x", mnt_type := "vfat" },
   { mnt_fsname := "a", mnt_dir := "/x", mnt_type := "ext4" },
   { mnt_fsname := "c", mnt_dir := "/y", mnt_type := "proc" },
   { mnt_fsname := "b", mnt_dir := "/z", mnt_type := "ntfs" }]

/-- What the device loop of `ReadMtab` has established after the devices in
`L`: every mount point holds one of them, no device of `L` at that mount
point has a greater position, every mount point of `L` has an entry, and the
keys are distinct. -/
def resolved (R : MountMap) (L : List (String × (String × Nat))) : Prop :=
  (∀ m d p, map_find R m = some (d, p) → (d, (m, p)) ∈ L) ∧
  (∀ m d p, map_find R m = some (d, p) → ∀ d1 p1, (d1, (m, p1)) ∈ L → p1 ≤ p) ∧
  (∀ m d p, (d, (m, p)) ∈ L → (map_find R m).isSome = true) ∧
  (R.map Prod.fst).Nodup

/-- The invariant that ties the members of the notifier to the trace `t` of
all notifications sent so far: the counter is the number of attach
notifications (wrapped at `M`), the `k`-th attach notification carries id
`k % M`, the keys of `mtab_` are distinct, and every entry of `mtab_` holds
the device and id of the most recent attach notification at its mount
point. -/
def notifier_inv (M : Nat) (self : notifier) (t : List event) : Prop :=
  self.current_device_id_ = (attached_ids t).length % M ∧
  attached_ids t = (List.range (attached_ids t).length).map (fun k => k % M) ∧
  (self.mtab_.map Prod.fst).Nodup ∧
  ∀ m d id, map_find self.mtab_ m = some (d, id) →
    (attached_at t m).getLast? = some (id, d)

/-- A camera card at `/media/cam` and a second card at `/media/usb`. -/
def mtab_two_devices : List mntent :=
  [{ mnt_fsname := "/dev/sdb1", mnt_dir := "/media/cam", mnt_type := "vfat" },
   { mnt_fsname := "/dev/sdc1", mnt_dir := "/media/usb", mnt_type := "vfat" }]

/-- Three `UpdateMtab` calls: a camera card appears at `/media/cam`; another
device without a `DCIM` directory replaces it at the same mount point; the
watcher fires once more with the table unchanged. -/
def calls_stale_entry : List (Option (List mntent) × (String → String → Bool)) :=
  [(some mtab_camera, dcim_everywhere), (some mtab_other, dcim_nowhere),
   (some mtab_other, dcim_nowhere)]

/-- Every detach notification of the trace carries an id that an earlier
attach notification of the trace carried. -/
def detached_were_attached (t : List event) : Prop :=
  ∀ t1 t2 id, t = t1 ++ event.ProcessMediaDeviceDetached id :: t2 →
    id ∈ attached_ids t1

end MediaDeviceNotificationsLinux

namespace NetworkSelectionView

/-! ## Network selection screen (`network_selection_view.cc`) -/

/-- The values of `chromeos::NetworkList::NetworkType` the view names. -/
inductive NetworkType where
  | NETWORK_EMPTY
  | NETWORK_WIFI
  | NETWORK_CELLULAR
deriving DecidableEq, Repr

/-- The fields of `chromeos::WifiNetwork` the view reads. -/
structure WifiNetwork where
  ssid : String
  encrypted : Bool
deriving DecidableEq, Repr

/-- The cellular network of a list item, by name. -/
structure CellularNetwork where
  name : String
deriving DecidableEq, Repr

/-- The fields of `chromeos::NetworkList::NetworkItem` the view reads. -/
structure NetworkItem where
  network_type : NetworkType
  label : String
  wifi_network : WifiNetwork
  cellular_network : CellularNetwork
deriving DecidableEq, Repr

/-- The exit codes of `chromeos::ScreenObserver` the view reports. -/
inductive ExitCodes where
  | NETWORK_CONNECTED
  | NETWORK_OFFLINE
deriving DecidableEq, Repr

/-- The calls the view makes on its combobox, the network library, the
password dialog and its observer. -/
inductive ui_call where
  | SetSelectedItem (index : Int)
  | OpenPasswordDialog (network : WifiNetwork)
  | ConnectToWifiNetwork (network : WifiNetwork) (password : String)
  | ConnectToCellularNetwork (network : CellularNetwork)
  | OnExit (code : ExitCodes)
deriving DecidableEq, Repr

/-- The members of `NetworkSelectionView` that `ItemChanged` reads:
`observer_` (`true` for non-null) and the network list `networks_`, given by
the answers of `networks_.IsEmpty()` and `networks_.GetNetworkAt(index)`
(`none` for a null result); the class `NetworkList` is declared outside this
file. -/
structure view where
  observer_ : Bool
  IsEmpty : Bool
  GetNetworkAt : Int → Option NetworkItem

/-- Embedding of `NotifyOnConnection`. -/
def NotifyOnConnection (self : view) : List ui_call :=
  if self.observer_ then [ui_call.OnExit ExitCodes.NETWORK_CONNECTED] else []

/-- Embedding of `ItemChanged`: the calls made, in order. -/
def ItemChanged (self : view) (prev_index new_index : Int) : List ui_call :=
  if new_index = prev_index ∨ new_index < 0 ∨ prev_index < 0 then []
  -- First item is a text, not a network.
  else if new_index = 0 then [ui_call.SetSelectedItem prev_index]
  else if self.IsEmpty then []
  else
    match self.GetNetworkAt (new_index - 1) with
    | none => []
    | some network =>
      if NetworkType.NETWORK_WIFI = network.network_type then
        if network.wifi_network.encrypted then
          [ui_call.OpenPasswordDialog network.wifi_network]
        else
          [ui_call.ConnectToWifiNetwork network.wifi_network ""]
            ++ NotifyOnConnection self
      else if NetworkType.NETWORK_CELLULAR = network.network_type then
        [ui_call.ConnectToCellularNetwork network.cellular_network]
          ++ NotifyOnConnection self
      else NotifyOnConnection self

/-- An open WiFi network. -/
def item_open_wifi : NetworkItem :=
  { network_type := NetworkType.NETWORK_WIFI, label := "cafe",
    wifi_network := { ssid := "cafe", encrypted := false },
    cellular_network := { name := "" } }

/-- A view with an observer and one open WiFi network. -/
def view_one_wifi : view :=
  { observer_ := true, IsEmpty := false,
    GetNetworkAt := fun i => if i = 0 then some item_open_wifi else none }

end NetworkSelectionView

namespace R300

/-! ## Pool coordinator (`r300_update_num_contexts`) -/

/-- Thread-safety mode of a `util_mempool`. -/
inductive util_mempool_threading where
  | UTIL_MEMPOOL_SINGLETHREADED
  | UTIL_MEMPOOL_MULTITHREADED
deriving DecidableEq, Repr

open util_mempool_threading

/-- The value a 32-bit `int` holds after an arithmetic result `x`: the
representative of `x` modulo 2^32 between -2^31 and 2^31 - 1. -/
def wrap_int32 (x : Int) : Int := (x + 2147483648) % 4294967296 - 2147483648

/-- The two fields of `struct r300_screen` that `r300_update_num_contexts`
reads and writes.  `num_contexts` is a 32-bit `int` moved by `p_atomic_inc`
and `p_atomic_dec`: it holds a value between -2^31 and 2^31 - 1 and wraps. -/
structure r300_screen where
  num_contexts : Int
  pool_buffers : util_mempool_threading
  num_contexts_int32 : -2147483648 ≤ num_contexts ∧ num_contexts ≤ 2147483647
deriving DecidableEq, Repr

/-- Embedding of `r300_update_num_contexts(r300screen, diff)`:
`diff > 0` increments and switches to multi-threaded when the new count
exceeds 1; any other `diff` decrements and switches back to single-threaded
when the new count is at most 1.  The increment and the decrement wrap at
the width of the counter. -/
def r300_update_num_contexts (s : r300_screen) (diff : Int) : r300_screen :=
  if diff > 0 then
    let s1 : r300_screen :=
      { s with num_contexts := wrap_int32 (s.num_contexts + 1),
               num_contexts_int32 := by unfold wrap_int32; omega }
    if s1.num_contexts > 1 then
      { s1 with pool_buffers := UTIL_MEMPOOL_MULTITHREADED }
    else s1
  else
    let s1 : r300_screen :=
      { s with num_contexts := wrap_int32 (s.num_contexts - 1),
               num_contexts_int32 := by unfold wrap_int32; omega }
    if s1.num_contexts ≤ 1 then
      { s1 with pool_buffers := UTIL_MEMPOOL_SINGLETHREADED }
    else s1

/-- The screen as `r300_screen_create` leaves it: no context, pool in
single-threaded mode. -/
def screen_init : r300_screen :=
  { num_contexts := 0, pool_buffers := UTIL_MEMPOOL_SINGLETHREADED,
    num_contexts_int32 := by decide }

/-- A sequence of `r300_update_num_contexts` calls, one per `diff`. -/
def update_seq (s : r300_screen) (diffs : List Int) : r300_screen :=
  diffs.foldl r300_update_num_contexts s

/-- The coordinator invariant: single-threaded iff at most one context. -/
def pool_inv (s : r300_screen) : Prop :=
  (s.pool_buffers = UTIL_MEMPOOL_SINGLETHREADED ↔ s.num_contexts ≤ 1) ∧
  (s.pool_buffers = UTIL_MEMPOOL_MULTITHREADED ↔ s.num_contexts > 1)

/-- No call of the sequence wraps the counter: an increment finds it below
2^31 - 1 and a decrement finds it above -2^31. -/
def no_wrap (s : r300_screen) : List Int → Prop
  | [] => True
  | diff :: diffs =>
    (if diff > 0 then s.num_contexts < 2147483647
     else -2147483648 < s.num_contexts) ∧
    no_wrap (r300_update_num_contexts s diff) diffs

/-- One thread inside `r300_update_num_contexts`: its argument, the number
of statements it has executed and the outcome of its threshold test. -/
structure update_thread where
  diff : Int
  pc : Nat
  test : Bool
deriving DecidableEq, Repr

/-- A thread entering `r300_update_num_contexts(r300screen, diff)`. -/
def update_thread.start (diff : Int) : update_thread :=
  { diff := diff, pc := 0, test := false }

/-- The next statement of `r300_update_num_contexts` on a thread, on the
screen shared with the other threads: first the `p_atomic_inc` or
`p_atomic_dec`, then the read of `num_contexts` for the threshold test, then
the `util_mempool_set_thread_safety` call when the test held. -/
def micro_step (s : r300_screen) (t : update_thread) : r300_screen × update_thread :=
  match t.pc with
  | 0 =>
    ({ s with num_contexts :=
                wrap_int32 (if t.diff > 0 then s.num_contexts + 1
                            else s.num_contexts - 1),
              num_contexts_int32 := by unfold wrap_int32; omega },
     { t with pc := 1 })
  | 1 =>
    (s, { t with pc := 2,
                 test := if t.diff > 0 then decide (s.num_contexts > 1)
                         else decide (s.num_contexts ≤ 1) })
  | 2 =>
    (if t.test then
       { s with pool_buffers := if t.diff > 0 then UTIL_MEMPOOL_MULTITHREADED
                                else UTIL_MEMPOOL_SINGLETHREADED }
     else s,
     { t with pc := 3 })
  | _ => (s, t)

/-- Threads running `r300_update_num_contexts` on one screen under a
schedule: each entry of the schedule names the thread that executes its next
statement. -/
def interleave (s : r300_screen) (threads : List update_thread) :
    List Nat → r300_screen × List update_thread
  | [] => (s, threads)
  | i :: schedule =>
    match threads.get? i with
    | none => interleave s threads schedule
    | some t =>
      let r := micro_step s t
      interleave r.1 (threads.set i r.2) schedule

/-- Two live contexts, pool multi-threaded. -/
def screen_two : r300_screen :=
  { num_contexts := 2, pool_buffers := UTIL_MEMPOOL_MULTITHREADED,
    num_contexts_int32 := by decide }

/-! ## State atoms and the atom registry (`R300_INIT_ATOM`, `r300_setup_atoms`) -/

/-- The `struct r300_atom` members of `struct r300_context` that
`r300_setup_atoms` initialises, named as in the source. -/
inductive AtomName where
  | gpu_flush | aa_state | fb_state | hyperz_state | ztop_state | dsa_state
  | blend_state | blend_color_state | scissor_state | invariant_state
  | viewport_state | pvs_flush | vap_invariant_state | vertex_stream_state
  | vs_state | vs_constants | clip_state | rs_block_state | rs_state
  | fb_state_pipelined | fs | fs_rc_constant_state | fs_constants
  | texture_cache_inval | textures_state | hiz_clear | zmask_clear
  | query_start
deriving DecidableEq, Repr, Fintype

open AtomName

/-- The string `#atomname` that `R300_INIT_ATOM` stores in `atom->name`. -/
def AtomName.cname : AtomName → String
  | gpu_flush => "gpu_flush" | aa_state => "aa_state"
  | fb_state => "fb_state" | hyperz_state => "hyperz_state"
  | ztop_state => "ztop_state" | dsa_state => "dsa_state"
  | blend_state => "blend_state" | blend_color_state => "blend_color_state"
  | scissor_state => "scissor_state" | invariant_state => "invariant_state"
  | viewport_state => "viewport_state" | pvs_flush => "pvs_flush"
  | vap_invariant_state => "vap_invariant_state"
  | vertex_stream_state => "vertex_stream_state"
  | vs_state => "vs_state" | vs_constants => "vs_constants"
  | clip_state => "clip_state" | rs_block_state => "rs_block_state"
  | rs_state => "rs_state" | fb_state_pipelined => "fb_state_pipelined"
  | fs => "fs" | fs_rc_constant_state => "fs_rc_constant_state"
  | fs_constants => "fs_constants"
  | texture_cache_inval => "texture_cache_inval"
  | textures_state => "textures_state" | hiz_clear => "hiz_clear"
  | zmask_clear => "zmask_clear" | query_start => "query_start"

/-- The struct types handed to `CALLOC_STRUCT` in `r300_setup_atoms`. -/
inductive state_struct where
  | r300_aa_state | r300_blend_color_state | r300_clip_state
  | pipe_framebuffer_state | r300_hyperz_state | r300_invariant_state
  | r300_rs_block | pipe_scissor_state | r300_textures_state
  | r300_vap_invariant_state | r300_viewport_state | r300_ztop_state
  | r300_constant_buffer | r300_vertex_stream_state
deriving DecidableEq, Repr

/-- The value of `atom->emit`: null in a zeroed context, `r300_emit_<atom>`
after `R300_INIT_ATOM`, or one of the three `r500_emit_<atom>` routines. -/
inductive emit_fn where
  | null
  | r300_emit (a : AtomName)
  | r500_emit (a : AtomName)
deriving DecidableEq, Repr

/-- Embedding of `struct r300_atom` (the list links are kept in
`r300_context.atom_list`).  `state = none` is the null pointer. -/
structure r300_atom where
  name : String
  state : Option state_struct
  size : Nat
  emit : emit_fn
  dirty : Bool
  allow_null_state : Bool
  counter : Nat
deriving DecidableEq, Repr

/-- An atom as `CALLOC_STRUCT(r300_context)` leaves it: all bytes zero. -/
def r300_atom.zero : r300_atom :=
  { name := "", state := none, size := 0, emit := emit_fn.null,
    dirty := false, allow_null_state := false, counter := 0 }

/-- The capability set read by this file: `r300->screen->caps` and the
three `rws->get_value` queries. -/
structure Caps where
  is_rv350 : Bool
  is_r500 : Bool
  has_tcl : Bool
  hiz_ram : Int
  drm_2_3_0 : Bool
  drm_2_6_0 : Bool
  can_hyperz : Bool
deriving DecidableEq, Repr

/-- Embedding of the part of `struct r300_context` this file touches.
Subsystem pointers are recorded as "non-null" booleans; `atoms` holds the
atom members and `atom_list` the list threaded through them, in order. -/
structure r300_context where
  atoms : AtomName → r300_atom
  atom_list : List AtomName
  cs : Bool
  draw : Bool
  blitter : Bool
  zmask_mm : Bool
  upload_ib : Bool
  upload_vb : Bool
  translate_cache : Bool
  texkill_sampler : Bool
  flush_cb_set : Bool

/-- The context right after `CALLOC_STRUCT(r300_context)`. -/
def r300_context.zero : r300_context :=
  { atoms := fun _ => r300_atom.zero, atom_list := [],
    cs := false, draw := false, blitter := false, zmask_mm := false,
    upload_ib := false, upload_vb := false, translate_cache := false,
    texkill_sampler := false, flush_cb_set := false }

/-- Update of one atom member of the context. -/
def r300_context.modify (r300 : r300_context) (a : AtomName)
    (f : r300_atom → r300_atom) : r300_context :=
  { r300 with atoms := fun b => if b = a then f (r300.atoms b) else r300.atoms b }

/-- Embedding of the macro `R300_INIT_ATOM(atomname, atomsize)`. -/
def R300_INIT_ATOM (r300 : r300_context) (a : AtomName) (atomsize : Nat) :
    r300_context :=
  let r := r300.modify a (fun at0 =>
    { at0 with name := a.cname, state := none, size := atomsize,
               emit := emit_fn.r300_emit a, dirty := false })
  { r with atom_list := r.atom_list ++ [a] }

/-- Assignment `r300-><a>.state = CALLOC_STRUCT(ty)`; `ok` tells whether the
allocation succeeds. -/
def set_state (r300 : r300_context) (a : AtomName) (ty : state_struct)
    (ok : Bool) : r300_context :=
  r300.modify a (fun at0 => { at0 with state := if ok then some ty else none })

/-- Assignment `r300-><a>.allow_null_state = TRUE`. -/
def set_allow_null_state (r300 : r300_context) (a : AtomName) : r300_context :=
  r300.modify a (fun at0 => { at0 with allow_null_state := true })

/-- Assignment `r300-><a>.dirty = TRUE`. -/
def set_dirty (r300 : r300_context) (a : AtomName) : r300_context :=
  r300.modify a (fun at0 => { at0 with dirty := true })

/-- Assignment `r300-><a>.emit = r500_emit_<a>`. -/
def set_emit_r500 (r300 : r300_context) (a : AtomName) : r300_context :=
  r300.modify a (fun at0 => { at0 with emit := emit_fn.r500_emit a })

/-- Embedding of `r300_setup_atoms`.  `alloc a` tells whether the
`CALLOC_STRUCT` for the state block of atom `a` succeeds. -/
def r300_setup_atoms (r300 : r300_context) (caps : Caps)
    (alloc : AtomName → Bool) : r300_context :=
  let is_rv350 := caps.is_rv350
  let is_r500 := caps.is_r500
  let has_tcl := caps.has_tcl
  let drm_2_3_0 := caps.drm_2_3_0
  let drm_2_6_0 := caps.drm_2_6_0
  let has_hyperz := caps.can_hyperz
  let has_hiz_ram := decide (caps.hiz_ram > 0)
  -- make_empty_list(&r300->atom_list)
  let r : r300_context := { r300 with atom_list := [] }
  let r := R300_INIT_ATOM r gpu_flush 9
  let r := R300_INIT_ATOM r aa_state 4
  let r := R300_INIT_ATOM r fb_state 0
  let r := R300_INIT_ATOM r hyperz_state
    (if is_r500 || (is_rv350 && drm_2_6_0) then 10 else 8)
  let r := R300_INIT_ATOM r ztop_state 2
  let r := R300_INIT_ATOM r dsa_state (if is_r500 then 8 else 6)
  let r := R300_INIT_ATOM r blend_state 8
  let r := R300_INIT_ATOM r blend_color_state (if is_r500 then 3 else 2)
  let r := R300_INIT_ATOM r scissor_state 3
  let r := R300_INIT_ATOM r invariant_state (16 + (if is_rv350 then 4 else 0))
  let r := R300_INIT_ATOM r viewport_state 9
  let r := R300_INIT_ATOM r pvs_flush 2
  let r := R300_INIT_ATOM r vap_invariant_state 9
  let r := R300_INIT_ATOM r vertex_stream_state 0
  let r := R300_INIT_ATOM r vs_state 0
  let r := R300_INIT_ATOM r vs_constants 0
  let r := R300_INIT_ATOM r clip_state (if has_tcl then 5 + (6 * 4) else 2)
  let r := R300_INIT_ATOM r rs_block_state 0
  let r := R300_INIT_ATOM r rs_state 0
  let r := R300_INIT_ATOM r fb_state_pipelined
    (5 + (if drm_2_3_0 then 3 else 0))
  let r := R300_INIT_ATOM r fs 0
  let r := R300_INIT_ATOM r fs_rc_constant_state 0
  let r := R300_INIT_ATOM r fs_constants 0
  let r := R300_INIT_ATOM r texture_cache_inval 2
  let r := R300_INIT_ATOM r textures_state 0
  let r :=
    if has_hyperz then
      let r1 := if has_hiz_ram then R300_INIT_ATOM r hiz_clear 0 else r
      R300_INIT_ATOM r1 zmask_clear 0
    else r
  let r := R300_INIT_ATOM r query_start 4
  -- Replace emission functions for r500.
  let r :=
    if is_r500 then
      set_emit_r500 (set_emit_r500 (set_emit_r500 r fs) fs_rc_constant_state)
        fs_constants
    else r
  -- Some non-CSO atoms need explicit space to store the state locally.
  let r := set_state r aa_state .r300_aa_state (alloc aa_state)
  let r := set_state r blend_color_state .r300_blend_color_state
    (alloc blend_color_state)
  let r := set_state r clip_state .r300_clip_state (alloc clip_state)
  let r := set_state r fb_state .pipe_framebuffer_state (alloc fb_state)
  let r := set_state r gpu_flush .pipe_framebuffer_state (alloc gpu_flush)
  let r := set_state r hyperz_state .r300_hyperz_state (alloc hyperz_state)
  let r := set_state r invariant_state .r300_invariant_state
    (alloc invariant_state)
  let r := set_state r rs_block_state .r300_rs_block (alloc rs_block_state)
  let r := set_state r scissor_state .pipe_scissor_state (alloc scissor_state)
  let r := set_state r textures_state .r300_textures_state
    (alloc textures_state)
  let r := set_state r vap_invariant_state .r300_vap_invariant_state
    (alloc vap_invariant_state)
  let r := set_state r viewport_state .r300_viewport_state
    (alloc viewport_state)
  let r := set_state r ztop_state .r300_ztop_state (alloc ztop_state)
  let r := set_state r fs_constants .r300_constant_buffer (alloc fs_constants)
  let r := set_state r vs_constants .r300_constant_buffer (alloc vs_constants)
  let r :=
    if !caps.has_tcl then
      set_state r vertex_stream_state .r300_vertex_stream_state
        (alloc vertex_stream_state)
    else r
  -- Some non-CSO atoms don't use the state pointer.
  let r := set_allow_null_state r fb_state_pipelined
  let r := set_allow_null_state r fs_rc_constant_state
  let r := set_allow_null_state r pvs_flush
  let r := set_allow_null_state r query_start
  let r := set_allow_null_state r texture_cache_inval
  -- Some states must be marked as dirty here.
  let r := set_dirty r invariant_state
  let r := set_dirty r pvs_flush
  let r := set_dirty r vap_invariant_state
  let r := set_dirty r texture_cache_inval
  let r := set_dirty r textures_state
  r

/-- Every `CALLOC_STRUCT` of `r300_setup_atoms` succeeds. -/
def alloc_all : AtomName → Bool := fun _ => true

/-- The 25 atoms every registry starts with, in source order. -/
def registry_base : List AtomName :=
  [gpu_flush, aa_state, fb_state, hyperz_state, ztop_state, dsa_state,
   blend_state, blend_color_state, scissor_state, invariant_state,
   viewport_state, pvs_flush, vap_invariant_state, vertex_stream_state,
   vs_state, vs_constants, clip_state, rs_block_state, rs_state,
   fb_state_pipelined, fs, fs_rc_constant_state, fs_constants,
   texture_cache_inval, textures_state]

/-! ## Dirty marking and the flush walk -/

/-- Modelled from the spec: a state-set call ("mutate state blocks and mark
corresponding atoms dirty"; the entry points are in `r300_state.c`, which is
not among the sources).  Only the effect on the dirty flag is kept. -/
def mark_dirty (r300 : r300_context) (a : AtomName) : r300_context :=
  set_dirty r300 a

/-- One step of the flush walk on atom `a`: emit it and clear its flag when
it is dirty.  The accumulator holds the atoms emitted so far. -/
def emit_step (acc : List AtomName × r300_context) (a : AtomName) :
    List AtomName × r300_context :=
  if (acc.2.atoms a).dirty = true then
    (acc.1 ++ [a], acc.2.modify a (fun at0 => { at0 with dirty := false }))
  else acc

/-- Modelled from the spec: the flush walk ("walk Atom Registry in fixed
order, emit each dirty atom, clear dirty flags"; `r300_emit_dirty_state` is
in `r300_emit.c`, which is not among the sources).  Returns the atoms in the
order they are emitted and the context afterwards. -/
def emit_dirty_state (r300 : r300_context) : List AtomName × r300_context :=
  r300.atom_list.foldl emit_step ([], r300)

/-! ## Priming (`r300_init_states`) -/

/-- The command-buffer writer macros used by `r300_init_states`. -/
inductive cb_op where
  | OUT_CB_REG (reg : String)
  | OUT_CB_REG_SEQ (reg : String) (count : Nat)
  | OUT_CB_32F
deriving DecidableEq, Repr

/-- Modelled from the spec: the number of dwords each writer macro of
`r300_cb.h` (not among the sources) appends: a register write is a packet
header plus a value, a register-sequence header is one dword, a float is one
dword. -/
def cb_op.dwords : cb_op → Nat
  | cb_op.OUT_CB_REG _ => 2
  | cb_op.OUT_CB_REG_SEQ _ _ => 1
  | cb_op.OUT_CB_32F => 1

/-- One `BEGIN_CB(ptr, size)` ... `END_CB` block: the atom whose state block
holds the buffer, the buffer member, the reserved size and the writes. -/
structure cb_block where
  atom : AtomName
  buffer : String
  reserved : Nat
  ops : List cb_op
deriving DecidableEq, Repr

/-- Dwords written between `BEGIN_CB` and `END_CB`. -/
def cb_block.written (b : cb_block) : Nat :=
  (b.ops.map cb_op.dwords).sum

/-- Modelled from the spec: `BEGIN_CB` sets `cs_count` to the reserved size,
every written dword decrements it; this is its value when `END_CB` checks
that it is zero. -/
def cb_block.cs_count_at_END_CB (b : cb_block) : Int :=
  (b.reserved : Int) - (b.written : Int)

/-- Modelled from the spec: a state-set entry point called through `pipe->`
(installed by `r300_init_state_functions`, `r300_state.c` is not among the
sources): it mutates the state block of its atom, which must therefore be
non-null, and marks the atom dirty. -/
def state_set_call (r300 : r300_context) (a : AtomName) : Option r300_context :=
  if (r300.atoms a).state.isSome then some (mark_dirty r300 a) else none

/-- Writing a command buffer that lives in the state block of atom `a`
dereferences that block. -/
def write_cb (r300 : r300_context) (b : cb_block) : Option cb_block :=
  if (r300.atoms b.atom).state.isSome then some b else none

/-- The block written to `clip->cb` when there is no hardware TCL. -/
def clip_block : cb_block :=
  { atom := clip_state, buffer := "cb", reserved := 2,
    ops := [cb_op.OUT_CB_REG "R300_VAP_CLIP_CNTL"] }

/-- The block written to `gpuflush->cb_flush_clean`. -/
def gpu_flush_block : cb_block :=
  { atom := gpu_flush, buffer := "cb_flush_clean", reserved := 6,
    ops := [cb_op.OUT_CB_REG "R300_RB3D_DSTCACHE_CTLSTAT",
            cb_op.OUT_CB_REG "R300_ZB_ZCACHE_CTLSTAT",
            cb_op.OUT_CB_REG "RADEON_WAIT_UNTIL"] }

/-- The block written to `vap_invariant->cb`. -/
def vap_invariant_block : cb_block :=
  { atom := vap_invariant_state, buffer := "cb", reserved := 9,
    ops := [cb_op.OUT_CB_REG "VAP_PVS_VTX_TIMEOUT_REG",
            cb_op.OUT_CB_REG_SEQ "R300_VAP_GB_VERT_CLIP_ADJ" 4,
            cb_op.OUT_CB_32F, cb_op.OUT_CB_32F, cb_op.OUT_CB_32F,
            cb_op.OUT_CB_32F,
            cb_op.OUT_CB_REG "R300_VAP_PSC_SGN_NORM_CNTL"] }

/-- The block written to `invariant->cb`; it reserves
`r300->invariant_state.size` dwords. -/
def invariant_block (r300 : r300_context) (caps : Caps) : cb_block :=
  { atom := invariant_state, buffer := "cb",
    reserved := (r300.atoms invariant_state).size,
    ops := [cb_op.OUT_CB_REG "R300_GB_SELECT",
            cb_op.OUT_CB_REG "R300_FG_FOG_BLEND",
            cb_op.OUT_CB_REG "R300_GA_ROUND_MODE",
            cb_op.OUT_CB_REG "R300_GA_OFFSET",
            cb_op.OUT_CB_REG "R300_SU_TEX_WRAP",
            cb_op.OUT_CB_REG "R300_SU_DEPTH_SCALE",
            cb_op.OUT_CB_REG "R300_SU_DEPTH_OFFSET",
            cb_op.OUT_CB_REG "R300_SC_EDGERULE"]
           ++ (if caps.is_rv350 then
                [cb_op.OUT_CB_REG "R500_RB3D_DISCARD_SRC_PIXEL_LTE_THRESHOLD",
                 cb_op.OUT_CB_REG "R500_RB3D_DISCARD_SRC_PIXEL_GTE_THRESHOLD"]
               else []) }

/-- The block written to `hyperz->cb_flush_begin`; it reserves
`r300->hyperz_state.size` dwords. -/
def hyperz_block (r300 : r300_context) (caps : Caps) : cb_block :=
  { atom := hyperz_state, buffer := "cb_flush_begin",
    reserved := (r300.atoms hyperz_state).size,
    ops := [cb_op.OUT_CB_REG "R300_ZB_ZCACHE_CTLSTAT",
            cb_op.OUT_CB_REG "R300_ZB_BW_CNTL",
            cb_op.OUT_CB_REG "R300_ZB_DEPTHCLEARVALUE",
            cb_op.OUT_CB_REG "R300_SC_HYPERZ"]
           ++ (if caps.is_r500 || (caps.is_rv350 && caps.drm_2_6_0) then
                [cb_op.OUT_CB_REG "R300_GB_Z_PEQ_CONFIG"]
               else []) }

/-- The clip-state step of `r300_init_states`: `pipe->set_clip_state` with
hardware TCL, the direct write of `clip->cb` without. -/
def init_clip_state (r300 : r300_context) (caps : Caps) :
    Option (r300_context × List cb_block) :=
  if caps.has_tcl then
    (state_set_call r300 clip_state).map (fun r1 => (r1, []))
  else
    (write_cb r300 clip_block).map (fun b => (r300, [b]))

/-- Embedding of `r300_init_states`: the state-set calls and the
command-buffer blocks, in source order.  Returns the context and the blocks
written, or `none` when a null state block is dereferenced. -/
def r300_init_states (r300 : r300_context) (caps : Caps) :
    Option (r300_context × List cb_block) := do
  let r ← state_set_call r300 blend_color_state
  let r ← state_set_call r scissor_state
  let (r, bs) ← init_clip_state r caps
  let b_flush ← write_cb r gpu_flush_block
  let b_vap ← write_cb r vap_invariant_block
  let b_inv ← write_cb r (invariant_block r caps)
  let b_hz ← write_cb r (hyperz_block r caps)
  pure (r, bs ++ [b_flush, b_vap, b_inv, b_hz])

/-- The context `r300_init_states` returns when no state block it touches
is null: the atoms of the state-set calls it made are dirty. -/
def primed (r : r300_context) (caps : Caps) : r300_context :=
  let r1 := mark_dirty (mark_dirty r blend_color_state) scissor_state
  if caps.has_tcl then mark_dirty r1 clip_state else r1

/-! ## Context lifecycle (`r300_create_context`, `r300_destroy_context`) -/

/-- The externally visible steps of `r300_destroy_context`, in the order
they are performed. -/
inductive action where
  | util_blitter_destroy
  | draw_destroy
  | u_upload_destroy_vb
  | u_upload_destroy_ib
  | translate_cache_destroy
  | release_referenced_objects
  | r300_hyperz_destroy_mm
  | cs_destroy
  | util_mempool_destroy
  | update_num_contexts (diff : Int)
  | FREE_state (a : AtomName) (ptr : Option state_struct)
  | FREE_context
  | context_flush
deriving DecidableEq, Repr

/-- Embedding of `r300_flush_cb`, the callback registered with
`rws->cs_set_flush`: it calls the context's flush entry,
`cs_context_copy->context.flush(&cs_context_copy->context, 0, NULL)`. -/
def r300_flush_cb : List action := [action.context_flush]

/-- Assignment `r300->texkill_sampler = ...`. -/
def set_texkill_sampler (r300 : r300_context) (v : Bool) : r300_context :=
  { r300 with texkill_sampler := v }

/-- Embedding of `r300_release_referenced_objects` as far as null pointers
go: `util_unreference_framebuffer_state(fb)` reads the fields of `*fb` and
the sampler-view loop reads `textures->sampler_view_count`, so either state
block being null is a null dereference (`none`).  The texkill sampler
reference is dropped when set. -/
def r300_release_referenced_objects (r300 : r300_context) :
    Option r300_context :=
  if (r300.atoms fb_state).state.isSome then
    if (r300.atoms textures_state).state.isSome then
      some (set_texkill_sampler r300 false)
    else none
  else none

/-- The `FREE` calls under `if (r300->aa_state.state)` in
`r300_destroy_context`, in source order. -/
def free_atom_states (r300 : r300_context) (caps : Caps) : List action :=
  if (r300.atoms aa_state).state.isSome then
    ([aa_state, blend_color_state, clip_state, fb_state, gpu_flush,
      hyperz_state, invariant_state, rs_block_state, scissor_state,
      textures_state, vap_invariant_state, viewport_state, ztop_state,
      fs_constants, vs_constants]
      ++ (if !caps.has_tcl then [vertex_stream_state] else [])).map
      (fun a => action.FREE_state a (r300.atoms a).state)
  else []

/-- The steps `r300_destroy_context` takes before it notifies the pool
coordinator, written as in the function body: the guarded subsystem
releases, `r300_release_referenced_objects`, the hyper-Z manager, the command
stream and `pool_transfers`. -/
def destroy_release_steps (r300 : r300_context) : List action :=
  let t : List action := []
  let t := if r300.blitter then t ++ [action.util_blitter_destroy] else t
  let t := if r300.draw then t ++ [action.draw_destroy] else t
  let t := if r300.upload_vb then t ++ [action.u_upload_destroy_vb] else t
  let t := if r300.upload_ib then t ++ [action.u_upload_destroy_ib] else t
  let t := if r300.translate_cache then t ++ [action.translate_cache_destroy]
           else t
  let t := t ++ [action.release_referenced_objects]
  let t := if r300.zmask_mm then t ++ [action.r300_hyperz_destroy_mm] else t
  let t := if r300.cs then t ++ [action.cs_destroy] else t
  let t := t ++ [action.util_mempool_destroy]
  t

/-- The atoms named by the `FREE` calls of a trace, in order. -/
def free_calls (t : List action) : List AtomName :=
  t.filterMap (fun x =>
    match x with
    | action.FREE_state a _ => some a
    | _ => none)

/-- The atoms whose state block a `FREE` call of the trace released, that
is, those passed with a non-null pointer. -/
def freed_blocks (t : List action) : List AtomName :=
  t.filterMap (fun x =>
    match x with
    | action.FREE_state a (some _) => some a
    | _ => none)

/-- Embedding of `r300_destroy_context`: the new screen state and the steps
taken, or `none` on a null dereference.  The statistics printout under
`DBG_STATS` changes no state and is left out. -/
def r300_destroy_context (r300 : r300_context) (screen : r300_screen)
    (caps : Caps) : Option (r300_screen × List action) := do
  let t : List action := []
  let t := if r300.blitter then t ++ [action.util_blitter_destroy] else t
  let t := if r300.draw then t ++ [action.draw_destroy] else t
  let t := if r300.upload_vb then t ++ [action.u_upload_destroy_vb] else t
  let t := if r300.upload_ib then t ++ [action.u_upload_destroy_ib] else t
  let t := if r300.translate_cache then t ++ [action.translate_cache_destroy]
           else t
  let r ← r300_release_referenced_objects r300
  let t := t ++ [action.release_referenced_objects]
  let t := if r.zmask_mm then t ++ [action.r300_hyperz_destroy_mm] else t
  let t := if r.cs then t ++ [action.cs_destroy] else t
  let t := t ++ [action.util_mempool_destroy]
  let screen1 := r300_update_num_contexts screen (-1)
  let t := t ++ [action.update_num_contexts (-1)]
  let t := t ++ free_atom_states r caps
  let t := t ++ [action.FREE_context]
  pure (screen1, t)

/-- Which of the allocations made by `r300_create_context` succeed. -/
structure alloc_plan where
  context : Bool
  cs : Bool
  draw : Bool
  atom_state : AtomName → Bool
  blitter : Bool
  hyperz_mm : Bool
  upload_ib : Bool
  upload_vb : Bool
  translate_cache : Bool
  texkill_tex : Bool
  texkill_view : Bool

/-- Every allocation succeeds. -/
def alloc_plan.all_ok : alloc_plan :=
  { context := true, cs := true, draw := true, atom_state := alloc_all,
    blitter := true, hyperz_mm := true, upload_ib := true, upload_vb := true,
    translate_cache := true, texkill_tex := true, texkill_view := true }

/-- What a completed `r300_create_context` call leaves behind: the returned
context (`none` is `NULL`), the screen, and the teardown steps taken on the
`fail:` path. -/
structure create_result where
  context : Option r300_context
  screen : r300_screen
  teardown : List action

/-- The `fail:` label of `r300_create_context`: destroy the partial context
and return `NULL`. -/
def create_fail (r300 : r300_context) (screen : r300_screen) (caps : Caps) :
    Option create_result :=
  (r300_destroy_context r300 screen caps).map
    (fun st => { context := none, screen := st.1, teardown := st.2 })

/-- Assignment `r300->cs = ...` (`true` for a non-null result). -/
def set_cs (r300 : r300_context) (v : Bool) : r300_context :=
  { r300 with cs := v }

/-- Assignment `r300->draw = ...`. -/
def set_draw (r300 : r300_context) (v : Bool) : r300_context :=
  { r300 with draw := v }

/-- Assignment `r300->blitter = ...`. -/
def set_blitter (r300 : r300_context) (v : Bool) : r300_context :=
  { r300 with blitter := v }

/-- Registration `rws->cs_set_flush(r300->cs, r300_flush_cb, r300)`. -/
def set_flush_cb (r300 : r300_context) : r300_context :=
  { r300 with flush_cb_set := true }

/-- Assignment to `r300->zmask_mm` inside `r300_hyperz_init_mm`. -/
def set_zmask_mm (r300 : r300_context) (v : Bool) : r300_context :=
  { r300 with zmask_mm := v }

/-- Assignment `r300->upload_ib = ...`. -/
def set_upload_ib (r300 : r300_context) (v : Bool) : r300_context :=
  { r300 with upload_ib := v }

/-- Assignment `r300->upload_vb = ...`. -/
def set_upload_vb (r300 : r300_context) (v : Bool) : r300_context :=
  { r300 with upload_vb := v }

/-- Assignment `r300->tran.translate_cache = ...`. -/
def set_translate_cache (r300 : r300_context) (v : Bool) : r300_context :=
  { r300 with translate_cache := v }

/-- The end of `r300_create_context`, from `r300_init_states` on: priming,
then the dummy texkill texture on r3xx-r4xx, then `return &r300->context`.
`tex->format` reads the dummy texture, so a failed `resource_create` is a
null dereference. -/
def create_finish (r300 : r300_context) (screen : r300_screen) (caps : Caps)
    (plan : alloc_plan) : Option create_result :=
  match r300_init_states r300 caps with
  | none => none
  | some (r300, _) =>
    if !caps.is_r500 then
      if !plan.texkill_tex then none
      else
        some { context := some (set_texkill_sampler r300 plan.texkill_view),
               screen := screen, teardown := [] }
    else
      some { context := some r300, screen := screen, teardown := [] }

/-- The part of `r300_create_context` between `r300_setup_atoms` and
`r300_init_states`: blitter, flush callback, hyper-Z memory manager, upload
managers and translate cache, each followed by its `goto fail` test.
`r300_hyperz_init_mm` is taken to leave `zmask_mm` null when it fails. -/
def create_subsystems (r300 : r300_context) (screen : r300_screen)
    (caps : Caps) (plan : alloc_plan) : Option create_result :=
  let r300 := set_blitter r300 plan.blitter
  if !r300.blitter then create_fail r300 screen caps
  else
    let r300 := set_flush_cb r300
    if caps.can_hyperz && !plan.hyperz_mm then create_fail r300 screen caps
    else
      let r300 := if caps.can_hyperz then set_zmask_mm r300 true else r300
      let r300 := set_upload_ib r300 plan.upload_ib
      if !r300.upload_ib then create_fail r300 screen caps
      else
        let r300 := set_upload_vb r300 plan.upload_vb
        if !r300.upload_vb then create_fail r300 screen caps
        else
          let r300 := set_translate_cache r300 plan.translate_cache
          if !r300.translate_cache then create_fail r300 screen caps
          else create_finish r300 screen caps plan

/-- Embedding of `r300_create_context`.  `none` is a null dereference (the
call does not complete); `some res` is a completed call.
`draw_set_rasterize_stage` stores into `*draw`, so a failed `draw_create` is
a null dereference. -/
def r300_create_context (screen : r300_screen) (caps : Caps)
    (plan : alloc_plan) : Option create_result :=
  if !plan.context then
    some { context := none, screen := screen, teardown := [] }
  else
    let screen := r300_update_num_contexts screen 1
    let r300 := set_cs r300_context.zero plan.cs
    if !r300.cs then create_fail r300 screen caps
    else if !caps.has_tcl && !plan.draw then none
    else
      let r300 := if !caps.has_tcl then set_draw r300 true else r300
      let r300 := r300_setup_atoms r300 caps plan.atom_state
      create_subsystems r300 screen caps plan

/-- One call in a history of a screen: a create with its allocation
outcomes, or a destroy of the `i`-th live context. -/
inductive call where
  | create (plan : alloc_plan)
  | destroy (i : Nat)

/-- A screen together with its live contexts (successfully created and not
yet destroyed), oldest first. -/
structure world where
  screen : r300_screen
  live : List r300_context

/-- The state before any context exists. -/
def world.init : world := { screen := screen_init, live := [] }

/-- One completed call.  `none` when the call does not complete (a null
dereference) or when a destroy names no live context. -/
def world.step (caps : Caps) (w : world) : call → Option world
  | call.create plan =>
    match r300_create_context w.screen caps plan with
    | none => none
    | some res =>
      match res.context with
      | none => some { screen := res.screen, live := w.live }
      | some ctx => some { screen := res.screen, live := w.live ++ [ctx] }
  | call.destroy i =>
    match w.live.get? i with
    | none => none
    | some ctx =>
      match r300_destroy_context ctx w.screen caps with
      | none => none
      | some st => some { screen := st.1, live := w.live.eraseIdx i }

/-- A sequential history of calls. -/
def world.run (caps : Caps) (w : world) : List call → Option world
  | [] => some w
  | c :: cs =>
    match w.step caps c with
    | none => none
    | some w1 => w1.run caps cs

/-- The count tracks the number of live contexts, as a 32-bit counter
does. -/
def count_inv (w : world) : Prop :=
  w.screen.num_contexts = wrap_int32 (w.live.length : Int)

/-- A context whose framebuffer and texture state blocks are allocated can
be destroyed. -/
def destroyable (ctx : r300_context) : Prop :=
  (ctx.atoms fb_state).state.isSome = true ∧
  (ctx.atoms textures_state).state.isSome = true

/-- An example capability set: an r3xx-class chip without hardware TCL,
hyper-Z or the newer DRM features. -/
def caps_swtcl : Caps :=
  { is_rv350 := false, is_r500 := false, has_tcl := false, hiz_ram := 0,
    drm_2_3_0 := false, drm_2_6_0 := false, can_hyperz := false }

/-- An example allocation outcome: everything succeeds except
`util_blitter_create`. -/
def plan_blitter_fails : alloc_plan :=
  { alloc_plan.all_ok with blitter := false }

/-- An allocation outcome in which only `rws->cs_create` fails. -/
def plan_cs_fails : alloc_plan := { alloc_plan.all_ok with cs := false }

/-- The state blocks `r300_setup_atoms` allocates unconditionally. -/
def setup_alloc_atoms : List AtomName :=
  [aa_state, blend_color_state, clip_state, fb_state, gpu_flush,
   hyperz_state, invariant_state, rs_block_state, scissor_state,
   textures_state, vap_invariant_state, viewport_state, ztop_state,
   fs_constants, vs_constants]

/-- The subsystem pointers of a context, apart from its atoms. -/
def subsystems (r : r300_context) :
    Bool × Bool × Bool × Bool × Bool × Bool × Bool × Bool × Bool :=
  (r.cs, r.draw, r.blitter, r.zmask_mm, r.upload_ib, r.upload_vb,
   r.translate_cache, r.texkill_sampler, r.flush_cb_set)

/-- The context `r300_create_context` hands to `r300_setup_atoms`: zeroed,
with the command stream and, without hardware TCL, the draw module. -/
def context_before_atoms (caps : Caps) : r300_context :=
  if !caps.has_tcl then set_draw (set_cs r300_context.zero true) true
  else set_cs r300_context.zero true

/-- The subsystem stage of create when every creation in it succeeds. -/
def with_subsystems (r : r300_context) (caps : Caps) : r300_context :=
  let r := set_flush_cb (set_blitter r true)
  let r := if caps.can_hyperz then set_zmask_mm r true else r
  set_translate_cache (set_upload_vb (set_upload_ib r true) true) true

/-- The context a successful `r300_create_context` returns, as a function
of the capability set, of the outcome of the state-block allocations and of
the texkill sampler view. -/
def created_context (caps : Caps) (plan : alloc_plan) : r300_context :=
  let r := primed (with_subsystems
    (r300_setup_atoms (context_before_atoms caps) caps plan.atom_state) caps) caps
  if !caps.is_r500 then set_texkill_sampler r plan.texkill_view else r

/-- The allocations whose failure `r300_create_context` tests, and those it
dereferences right away, all succeed. -/
def plan_reaches_return (caps : Caps) (plan : alloc_plan) : Prop :=
  plan.context = true ∧ plan.cs = true ∧
  (caps.has_tcl = true ∨ plan.draw = true) ∧
  plan.blitter = true ∧ (caps.can_hyperz = true → plan.hyperz_mm = true) ∧
  plan.upload_ib = true ∧ plan.upload_vb = true ∧
  plan.translate_cache = true ∧
  (caps.is_r500 = true ∨ plan.texkill_tex = true) ∧
  (∀ a ∈ [blend_color_state, scissor_state, clip_state, gpu_flush,
          vap_invariant_state, invariant_state, hyperz_state],
    plan.atom_state a = true)

/-- An allocation outcome in which only the texkill sampler view fails. -/
def plan_texkill_view_fails : alloc_plan :=
  { alloc_plan.all_ok with texkill_view := false }

/-- An allocation outcome in which only the `aa_state` state block fails. -/
def plan_aa_state_fails : alloc_plan :=
  { alloc_plan.all_ok with atom_state := fun a => decide (a ≠ aa_state) }

/-- An allocation outcome in which only `draw_create` fails. -/
def plan_draw_fails : alloc_plan := { alloc_plan.all_ok with draw := false }

/-- An allocation outcome in which only the dummy texkill texture fails. -/
def plan_texkill_tex_fails : alloc_plan :=
  { alloc_plan.all_ok with texkill_tex := false }

/-! ## Reference slots (`r300_release_referenced_objects`, `r300_finish`) -/

/-- A reference-counted pipe object held through a pointer slot of the
context: a surface, a sampler view or a resource (buffer or texture). -/
inductive pipe_object where
  | surface (id : Nat)
  | sampler_view (id : Nat)
  | resource (id : Nat)
deriving DecidableEq, Repr

/-- Embedding of `struct pipe_surface` as far as it is read here: the
identity of the surface and its `texture` pointer (`none` is null), named by
the buffer `r300_texture(texture)->buffer` that `r300_finish` waits on. -/
structure pipe_surface where
  id : Nat
  texture : Option Nat
deriving DecidableEq, Repr

/-- Embedding of `struct pipe_framebuffer_state`: `cbufs` is the array of
surface pointers, `zsbuf` the depth/stencil surface pointer. -/
structure pipe_framebuffer_state where
  nr_cbufs : Nat
  cbufs : List (Option pipe_surface)
  zsbuf : Option pipe_surface
deriving DecidableEq, Repr

/-- Embedding of the part of `struct r300_textures_state` that
`r300_release_referenced_objects` reads: the sampler view pointers. -/
structure r300_textures_state where
  sampler_view_count : Nat
  sampler_views : List (Option Nat)
deriving DecidableEq, Repr

/-- The pointer slots of `struct r300_context` through which the context
holds references, with the contents of the two state blocks they live in
(`none` for a null `fb_state.state` or `textures_state.state`). -/
structure r300_references where
  fb_state : Option pipe_framebuffer_state
  textures_state : Option r300_textures_state
  texkill_sampler : Option Nat
  vbo : Option Nat
  vertex_buffer_count : Nat
  vertex_buffer : List (Option Nat)
deriving DecidableEq, Repr

/-- Modelled from the spec: `pipe_surface_reference(&slot, NULL)`,
`pipe_sampler_view_reference(&slot, NULL)` and
`pipe_resource_reference(&slot, NULL)` (`u_inlines.h` is not among the
sources): a non-null slot gives up one reference of its object, whose count
goes down by one ("released when reference count reaches zero"); a null slot
changes nothing.  The caller sets the slot to null. -/
def unreference (rc : pipe_object → Nat) : Option pipe_object → pipe_object → Nat
  | none => rc
  | some x => fun y => if y = x then rc y - 1 else rc y

/-- The loop `for (i = 0; i < n; i++) reference(&slots[i], NULL)`: the first
`n` slots are unreferenced and set to null. -/
def unreference_slots {α : Type} (mk : α → pipe_object) :
    Nat → List (Option α) → (pipe_object → Nat) →
      List (Option α) × (pipe_object → Nat)
  | 0, l, rc => (l, rc)
  | _ + 1, [], rc => ([], rc)
  | n + 1, s :: l, rc =>
    let res := unreference_slots mk n l (unreference rc (s.map mk))
    (none :: res.1, res.2)

/-- The object a surface pointer refers to. -/
def surface_object (s : pipe_surface) : pipe_object := pipe_object.surface s.id

/-- Modelled from the spec: `util_unreference_framebuffer_state`
(`u_framebuffer.c` is not among the sources): it releases the first
`nr_cbufs` colour surfaces and the depth/stencil surface and resets
`nr_cbufs`. -/
def util_unreference_framebuffer_state (fb : pipe_framebuffer_state)
    (rc : pipe_object → Nat) : pipe_framebuffer_state × (pipe_object → Nat) :=
  let res := unreference_slots surface_object fb.nr_cbufs fb.cbufs rc
  let rc := unreference res.2 (fb.zsbuf.map surface_object)
  ({ nr_cbufs := 0, cbufs := res.1, zsbuf := none }, rc)

/-- Embedding of `r300_release_referenced_objects` on the reference slots
and the reference counts `rc` of the objects (the null-pointer view of the
same function is `r300_release_referenced_objects` above): the framebuffer surfaces, the
first `sampler_view_count` sampler views, the texkill sampler if set, the
SWTCL vbo and the first `vertex_buffer_count` vertex buffers are
unreferenced and their slots set to null.  `none` when `fb_state.state` or
`textures_state.state` is null. -/
def r300_release_referenced_objects_counted (r300 : r300_references)
    (rc : pipe_object → Nat) :
    Option (r300_references × (pipe_object → Nat)) :=
  match r300.fb_state, r300.textures_state with
  | some fb, some textures =>
    -- Framebuffer state.
    let fbr := util_unreference_framebuffer_state fb rc
    -- Textures.
    let svr := unreference_slots pipe_object.sampler_view
      textures.sampler_view_count textures.sampler_views fbr.2
    -- The special dummy texture for texkill.
    let rc := if r300.texkill_sampler.isSome then
        unreference svr.2 (r300.texkill_sampler.map pipe_object.sampler_view)
      else svr.2
    -- The SWTCL VBO.
    let rc := unreference rc (r300.vbo.map pipe_object.resource)
    -- Vertex buffers.
    let vbr := unreference_slots pipe_object.resource r300.vertex_buffer_count
      r300.vertex_buffer rc
    some ({ fb_state := some fbr.1,
            textures_state := some { textures with sampler_views := svr.1 },
            texkill_sampler := none, vbo := none,
            vertex_buffer_count := r300.vertex_buffer_count,
            vertex_buffer := vbr.1 }, vbr.2)
  | _, _ => none

/-- The references a context holds and `r300_release_referenced_objects`
gives up: each bound framebuffer surface, each of the first
`sampler_view_count` sampler views, the texkill sampler, the SWTCL vbo and
each of the first `vertex_buffer_count` vertex buffers. -/
def held_references (r300 : r300_references) : List pipe_object :=
  (match r300.fb_state with
   | some fb => (fb.cbufs.take fb.nr_cbufs).filterMap (Option.map surface_object)
                ++ (fb.zsbuf.map surface_object).toList
   | none => [])
  ++ (match r300.textures_state with
      | some textures =>
        (textures.sampler_views.take textures.sampler_view_count).filterMap
          (Option.map pipe_object.sampler_view)
      | none => [])
  ++ (r300.texkill_sampler.map pipe_object.sampler_view).toList
  ++ (r300.vbo.map pipe_object.resource).toList
  ++ (r300.vertex_buffer.take r300.vertex_buffer_count).filterMap
       (Option.map pipe_object.resource)

/-- The loop of `r300_finish` over the colour buffers: `none` when a null
`cbufs[i]` is dereferenced, `some (some b)` when the first surface with a
texture has buffer `b`, `some none` when no colour buffer has a texture. -/
def finish_cbufs : Nat → List (Option pipe_surface) → Option (Option Nat)
  | 0, _ => some none
  | _ + 1, [] => none
  | _ + 1, none :: _ => none
  | n + 1, some s :: l =>
    match s.texture with
    | some b => some (some b)
    | none => finish_cbufs n l

/-- Embedding of `r300_finish`: the context afterwards and the buffers
passed to `rws->buffer_wait`, in call order; `none` on a null dereference.
The function writes no field of the context. -/
def r300_finish (r300 : r300_references) : Option (r300_references × List Nat) :=
  match r300.fb_state with
  | none => some (r300, [])
  | some fb =>
    match finish_cbufs fb.nr_cbufs fb.cbufs with
    | none => none
    | some (some b) => some (r300, [b])
    | some none =>
      match fb.zsbuf with
      | none => some (r300, [])
      | some zs =>
        match zs.texture with
        | none => some (r300, [])
        | some b => some (r300, [b])

/-- Two reference slots on surface 7 and one on sampler view 5: an example
context with a colour buffer, a depth buffer on the same surface and one
sampler view. -/
def refs_example : r300_references :=
  { fb_state := some { nr_cbufs := 1, cbufs := [some { id := 7, texture := some 3 }],
                       zsbuf := some { id := 7, texture := some 3 } },
    textures_state := some { sampler_view_count := 1, sampler_views := [some 5] },
    texkill_sampler := none, vbo := none,
    vertex_buffer_count := 0, vertex_buffer := [] }

/-- A second example context, holding one reference on sampler view 5. -/
def refs_example2 : r300_references :=
  { fb_state := some { nr_cbufs := 0, cbufs := [], zsbuf := none },
    textures_state := some { sampler_view_count := 1, sampler_views := [some 5] },
    texkill_sampler := none, vbo := none,
    vertex_buffer_count := 0, vertex_buffer := [] }

/-- Reference counts matching the two example contexts. -/
def counts_example : pipe_object → Nat
  | pipe_object.surface 7 => 2
  | pipe_object.sampler_view 5 => 2
  | _ => 0

/-- An allocation outcome in which only the translate cache fails. -/
def plan_translate_cache_fails : alloc_plan :=
  { alloc_plan.all_ok with translate_cache := false }

/-- A framebuffer with a texture-less colour buffer, a colour buffer on
buffer 9 and a depth buffer on buffer 4. -/
def refs_two_cbufs : r300_references :=
  { fb_state := some { nr_cbufs := 2,
                       cbufs := [some { id := 1, texture := none },
                                 some { id := 2, texture := some 9 }],
                       zsbuf := some { id := 3, texture := some 4 } },
    textures_state := none, texkill_sampler := none, vbo := none,
    vertex_buffer_count := 0, vertex_buffer := [] }

/-! # Theorems -/

theorem pool_inv_init : pool_inv screen_init := by
  unfold pool_inv screen_init; simp

/-- One call that does not wrap the counter preserves the invariant. -/
theorem pool_inv_step (s : r300_screen) (diff : Int) (h : pool_inv s)
    (hw : if diff > 0 then s.num_contexts < 2147483647
          else -2147483648 < s.num_contexts) :
    pool_inv (r300_update_num_contexts s diff) := by
  obtain ⟨h1, h2⟩ := h
  obtain ⟨n, p, hn⟩ := s
  simp only at h1 h2 hw
  by_cases hd : diff > 0
  · rw [if_pos hd] at hw
    have e : wrap_int32 (n + 1) = n + 1 := by unfold wrap_int32; omega
    cases p <;> simp only [pool_inv, r300_update_num_contexts, hd, if_true, e] <;>
      split_ifs <;> simp_all <;> omega
  · rw [if_neg hd] at hw
    have e : wrap_int32 (n - 1) = n - 1 := by unfold wrap_int32; omega
    cases p <;> simp only [pool_inv, r300_update_num_contexts, hd, if_false, e] <;>
      split_ifs <;> simp_all <;> omega

theorem pool_inv_foldl (diffs : List Int) (s : r300_screen) (h : pool_inv s)
    (hw : no_wrap s diffs) :
    pool_inv (diffs.foldl r300_update_num_contexts s) := by
  induction diffs generalizing s with
  | nil => simpa using h
  | cons d ds ih => exact ih _ (pool_inv_step s d h hw.1) hw.2

/-- The count after one call. -/
theorem update_num_contexts_count (s : r300_screen) (diff : Int) :
    (r300_update_num_contexts s diff).num_contexts
      = wrap_int32 (if diff > 0 then s.num_contexts + 1 else s.num_contexts - 1) := by
  simp only [r300_update_num_contexts]
  split_ifs <;> rfl

/-- A sequence of at most 2^31 - 1 calls from the initial screen cannot
wrap the counter. -/
theorem no_wrap_of_length (diffs : List Int) (s : r300_screen)
    (h : s.num_contexts.natAbs + diffs.length ≤ 2147483647) : no_wrap s diffs := by
  induction diffs generalizing s with
  | nil => trivial
  | cons d ds ih =>
    simp only [List.length_cons] at h
    have hc := update_num_contexts_count s d
    refine ⟨?_, ih _ ?_⟩
    · split_ifs <;> omega
    · rw [hc]
      unfold wrap_int32
      split_ifs <;> omega

/-- C1: starting from no context and a single-threaded pool, after every
sequence of `r300_update_num_contexts` calls (each `diff` being +1 or -1, or
indeed any value) that does not wrap the 32-bit counter - every sequence of
at most 2^31 - 1 calls is one - the pool is single-threaded iff
`num_contexts <= 1` and multi-threaded iff `num_contexts > 1`. -/
theorem C1_pool_mode_invariant (diffs : List Int)
    (hw : diffs.length ≤ 2147483647 ∨ no_wrap screen_init diffs) :
    ((update_seq screen_init diffs).pool_buffers = UTIL_MEMPOOL_SINGLETHREADED
        ↔ (update_seq screen_init diffs).num_contexts ≤ 1) ∧
    ((update_seq screen_init diffs).pool_buffers = UTIL_MEMPOOL_MULTITHREADED
        ↔ (update_seq screen_init diffs).num_contexts > 1) := by
  have hn : no_wrap screen_init diffs := by
    rcases hw with hw | hw
    · exact no_wrap_of_length diffs screen_init (by simpa [screen_init] using hw)
    · exact hw
  exact pool_inv_foldl diffs screen_init pool_inv_init hn

theorem modify_atom_list (r : r300_context) (a : AtomName)
    (f : r300_atom → r300_atom) : (r.modify a f).atom_list = r.atom_list := rfl

theorem init_atom_list (r : r300_context) (a : AtomName) (n : Nat) :
    (R300_INIT_ATOM r a n).atom_list = r.atom_list ++ [a] := rfl

theorem setup_atom_list (r300 : r300_context) (caps : Caps)
    (alloc : AtomName → Bool) :
    (r300_setup_atoms r300 caps alloc).atom_list =
      registry_base
        ++ (if caps.can_hyperz = true ∧ caps.hiz_ram > 0 then [hiz_clear] else [])
        ++ (if caps.can_hyperz = true then [zmask_clear] else [])
        ++ [query_start] := by
  obtain ⟨rv350, r500, tcl, hiz, d23, d26, hz⟩ := caps
  by_cases hh : hiz > 0 <;> cases hz <;> cases r500 <;> cases tcl <;>
    simp [r300_setup_atoms, init_atom_list, set_state, set_allow_null_state,
      set_dirty, set_emit_r500, modify_atom_list, registry_base, hh]

theorem modify_atoms (r : r300_context) (a b : AtomName)
    (f : r300_atom → r300_atom) :
    (r.modify a f).atoms b = if b = a then f (r.atoms b) else r.atoms b := rfl

theorem init_atom_atoms (r : r300_context) (a b : AtomName) (n : Nat) :
    (R300_INIT_ATOM r a n).atoms b =
      if b = a then
        { r.atoms b with name := a.cname, state := none, size := n,
                         emit := emit_fn.r300_emit a, dirty := false }
      else r.atoms b := rfl

theorem set_state_atoms (r : r300_context) (a b : AtomName) (ty : state_struct)
    (ok : Bool) :
    (set_state r a ty ok).atoms b =
      if b = a then { r.atoms b with state := if ok then some ty else none }
      else r.atoms b := rfl

theorem set_allow_null_state_atoms (r : r300_context) (a b : AtomName) :
    (set_allow_null_state r a).atoms b =
      if b = a then { r.atoms b with allow_null_state := true }
      else r.atoms b := rfl

theorem set_dirty_atoms (r : r300_context) (a b : AtomName) :
    (set_dirty r a).atoms b =
      if b = a then { r.atoms b with dirty := true } else r.atoms b := rfl

theorem set_emit_r500_atoms (r : r300_context) (a b : AtomName) :
    (set_emit_r500 r a).atoms b =
      if b = a then { r.atoms b with emit := emit_fn.r500_emit a }
      else r.atoms b := rfl

theorem ite_ctx_atoms (c : Prop) [Decidable c] (x y : r300_context)
    (b : AtomName) :
    (if c then x else y).atoms b = if c then x.atoms b else y.atoms b := by
  split <;> rfl

/-- C4: for every capability set the list built by `r300_setup_atoms` is
the 25 fixed atoms in source order, then `hiz_clear` iff hyper-Z is available
and `hiz_ram > 0`, then `zmask_clear` iff hyper-Z is available, then
`query_start`; no other capability changes membership or order. -/
theorem C4_registry_contents (r300 : r300_context) (caps : Caps)
    (alloc : AtomName → Bool) :
    (r300_setup_atoms r300 caps alloc).atom_list =
      [gpu_flush, aa_state, fb_state, hyperz_state, ztop_state, dsa_state,
       blend_state, blend_color_state, scissor_state, invariant_state,
       viewport_state, pvs_flush, vap_invariant_state, vertex_stream_state,
       vs_state, vs_constants, clip_state, rs_block_state, rs_state,
       fb_state_pipelined, fs, fs_rc_constant_state, fs_constants,
       texture_cache_inval, textures_state]
        ++ (if caps.can_hyperz = true ∧ caps.hiz_ram > 0 then [hiz_clear] else [])
        ++ (if caps.can_hyperz = true then [zmask_clear] else [])
        ++ [query_start] := by
  rw [setup_atom_list]; rfl

/-- The three shapes the registry can take. -/
theorem setup_atom_list_cases (r300 : r300_context) (caps : Caps)
    (alloc : AtomName → Bool) :
    (r300_setup_atoms r300 caps alloc).atom_list = registry_base ++ [query_start] ∨
    (r300_setup_atoms r300 caps alloc).atom_list
      = registry_base ++ [zmask_clear, query_start] ∨
    (r300_setup_atoms r300 caps alloc).atom_list
      = registry_base ++ [hiz_clear, zmask_clear, query_start] := by
  rw [setup_atom_list]
  by_cases hz : caps.can_hyperz = true <;> by_cases hh : caps.hiz_ram > 0 <;>
    simp [hz, hh]

/-- C5: in every registry `gpu_flush` is the first atom and precedes
`aa_state`, `fb_state`, `hyperz_state` and `fb_state_pipelined` in that
relative order; `pvs_flush` precedes `vs_state` and `vs_constants`;
`texture_cache_inval` immediately precedes `textures_state`. -/
theorem C5_flush_atoms_precede (r300 : r300_context) (caps : Caps)
    (alloc : AtomName → Bool) :
    (r300_setup_atoms r300 caps alloc).atom_list.head? = some gpu_flush ∧
    (r300_setup_atoms r300 caps alloc).atom_list.indexOf gpu_flush
      < (r300_setup_atoms r300 caps alloc).atom_list.indexOf aa_state ∧
    (r300_setup_atoms r300 caps alloc).atom_list.indexOf aa_state
      < (r300_setup_atoms r300 caps alloc).atom_list.indexOf fb_state ∧
    (r300_setup_atoms r300 caps alloc).atom_list.indexOf fb_state
      < (r300_setup_atoms r300 caps alloc).atom_list.indexOf hyperz_state ∧
    (r300_setup_atoms r300 caps alloc).atom_list.indexOf hyperz_state
      < (r300_setup_atoms r300 caps alloc).atom_list.indexOf fb_state_pipelined ∧
    (r300_setup_atoms r300 caps alloc).atom_list.indexOf pvs_flush
      < (r300_setup_atoms r300 caps alloc).atom_list.indexOf vs_state ∧
    (r300_setup_atoms r300 caps alloc).atom_list.indexOf pvs_flush
      < (r300_setup_atoms r300 caps alloc).atom_list.indexOf vs_constants ∧
    (r300_setup_atoms r300 caps alloc).atom_list.indexOf texture_cache_inval + 1
      = (r300_setup_atoms r300 caps alloc).atom_list.indexOf textures_state ∧
    (r300_setup_atoms r300 caps alloc).atom_list.indexOf textures_state
      < (r300_setup_atoms r300 caps alloc).atom_list.length ∧
    (∀ a ∈ [gpu_flush, aa_state, fb_state, hyperz_state, fb_state_pipelined,
            pvs_flush, vs_state, vs_constants, texture_cache_inval,
            textures_state],
      a ∈ (r300_setup_atoms r300 caps alloc).atom_list) := by
  rcases setup_atom_list_cases r300 caps alloc with h | h | h <;>
    rw [h] <;> decide

theorem mem_setup_atom_list (r300 : r300_context) (caps : Caps)
    (alloc : AtomName → Bool) (a : AtomName) :
    a ∈ (r300_setup_atoms r300 caps alloc).atom_list ↔
      a ∈ registry_base ∨ a = query_start ∨
      (a = zmask_clear ∧ caps.can_hyperz = true) ∨
      (a = hiz_clear ∧ caps.can_hyperz = true ∧ caps.hiz_ram > 0) := by
  rw [setup_atom_list]
  by_cases hz : caps.can_hyperz = true <;> by_cases hh : caps.hiz_ram > 0 <;>
    simp [hz, hh] <;> tauto

theorem setup_dirty_iff (r300 : r300_context) (caps : Caps)
    (alloc : AtomName → Bool) :
    ∀ a ∈ (r300_setup_atoms r300 caps alloc).atom_list,
      (((r300_setup_atoms r300 caps alloc).atoms a).dirty = true ↔
        a ∈ [invariant_state, pvs_flush, vap_invariant_state,
             texture_cache_inval, textures_state]) := by
  intro a ha
  rw [mem_setup_atom_list] at ha
  cases a <;>
    simp [r300_setup_atoms, init_atom_atoms, set_state_atoms,
      set_allow_null_state_atoms, set_dirty_atoms, set_emit_r500_atoms,
      ite_ctx_atoms, registry_base] at ha ⊢ <;>
    (try split) <;> simp_all

/-- C6: right after `r300_setup_atoms` the dirty atoms are exactly
`invariant_state`, `pvs_flush`, `vap_invariant_state`, `texture_cache_inval`
and `textures_state` (all of them registered); every other registered atom is
clean. -/
theorem C6_initial_dirty_set (r300 : r300_context) (caps : Caps)
    (alloc : AtomName → Bool) :
    (∀ a ∈ [invariant_state, pvs_flush, vap_invariant_state,
            texture_cache_inval, textures_state],
        a ∈ (r300_setup_atoms r300 caps alloc).atom_list) ∧
    (∀ a ∈ (r300_setup_atoms r300 caps alloc).atom_list,
      (((r300_setup_atoms r300 caps alloc).atoms a).dirty = true ↔
        a ∈ [invariant_state, pvs_flush, vap_invariant_state,
             texture_cache_inval, textures_state])) := by
  constructor
  · intro a ha
    rw [mem_setup_atom_list]
    left
    simp only [List.mem_cons, List.mem_singleton, List.not_mem_nil, or_false] at ha
    rcases ha with h | h | h | h | h <;> rw [h] <;> decide
  · exact setup_dirty_iff r300 caps alloc

/-- C8: in the state produced by `r300_setup_atoms` with every state-block
allocation succeeding, each registered atom that is dirty has a non-null
state block or has `allow_null_state` set, so no atom with
`allow_null_state = FALSE` and a null state block is eligible for emission. -/
theorem C8_null_state_safety (r300 : r300_context) (caps : Caps) :
    ∀ a ∈ (r300_setup_atoms r300 caps alloc_all).atom_list,
      ((r300_setup_atoms r300 caps alloc_all).atoms a).dirty = true →
        (((r300_setup_atoms r300 caps alloc_all).atoms a).state ≠ none ∨
         ((r300_setup_atoms r300 caps alloc_all).atoms a).allow_null_state = true) := by
  intro a ha
  rw [mem_setup_atom_list] at ha
  cases a <;>
    simp [r300_setup_atoms, init_atom_atoms, set_state_atoms,
      set_allow_null_state_atoms, set_dirty_atoms, set_emit_r500_atoms,
      ite_ctx_atoms, registry_base, alloc_all] at ha ⊢ <;>
    (try split) <;> simp_all

theorem setup_sizes (r300 : r300_context) (caps : Caps)
    (alloc : AtomName → Bool) :
    ((r300_setup_atoms r300 caps alloc).atoms hyperz_state).size
      = (if caps.is_r500 = true ∨ (caps.is_rv350 = true ∧ caps.drm_2_6_0 = true)
         then 10 else 8) ∧
    ((r300_setup_atoms r300 caps alloc).atoms invariant_state).size
      = (if caps.is_rv350 = true then 20 else 16) ∧
    ((r300_setup_atoms r300 caps alloc).atoms clip_state).size
      = (if caps.has_tcl = true then 29 else 2) ∧
    ((r300_setup_atoms r300 caps alloc).atoms vap_invariant_state).size = 9 := by
  refine ⟨?_, ?_, ?_, ?_⟩ <;>
    simp [r300_setup_atoms, init_atom_atoms, set_state_atoms,
      set_allow_null_state_atoms, set_dirty_atoms, set_emit_r500_atoms,
      ite_ctx_atoms]
  all_goals split <;> rfl

/-- C9: the sizes `r300_setup_atoms` registers are the stated function of
the capabilities, and the registered atoms of size 0 (variable) are exactly
`fb_state`, `vertex_stream_state`, `vs_state`, `vs_constants`,
`rs_block_state`, `rs_state`, `fs`, `fs_rc_constant_state`, `fs_constants`,
`textures_state`, `hiz_clear` and `zmask_clear`. -/
theorem C9_atom_sizes (r300 : r300_context) (caps : Caps)
    (alloc : AtomName → Bool) :
    ((r300_setup_atoms r300 caps alloc).atoms hyperz_state).size
      = (if caps.is_r500 = true ∨ (caps.is_rv350 = true ∧ caps.drm_2_6_0 = true)
         then 10 else 8) ∧
    ((r300_setup_atoms r300 caps alloc).atoms dsa_state).size
      = (if caps.is_r500 = true then 8 else 6) ∧
    ((r300_setup_atoms r300 caps alloc).atoms blend_color_state).size
      = (if caps.is_r500 = true then 3 else 2) ∧
    ((r300_setup_atoms r300 caps alloc).atoms invariant_state).size
      = (if caps.is_rv350 = true then 20 else 16) ∧
    ((r300_setup_atoms r300 caps alloc).atoms clip_state).size
      = (if caps.has_tcl = true then 29 else 2) ∧
    ((r300_setup_atoms r300 caps alloc).atoms fb_state_pipelined).size
      = (if caps.drm_2_3_0 = true then 8 else 5) ∧
    ((r300_setup_atoms r300 caps alloc).atoms gpu_flush).size = 9 ∧
    ((r300_setup_atoms r300 caps alloc).atoms aa_state).size = 4 ∧
    ((r300_setup_atoms r300 caps alloc).atoms ztop_state).size = 2 ∧
    ((r300_setup_atoms r300 caps alloc).atoms blend_state).size = 8 ∧
    ((r300_setup_atoms r300 caps alloc).atoms scissor_state).size = 3 ∧
    ((r300_setup_atoms r300 caps alloc).atoms viewport_state).size = 9 ∧
    ((r300_setup_atoms r300 caps alloc).atoms pvs_flush).size = 2 ∧
    ((r300_setup_atoms r300 caps alloc).atoms vap_invariant_state).size = 9 ∧
    ((r300_setup_atoms r300 caps alloc).atoms texture_cache_inval).size = 2 ∧
    ((r300_setup_atoms r300 caps alloc).atoms query_start).size = 4 ∧
    (∀ a ∈ (r300_setup_atoms r300 caps alloc).atom_list,
      (((r300_setup_atoms r300 caps alloc).atoms a).size = 0 ↔
        a ∈ [fb_state, vertex_stream_state, vs_state, vs_constants,
             rs_block_state, rs_state, fs, fs_rc_constant_state, fs_constants,
             textures_state, hiz_clear, zmask_clear])) := by
  obtain ⟨k1, k2, k3, k4⟩ := setup_sizes r300 caps alloc
  refine ⟨k1, ?_, ?_, k2, k3, ?_, ?_, ?_, ?_, ?_, ?_, ?_, ?_, k4, ?_, ?_, ?_⟩
  case refine_13 =>
    intro a ha
    rw [mem_setup_atom_list] at ha
    cases a <;>
      simp [r300_setup_atoms, init_atom_atoms, set_state_atoms,
        set_allow_null_state_atoms, set_dirty_atoms, set_emit_r500_atoms,
        ite_ctx_atoms, registry_base] at ha ⊢ <;>
      (try split) <;> simp_all
  all_goals
    simp [r300_setup_atoms, init_atom_atoms, set_state_atoms,
      set_allow_null_state_atoms, set_dirty_atoms, set_emit_r500_atoms,
      ite_ctx_atoms]
  all_goals split <;> rfl

theorem emit_step_atom_list (acc : List AtomName × r300_context) (a : AtomName) :
    (emit_step acc a).2.atom_list = acc.2.atom_list := by
  unfold emit_step; split <;> rfl

/-- The flush walk over a duplicate-free list emits exactly the dirty atoms
of the list, in list order. -/
theorem foldl_emit_step (l : List AtomName) (hl : l.Nodup)
    (acc : List AtomName) (r : r300_context) :
    (l.foldl emit_step (acc, r)).1
      = acc ++ l.filter (fun a => (r.atoms a).dirty) := by
  induction l generalizing acc r with
  | nil => simp
  | cons a l ih =>
    have hnd := List.nodup_cons.mp hl
    rw [List.foldl_cons]
    by_cases hd : (r.atoms a).dirty = true
    · have hs : emit_step (acc, r) a
          = (acc ++ [a], r.modify a (fun at0 => { at0 with dirty := false })) := by
        simp [emit_step, hd]
      rw [hs, ih hnd.2, List.filter_cons_of_pos (by simpa using hd)]
      have hf : l.filter (fun b =>
            ((r.modify a (fun at0 => { at0 with dirty := false })).atoms b).dirty)
          = l.filter (fun b => (r.atoms b).dirty) := by
        apply List.filter_congr
        intro b hb
        have hne : b ≠ a := fun h => hnd.1 (h ▸ hb)
        simp [modify_atoms, hne]
      rw [hf]; simp
    · have hs : emit_step (acc, r) a = (acc, r) := by simp [emit_step, hd]
      rw [hs, ih hnd.2, List.filter_cons_of_neg (by simpa using hd)]

theorem setup_atom_list_nodup (r300 : r300_context) (caps : Caps)
    (alloc : AtomName → Bool) :
    (r300_setup_atoms r300 caps alloc).atom_list.Nodup := by
  rcases setup_atom_list_cases r300 caps alloc with h | h | h <;>
    rw [h] <;> decide

theorem foldl_mark_dirty_atom_list (marks : List AtomName) (r : r300_context) :
    (marks.foldl mark_dirty r).atom_list = r.atom_list := by
  induction marks generalizing r with
  | nil => rfl
  | cons m ms ih => rw [List.foldl_cons, ih]; rfl

theorem foldl_mark_dirty_dirty (marks : List AtomName) (r : r300_context)
    (a : AtomName) :
    ((marks.foldl mark_dirty r).atoms a).dirty
      = ((r.atoms a).dirty || decide (a ∈ marks)) := by
  induction marks generalizing r with
  | nil => simp
  | cons m ms ih =>
    rw [List.foldl_cons, ih]
    by_cases h : a = m
    · subst h; simp [mark_dirty, set_dirty_atoms]
    · simp [mark_dirty, set_dirty_atoms, h]

/-- C3: for every capability set, whatever the order in which state-set
calls mark atoms dirty between two flushes, the flush emits the registry
sequence built by `r300_setup_atoms` restricted to the dirty atoms; so two
orders of the same marks emit the same sequence. -/
theorem C3_emission_order (r300 r0 : r300_context) (caps : Caps)
    (alloc : AtomName → Bool) (marks : List AtomName)
    (h0 : r0.atom_list = (r300_setup_atoms r300 caps alloc).atom_list) :
    (emit_dirty_state (marks.foldl mark_dirty r0)).1
      = (r300_setup_atoms r300 caps alloc).atom_list.filter
          (fun a => ((marks.foldl mark_dirty r0).atoms a).dirty) ∧
    (∀ a, ((marks.foldl mark_dirty r0).atoms a).dirty = true ↔
        ((r0.atoms a).dirty = true ∨ a ∈ marks)) ∧
    (∀ marks2 : List AtomName, marks2.Perm marks →
      (emit_dirty_state (marks2.foldl mark_dirty r0)).1
        = (emit_dirty_state (marks.foldl mark_dirty r0)).1) := by
  have key : ∀ ms : List AtomName,
      (emit_dirty_state (ms.foldl mark_dirty r0)).1
        = (r300_setup_atoms r300 caps alloc).atom_list.filter
            (fun a => ((ms.foldl mark_dirty r0).atoms a).dirty) := by
    intro ms
    unfold emit_dirty_state
    rw [foldl_mark_dirty_atom_list, h0,
      foldl_emit_step _ (setup_atom_list_nodup r300 caps alloc)]
    simp
  refine ⟨key marks, ?_, ?_⟩
  · intro a
    rw [foldl_mark_dirty_dirty]; simp
  · intro marks2 hp
    rw [key marks2, key marks]
    apply List.filter_congr
    intro a _
    rw [foldl_mark_dirty_dirty, foldl_mark_dirty_dirty]
    simp [hp.mem_iff]


theorem setup_states_for_priming (r300 : r300_context) (caps : Caps) :
    ((r300_setup_atoms r300 caps alloc_all).atoms blend_color_state).state.isSome = true ∧
    ((r300_setup_atoms r300 caps alloc_all).atoms scissor_state).state.isSome = true ∧
    ((r300_setup_atoms r300 caps alloc_all).atoms clip_state).state.isSome = true ∧
    ((r300_setup_atoms r300 caps alloc_all).atoms gpu_flush).state.isSome = true ∧
    ((r300_setup_atoms r300 caps alloc_all).atoms vap_invariant_state).state.isSome = true ∧
    ((r300_setup_atoms r300 caps alloc_all).atoms invariant_state).state.isSome = true ∧
    ((r300_setup_atoms r300 caps alloc_all).atoms hyperz_state).state.isSome = true ∧
    ((r300_setup_atoms r300 caps alloc_all).atoms fb_state).state.isSome = true ∧
    ((r300_setup_atoms r300 caps alloc_all).atoms textures_state).state.isSome = true ∧
    ((r300_setup_atoms r300 caps alloc_all).atoms aa_state).state.isSome = true := by
  refine ⟨?_, ?_, ?_, ?_, ?_, ?_, ?_, ?_, ?_, ?_⟩ <;>
    simp [r300_setup_atoms, init_atom_atoms, set_state_atoms,
      set_allow_null_state_atoms, set_dirty_atoms, set_emit_r500_atoms,
      ite_ctx_atoms, alloc_all]

/-- Priming only reads `atoms` of the context: two contexts with the same
atoms produce the same blocks. -/
theorem mark_dirty_state (r : r300_context) (a b : AtomName) :
    ((mark_dirty r a).atoms b).state = (r.atoms b).state := by
  simp only [mark_dirty, set_dirty_atoms]; split <;> rfl

theorem mark_dirty_size (r : r300_context) (a b : AtomName) :
    ((mark_dirty r a).atoms b).size = (r.atoms b).size := by
  simp only [mark_dirty, set_dirty_atoms]; split <;> rfl

theorem state_set_call_ok (r : r300_context) (a : AtomName)
    (h : (r.atoms a).state.isSome = true) :
    state_set_call r a = some (mark_dirty r a) := by
  simp [state_set_call, h]

theorem write_cb_ok (r : r300_context) (b : cb_block)
    (h : (r.atoms b.atom).state.isSome = true) : write_cb r b = some b := by
  simp [write_cb, h]

theorem primed_state (r : r300_context) (caps : Caps) (a : AtomName) :
    ((primed r caps).atoms a).state = (r.atoms a).state := by
  unfold primed
  split <;> simp [mark_dirty_state]

theorem primed_size (r : r300_context) (caps : Caps) (a : AtomName) :
    ((primed r caps).atoms a).size = (r.atoms a).size := by
  unfold primed
  split <;> simp [mark_dirty_size]

/-- Closed form of `r300_init_states` on a context whose priming state
blocks are all allocated. -/
theorem init_states_ok (r : r300_context) (caps : Caps)
    (h1 : (r.atoms blend_color_state).state.isSome = true)
    (h2 : (r.atoms scissor_state).state.isSome = true)
    (h3 : (r.atoms clip_state).state.isSome = true)
    (h4 : (r.atoms gpu_flush).state.isSome = true)
    (h5 : (r.atoms vap_invariant_state).state.isSome = true)
    (h6 : (r.atoms invariant_state).state.isSome = true)
    (h7 : (r.atoms hyperz_state).state.isSome = true) :
    r300_init_states r caps
      = some (primed r caps,
          (if caps.has_tcl = true then [] else [clip_block])
            ++ [gpu_flush_block, vap_invariant_block,
                invariant_block (primed r caps) caps,
                hyperz_block (primed r caps) caps]) := by
  unfold r300_init_states
  rw [state_set_call_ok _ _ h1]
  simp only [Option.bind_eq_bind, Option.some_bind]
  rw [state_set_call_ok _ _ (by rw [mark_dirty_state]; exact h2)]
  simp only [Option.some_bind]
  cases ht : caps.has_tcl
  · have hc : init_clip_state (mark_dirty (mark_dirty r blend_color_state) scissor_state) caps
        = some (primed r caps, [clip_block]) := by
      unfold init_clip_state primed
      rw [write_cb_ok _ _ (by simp [clip_block, mark_dirty_state, h3])]
      simp [ht]
    rw [hc]
    simp only [Option.some_bind]
    rw [write_cb_ok _ _ (by simp [gpu_flush_block, primed_state, h4]),
      write_cb_ok _ _ (by simp [vap_invariant_block, primed_state, h5]),
      write_cb_ok _ _ (by simp [invariant_block, primed_state, h6]),
      write_cb_ok _ _ (by simp [hyperz_block, primed_state, h7])]
    simp
  · have hc : init_clip_state (mark_dirty (mark_dirty r blend_color_state) scissor_state) caps
        = some (primed r caps, []) := by
      unfold init_clip_state primed
      rw [state_set_call_ok _ _ (by simp [mark_dirty_state, h3])]
      simp [ht]
    rw [hc]
    simp only [Option.some_bind]
    rw [write_cb_ok _ _ (by simp [gpu_flush_block, primed_state, h4]),
      write_cb_ok _ _ (by simp [vap_invariant_block, primed_state, h5]),
      write_cb_ok _ _ (by simp [invariant_block, primed_state, h6]),
      write_cb_ok _ _ (by simp [hyperz_block, primed_state, h7])]
    simp

theorem invariant_block_written (r : r300_context) (caps : Caps) :
    (invariant_block r caps).written = if caps.is_rv350 = true then 20 else 16 := by
  cases h : caps.is_rv350 <;> simp [invariant_block, cb_block.written, cb_op.dwords, h]

theorem hyperz_block_written (r : r300_context) (caps : Caps) :
    (hyperz_block r caps).written
      = if caps.is_r500 = true ∨ (caps.is_rv350 = true ∧ caps.drm_2_6_0 = true)
        then 10 else 8 := by
  cases h1 : caps.is_r500 <;> cases h2 : caps.is_rv350 <;>
    cases h3 : caps.drm_2_6_0 <;>
    simp [hyperz_block, cb_block.written, cb_op.dwords, h1, h2, h3]

/-- A property of all blocks written by priming follows from the property
of each of the five candidate blocks. -/
theorem forall_priming_blocks (P : cb_block → Prop) (r : r300_context)
    (caps : Caps) (hc : caps.has_tcl = false → P clip_block)
    (hg : P gpu_flush_block) (hv : P vap_invariant_block)
    (hi : P (invariant_block r caps)) (hh : P (hyperz_block r caps)) :
    ∀ b ∈ (if caps.has_tcl = true then [] else [clip_block])
            ++ [gpu_flush_block, vap_invariant_block, invariant_block r caps,
                hyperz_block r caps], P b := by
  intro b hb
  rw [List.mem_append] at hb
  rcases hb with hb | hb
  · cases ht : caps.has_tcl
    · simp only [ht, Bool.false_eq_true, if_false, List.mem_singleton] at hb
      rw [hb]; exact hc ht
    · simp [ht] at hb
  · simp only [List.mem_cons, List.mem_singleton, List.not_mem_nil, or_false] at hb
    rcases hb with hb | hb | hb | hb <;> rw [hb] <;> assumption

/-- C10: for every capability set, `r300_init_states` run on the context
built by `r300_setup_atoms` completes, each of its `BEGIN_CB`/`END_CB` blocks
writes exactly the number of dwords it reserved (so `cs_count` is 0 at
`END_CB`), and for `invariant_state`, `hyperz_state`, `vap_invariant_state`
and (without TCL) `clip_state` that number is the size registered for the
atom (16 or 20; 8 or 10; 9; 2). -/
theorem C10_priming_reserved_size (r300 : r300_context) (caps : Caps) :
    ∃ r1 blocks,
      r300_init_states (r300_setup_atoms r300 caps alloc_all) caps
        = some (r1, blocks) ∧
      blocks.map cb_block.atom
        = (if caps.has_tcl = true then [] else [clip_state])
          ++ [gpu_flush, vap_invariant_state, invariant_state, hyperz_state] ∧
      (∀ b ∈ blocks, b.written = b.reserved ∧ b.cs_count_at_END_CB = 0) ∧
      (∀ b ∈ blocks, b.atom ≠ gpu_flush →
        b.written = ((r300_setup_atoms r300 caps alloc_all).atoms b.atom).size) ∧
      (∀ b ∈ blocks, b.atom = invariant_state →
        b.written = if caps.is_rv350 = true then 20 else 16) ∧
      (∀ b ∈ blocks, b.atom = hyperz_state →
        b.written = if caps.is_r500 = true ∨
          (caps.is_rv350 = true ∧ caps.drm_2_6_0 = true) then 10 else 8) ∧
      (∀ b ∈ blocks, b.atom = vap_invariant_state → b.written = 9) ∧
      (∀ b ∈ blocks, b.atom = clip_state → b.written = 2) := by
  obtain ⟨h1, h2, h3, h4, h5, h6, h7, -, -, -⟩ := setup_states_for_priming r300 caps
  obtain ⟨k1, k2, k3, k4⟩ := setup_sizes r300 caps alloc_all
  have wi := invariant_block_written (primed (r300_setup_atoms r300 caps alloc_all) caps) caps
  have wh := hyperz_block_written (primed (r300_setup_atoms r300 caps alloc_all) caps) caps
  have ri : (invariant_block (primed (r300_setup_atoms r300 caps alloc_all) caps) caps).reserved
      = if caps.is_rv350 = true then 20 else 16 := by
    simp [invariant_block, primed_size, k2]
  have rh : (hyperz_block (primed (r300_setup_atoms r300 caps alloc_all) caps) caps).reserved
      = if caps.is_r500 = true ∨ (caps.is_rv350 = true ∧ caps.drm_2_6_0 = true)
        then 10 else 8 := by
    simp [hyperz_block, primed_size, k1]
  refine ⟨_, _, init_states_ok _ caps h1 h2 h3 h4 h5 h6 h7, ?_, ?_, ?_, ?_, ?_, ?_, ?_⟩
  · cases caps.has_tcl <;> rfl
  · apply forall_priming_blocks
    · intro _; exact ⟨rfl, rfl⟩
    · exact ⟨rfl, rfl⟩
    · exact ⟨rfl, rfl⟩
    · exact ⟨wi.trans ri.symm, by simp [cb_block.cs_count_at_END_CB, wi, ri]⟩
    · exact ⟨wh.trans rh.symm, by simp [cb_block.cs_count_at_END_CB, wh, rh]⟩
  · apply forall_priming_blocks
    · intro ht _; rw [show clip_block.atom = clip_state from rfl, k3, ht]; rfl
    · intro h; exact absurd rfl h
    · intro _; rw [show vap_invariant_block.atom = vap_invariant_state from rfl, k4]; rfl
    · intro _; rw [wi]; exact k2.symm
    · intro _; rw [wh]; exact k1.symm
  · apply forall_priming_blocks
    · intro _ h; exact absurd h (by decide)
    · intro h; exact absurd h (by decide)
    · intro h; exact absurd h (by decide)
    · intro _; exact wi
    · intro h; simp [invariant_block, hyperz_block] at h
  · apply forall_priming_blocks
    · intro _ h; exact absurd h (by decide)
    · intro h; exact absurd h (by decide)
    · intro h; exact absurd h (by decide)
    · intro h; simp [invariant_block, hyperz_block] at h
    · intro _; exact wh
  · apply forall_priming_blocks
    · intro _ h; exact absurd h (by decide)
    · intro h; exact absurd h (by decide)
    · intro _; rfl
    · intro h; simp [invariant_block, hyperz_block] at h
    · intro h; simp [invariant_block, hyperz_block] at h
  · apply forall_priming_blocks
    · intro _ _; rfl
    · intro h; exact absurd h (by decide)
    · intro h; exact absurd h (by decide)
    · intro h; simp [invariant_block, hyperz_block] at h
    · intro h; simp [invariant_block, hyperz_block] at h


theorem state_set_call_some (r r1 : r300_context) (a : AtomName)
    (h : state_set_call r a = some r1) : r1 = mark_dirty r a := by
  unfold state_set_call at h
  split_ifs at h
  exact (Option.some.inj h).symm

theorem init_clip_state_some (r r1 : r300_context) (caps : Caps)
    (bs : List cb_block) (h : init_clip_state r caps = some (r1, bs)) :
    r1 = if caps.has_tcl = true then mark_dirty r clip_state else r := by
  unfold init_clip_state at h
  cases ht : caps.has_tcl
  · rw [ht] at h
    simp only [Bool.false_eq_true, if_false] at h ⊢
    cases hw : write_cb r clip_block with
    | none => rw [hw] at h; cases h
    | some b => rw [hw] at h; exact (congrArg Prod.fst (Option.some.inj h)).symm
  · rw [ht] at h
    simp only [if_true] at h ⊢
    cases hw : state_set_call r clip_state with
    | none => rw [hw] at h; cases h
    | some r2 =>
      rw [hw] at h
      rw [← state_set_call_some _ _ _ hw]
      exact (congrArg Prod.fst (Option.some.inj h)).symm

theorem init_states_some (r r1 : r300_context) (caps : Caps)
    (bs : List cb_block) (h : r300_init_states r caps = some (r1, bs)) :
    r1 = primed r caps := by
  unfold r300_init_states at h
  simp only [Option.bind_eq_bind, Option.bind_eq_some, Option.pure_def] at h
  obtain ⟨x1, hx1, x2, hx2, ⟨x3, b3⟩, hx3, h⟩ := h
  obtain ⟨b4, -, b5, -, b6, -, b7, -, h⟩ := h
  simp only [Option.some.injEq, Prod.mk.injEq] at h
  have e1 := state_set_call_some _ _ _ hx1
  have e2 := state_set_call_some _ _ _ hx2
  have e3 := init_clip_state_some _ _ _ _ hx3
  rw [← h.1, e3, e2, e1]
  unfold primed
  cases caps.has_tcl <;> rfl

theorem destroy_screen (r300 : r300_context) (s : r300_screen) (caps : Caps)
    (st : r300_screen × List action)
    (h : r300_destroy_context r300 s caps = some st) :
    st.1 = r300_update_num_contexts s (-1) := by
  unfold r300_destroy_context at h
  simp only [Option.bind_eq_bind, Option.bind_eq_some, Option.pure_def] at h
  obtain ⟨r, -, h⟩ := h
  simp only [Option.some.injEq] at h
  rw [← h]

theorem create_fail_some (r300 : r300_context) (s : r300_screen) (caps : Caps)
    (res : create_result) (h : create_fail r300 s caps = some res) :
    res.context = none ∧ res.screen = r300_update_num_contexts s (-1) := by
  unfold create_fail at h
  simp only [Option.map_eq_some'] at h
  obtain ⟨st, hst, h⟩ := h
  rw [← h]
  exact ⟨rfl, destroy_screen _ _ _ _ hst⟩

/-- A completed tail of create returns a context whose atoms are the
primed atoms of its input, and leaves the screen alone. -/
theorem create_finish_some (r300 : r300_context) (s : r300_screen)
    (caps : Caps) (plan : alloc_plan) (res : create_result)
    (h : create_finish r300 s caps plan = some res) :
    ∃ ctx, res.context = some ctx ∧ res.screen = s ∧
      ctx.atoms = (primed r300 caps).atoms ∧
      ctx.atom_list = (primed r300 caps).atom_list := by
  unfold create_finish at h
  cases hi : r300_init_states r300 caps with
  | none => rw [hi] at h; cases h
  | some p =>
    obtain ⟨r1, bs⟩ := p
    rw [hi] at h
    have e := init_states_some _ _ _ _ hi
    subst e
    dsimp only at h
    split_ifs at h <;> cases h
    · exact ⟨_, rfl, rfl, rfl, rfl⟩
    · exact ⟨_, rfl, rfl, rfl, rfl⟩

theorem primed_atom_list (r : r300_context) (caps : Caps) :
    (primed r caps).atom_list = r.atom_list := by
  unfold primed
  cases caps.has_tcl <;> rfl

theorem primed_atoms_congr (r r1 : r300_context) (caps : Caps)
    (h : r.atoms = r1.atoms) : (primed r caps).atoms = (primed r1 caps).atoms := by
  unfold primed
  cases caps.has_tcl <;>
    simp [mark_dirty, set_dirty, r300_context.modify, h]

/-- The subsystem stage either tears down (`NULL`, one decrement) or hands
on to the tail with the same atoms. -/
theorem create_subsystems_some (r300 : r300_context) (s : r300_screen)
    (caps : Caps) (plan : alloc_plan) (res : create_result)
    (h : create_subsystems r300 s caps plan = some res) :
    (res.context = none ∧ res.screen = r300_update_num_contexts s (-1)) ∨
    (∃ ctx, res.context = some ctx ∧ res.screen = s ∧
      ctx.atoms = (primed r300 caps).atoms ∧
      ctx.atom_list = r300.atom_list) := by
  unfold create_subsystems at h
  dsimp only at h
  split_ifs at h
  all_goals first
    | (left; exact create_fail_some _ _ _ _ h)
    | (right
       obtain ⟨ctx, h1, h2, h3, h4⟩ := create_finish_some _ _ _ _ _ h
       refine ⟨ctx, h1, h2, ?_, ?_⟩
       · rw [h3]; exact primed_atoms_congr _ _ _ rfl
       · rw [h4, primed_atom_list]; rfl)

/-- What a completed create call can be: `NULL` with the screen untouched,
`NULL` after an increment and the decrement of the teardown, or a context
whose atoms are the primed registry, with the count incremented. -/
theorem create_cases (s : r300_screen) (caps : Caps) (plan : alloc_plan)
    (res : create_result) (h : r300_create_context s caps plan = some res) :
    (res.context = none ∧ res.screen = s) ∨
    (res.context = none ∧
      res.screen = r300_update_num_contexts (r300_update_num_contexts s 1) (-1)) ∨
    (∃ ctx r0, res.context = some ctx ∧
      res.screen = r300_update_num_contexts s 1 ∧
      ctx.atoms = (primed (r300_setup_atoms r0 caps plan.atom_state) caps).atoms ∧
      ctx.atom_list = (r300_setup_atoms r0 caps plan.atom_state).atom_list) := by
  unfold r300_create_context at h
  dsimp only at h
  split_ifs at h
  · left; cases h; exact ⟨rfl, rfl⟩
  · right; left; exact create_fail_some _ _ _ _ h
  all_goals
    rcases create_subsystems_some _ _ _ _ _ h with h1 | ⟨ctx, h1, h2, h3, h4⟩
    · right; left; exact h1
    · right; right; exact ⟨ctx, _, h1, h2, h3, h4⟩

/-- A completed create adds one to the count exactly when it returns a
context. -/
theorem create_count (s : r300_screen) (caps : Caps) (plan : alloc_plan)
    (res : create_result) (h : r300_create_context s caps plan = some res) :
    res.screen.num_contexts
      = wrap_int32
          (s.num_contexts + (if res.context.isSome = true then 1 else 0)) := by
  have hr := s.num_contexts_int32
  rcases create_cases s caps plan res h with ⟨h1, h2⟩ | ⟨h1, h2⟩ | ⟨ctx, r0, h1, h2, -, -⟩
  · rw [h1, h2]
    simp only [Option.isSome_none, Bool.false_eq_true, if_false]
    unfold wrap_int32; omega
  · rw [h1, h2]
    simp only [update_num_contexts_count, Option.isSome_none, Bool.false_eq_true,
      if_false]
    simp only [show ((1 : Int) > 0) = True from by simp,
      show ((-1 : Int) > 0) = False from by simp, if_true, if_false]
    unfold wrap_int32; omega
  · rw [h1, h2]
    simp only [update_num_contexts_count, Option.isSome_some, if_true]
    simp only [show ((1 : Int) > 0) = True from by simp, if_true]

theorem step_count_inv (caps : Caps) (w w1 : world) (c : call)
    (hw : count_inv w) (h : w.step caps c = some w1) : count_inv w1 := by
  unfold count_inv at hw ⊢
  cases c with
  | create plan =>
    simp only [world.step] at h
    cases hc : r300_create_context w.screen caps plan with
    | none => rw [hc] at h; cases h
    | some res =>
      rw [hc] at h
      dsimp only at h
      have hn := create_count _ _ _ _ hc
      cases hx : res.context with
      | none =>
        rw [hx] at h hn
        cases h
        simp only [Option.isSome_none, Bool.false_eq_true, if_false] at hn
        show res.screen.num_contexts = wrap_int32 (w.live.length : Int)
        rw [hn, hw]
        unfold wrap_int32; omega
      | some ctx =>
        rw [hx] at h hn
        cases h
        simp only [Option.isSome_some, if_true] at hn
        show res.screen.num_contexts
          = wrap_int32 (((w.live ++ [ctx]).length : Nat) : Int)
        rw [hn, hw, List.length_append, List.length_singleton]
        push_cast
        unfold wrap_int32; omega
  | destroy i =>
    simp only [world.step] at h
    cases hg : w.live.get? i with
    | none => rw [hg] at h; cases h
    | some ctx =>
      rw [hg] at h
      dsimp only at h
      cases hd : r300_destroy_context ctx w.screen caps with
      | none => rw [hd] at h; cases h
      | some st =>
        rw [hd] at h
        dsimp only at h
        cases h
        have hs := destroy_screen _ _ _ _ hd
        have hi : i < w.live.length := by
          rw [List.get?_eq_some] at hg
          exact hg.1
        show st.1.num_contexts = wrap_int32 (((w.live.eraseIdx i).length : Nat) : Int)
        rw [hs, update_num_contexts_count, List.length_eraseIdx, if_pos hi, hw]
        simp only [show ((-1 : Int) > 0) = False from by simp, if_false]
        have hc : (((w.live.length - 1 : Nat)) : Int) = (w.live.length : Int) - 1 := by
          omega
        rw [hc]
        unfold wrap_int32; omega

/-- A history adds at most one live context per call. -/
theorem run_live_length (caps : Caps) (calls : List call) (w w1 : world)
    (h : w.run caps calls = some w1) :
    w1.live.length ≤ w.live.length + calls.length := by
  induction calls generalizing w with
  | nil => unfold world.run at h; cases h; simp
  | cons c cs ih =>
    unfold world.run at h
    cases hs : w.step caps c with
    | none => rw [hs] at h; cases h
    | some w2 =>
      rw [hs] at h
      have h2 := ih w2 h
      have hstep : w2.live.length ≤ w.live.length + 1 := by
        cases c with
        | create plan =>
          simp only [world.step] at hs
          cases hc : r300_create_context w.screen caps plan with
          | none => rw [hc] at hs; cases hs
          | some res =>
            rw [hc] at hs
            dsimp only at hs
            cases hx : res.context with
            | none => rw [hx] at hs; cases hs; simp
            | some ctx => rw [hx] at hs; cases hs; simp
        | destroy i =>
          simp only [world.step] at hs
          cases hg : w.live.get? i with
          | none => rw [hg] at hs; cases hs
          | some ctx =>
            rw [hg] at hs
            dsimp only at hs
            cases hd : r300_destroy_context ctx w.screen caps with
            | none => rw [hd] at hs; cases hs
            | some st =>
              rw [hd] at hs
              dsimp only at hs
              cases hs
              simp only [List.length_eraseIdx]
              split_ifs <;> omega
      simp only [List.length_cons]
      omega

theorem run_count_inv (caps : Caps) (calls : List call) (w w1 : world)
    (hw : count_inv w) (h : w.run caps calls = some w1) : count_inv w1 := by
  induction calls generalizing w with
  | nil => unfold world.run at h; cases h; exact hw
  | cons c cs ih =>
    unfold world.run at h
    cases hs : w.step caps c with
    | none => rw [hs] at h; cases h
    | some w2 =>
      rw [hs] at h
      exact ih w2 (step_count_inv caps w w2 c hw hs) h


/-- With every allocation succeeding the tail of create returns a context
carrying the primed atoms. -/
theorem create_finish_ok (r : r300_context) (s : r300_screen) (caps : Caps)
    (plan : alloc_plan) (hp : plan.texkill_tex = true)
    (h1 : (r.atoms blend_color_state).state.isSome = true)
    (h2 : (r.atoms scissor_state).state.isSome = true)
    (h3 : (r.atoms clip_state).state.isSome = true)
    (h4 : (r.atoms gpu_flush).state.isSome = true)
    (h5 : (r.atoms vap_invariant_state).state.isSome = true)
    (h6 : (r.atoms invariant_state).state.isSome = true)
    (h7 : (r.atoms hyperz_state).state.isSome = true) :
    ∃ ctx, create_finish r s caps plan
        = some { context := some ctx, screen := s, teardown := [] } ∧
      ctx.atoms = (primed r caps).atoms := by
  unfold create_finish
  rw [init_states_ok r caps h1 h2 h3 h4 h5 h6 h7]
  dsimp only
  cases caps.is_r500
  · simp only [Bool.not_false, if_true, hp, Bool.not_true, Bool.false_eq_true, if_false]
    exact ⟨_, rfl, rfl⟩
  · simp only [Bool.not_true, Bool.false_eq_true, if_false]
    exact ⟨_, rfl, rfl⟩

/-- With every allocation succeeding `r300_create_context` returns a
context, whatever the capability set, and increments the count. -/
theorem create_all_ok (s : r300_screen) (caps : Caps) :
    ∃ ctx, r300_create_context s caps alloc_plan.all_ok
        = some { context := some ctx, screen := r300_update_num_contexts s 1,
                 teardown := [] } ∧
      (ctx.atoms fb_state).state.isSome = true ∧
      (ctx.atoms textures_state).state.isSome = true := by
  have key : ∀ r0 : r300_context, ∃ ctx,
      create_subsystems (r300_setup_atoms r0 caps alloc_all)
          (r300_update_num_contexts s 1) caps alloc_plan.all_ok
        = some { context := some ctx, screen := r300_update_num_contexts s 1,
                 teardown := [] } ∧
      (ctx.atoms fb_state).state.isSome = true ∧
      (ctx.atoms textures_state).state.isSome = true := by
    intro r0
    obtain ⟨h1, h2, h3, h4, h5, h6, h7, h8, h9, -⟩ := setup_states_for_priming r0 caps
    unfold create_subsystems
    simp only [alloc_plan.all_ok, set_blitter, set_upload_ib, set_upload_vb,
      set_translate_cache, Bool.not_true, Bool.false_eq_true, if_false,
      Bool.and_false]
    obtain ⟨ctx, hc, ha⟩ := create_finish_ok
      (set_translate_cache (set_upload_vb (set_upload_ib
        (if caps.can_hyperz = true then
          set_zmask_mm (set_flush_cb (set_blitter (r300_setup_atoms r0 caps alloc_all) true)) true
         else set_flush_cb (set_blitter (r300_setup_atoms r0 caps alloc_all) true))
        true) true) true)
      (r300_update_num_contexts s 1) caps alloc_plan.all_ok rfl
      (by cases caps.can_hyperz <;> exact h1) (by cases caps.can_hyperz <;> exact h2)
      (by cases caps.can_hyperz <;> exact h3) (by cases caps.can_hyperz <;> exact h4)
      (by cases caps.can_hyperz <;> exact h5) (by cases caps.can_hyperz <;> exact h6)
      (by cases caps.can_hyperz <;> exact h7)
    refine ⟨ctx, hc, ?_, ?_⟩
    · rw [ha, primed_state]; cases caps.can_hyperz <;> exact h8
    · rw [ha, primed_state]; cases caps.can_hyperz <;> exact h9
  unfold r300_create_context
  simp only [alloc_plan.all_ok, set_cs, Bool.not_true, Bool.false_eq_true,
    if_false, Bool.and_false]
  exact key _


theorem destroy_ok (ctx : r300_context) (s : r300_screen) (caps : Caps)
    (h : destroyable ctx) :
    ∃ t, r300_destroy_context ctx s caps
      = some (r300_update_num_contexts s (-1), t) := by
  unfold r300_destroy_context r300_release_referenced_objects
  simp only [h.1, h.2, if_true, Option.bind_eq_bind, Option.some_bind,
    Option.pure_def]
  exact ⟨_, rfl⟩

/-- Creating `N` contexts with every allocation succeeding completes, and
all of them are live and destroyable afterwards. -/
theorem run_creates (caps : Caps) (N : Nat) (w0 : world)
    (h0 : ∀ ctx ∈ w0.live, destroyable ctx) :
    ∃ w, w0.run caps (List.replicate N (call.create alloc_plan.all_ok)) = some w ∧
      w.live.length = w0.live.length + N ∧
      (∀ ctx ∈ w.live, destroyable ctx) := by
  induction N generalizing w0 with
  | zero => exact ⟨w0, rfl, rfl, h0⟩
  | succ n ih =>
    obtain ⟨ctx, hc, hd⟩ := create_all_ok w0.screen caps
    have hstep : w0.step caps (call.create alloc_plan.all_ok)
        = some { screen := r300_update_num_contexts w0.screen 1,
                 live := w0.live ++ [ctx] } := by
      simp only [world.step, hc]
    obtain ⟨w, hw, hl, hall⟩ := ih
      { screen := r300_update_num_contexts w0.screen 1, live := w0.live ++ [ctx] }
      (by
        intro c hcm
        rcases List.mem_append.mp hcm with hcm | hcm
        · exact h0 c hcm
        · rw [List.mem_singleton.mp hcm]; exact hd)
    refine ⟨w, ?_, ?_, hall⟩
    · rw [List.replicate_succ]
      simp only [world.run, hstep]
      exact hw
    · rw [hl]; simp only [List.length_append, List.length_singleton]; omega

/-- C2: in every sequential history of completed `r300_create_context`
calls (returning a context or `NULL`) and `r300_destroy_context` calls on
live contexts of one screen, starting from `num_contexts = 0`, the count is
the number of live contexts as the 32-bit counter holds it; as long as that
number does not exceed 2^31 - 1 (as in every history of at most 2^31 - 1
calls) the count equals the number of live contexts and is never negative;
`N` creates whose allocations all succeed complete and give exactly `N`, and
one destroy then gives `N - 1`. -/
theorem C2_live_context_count (caps : Caps) :
    (∀ (calls : List call) (w : world),
        world.init.run caps calls = some w →
        w.screen.num_contexts = wrap_int32 (w.live.length : Int) ∧
        (calls.length ≤ 2147483647 ∨ w.live.length ≤ 2147483647 →
          w.screen.num_contexts = (w.live.length : Int) ∧
          0 ≤ w.screen.num_contexts)) ∧
    (∀ N : Nat, N ≤ 2147483647 → ∃ w,
        world.init.run caps (List.replicate N (call.create alloc_plan.all_ok))
          = some w ∧
        w.live.length = N ∧ w.screen.num_contexts = (N : Int) ∧
        (0 < N → ∃ w1, w.run caps [call.destroy 0] = some w1 ∧
          w1.live.length = N - 1 ∧ w1.screen.num_contexts = (N : Int) - 1)) := by
  have hinit : count_inv world.init := rfl
  have hexact : ∀ n : Nat, n ≤ 2147483647 → wrap_int32 (n : Int) = (n : Int) := by
    intro n hn
    unfold wrap_int32; omega
  constructor
  · intro calls w h
    have hi := run_count_inv caps calls world.init w hinit h
    unfold count_inv at hi
    refine ⟨hi, ?_⟩
    intro hb
    have hlen : w.live.length ≤ 2147483647 := by
      rcases hb with hb | hb
      · have := run_live_length caps calls world.init w h
        simp only [world.init, List.length_nil] at this
        omega
      · exact hb
    rw [hi, hexact _ hlen]
    exact ⟨rfl, Int.natCast_nonneg _⟩
  · intro N hN
    obtain ⟨w, hw, hl, hall⟩ := run_creates caps N world.init (by
      intro ctx hc; cases hc)
    have hl2 : w.live.length = N := by
      rw [hl]; simp [world.init]
    have hi := run_count_inv caps _ world.init w hinit hw
    unfold count_inv at hi
    refine ⟨w, hw, hl2, by rw [hi, hl2, hexact N hN], ?_⟩
    intro hpos
    have hlt : 0 < w.live.length := by omega
    obtain ⟨t, ht⟩ := destroy_ok (w.live.get ⟨0, hlt⟩) w.screen caps
      (hall _ (List.get_mem _ _ _))
    have hg : w.live.get? 0 = some (w.live.get ⟨0, hlt⟩) := List.get?_eq_get hlt
    have hstep : w.step caps (call.destroy 0)
        = some { screen := r300_update_num_contexts w.screen (-1),
                 live := w.live.eraseIdx 0 } := by
      simp only [world.step, hg, ht]
    refine ⟨{ screen := r300_update_num_contexts w.screen (-1),
              live := w.live.eraseIdx 0 },
      by simp only [world.run, hstep], ?_, ?_⟩
    · simp only [List.length_eraseIdx, hl2, if_pos hpos]
    · show (r300_update_num_contexts w.screen (-1)).num_contexts = (N : Int) - 1
      rw [update_num_contexts_count, hi, hl2, hexact N hN]
      simp only [show ((-1 : Int) > 0) = False from by simp, if_false]
      unfold wrap_int32; omega


theorem primed_dirty (r : r300_context) (caps : Caps) (a : AtomName) :
    ((primed r caps).atoms a).dirty
      = ((r.atoms a).dirty || decide (a = blend_color_state)
          || decide (a = scissor_state)
          || (caps.has_tcl && decide (a = clip_state))) := by
  unfold primed
  cases caps.has_tcl <;>
    simp only [mark_dirty, set_dirty_atoms, if_true, if_false,
      Bool.false_eq_true, Bool.false_and, Bool.true_and, Bool.or_false] <;>
    split_ifs <;> simp_all

/-- The atoms the first flush emits right after priming the registry. -/
theorem emit_primed (ctx r0 : r300_context) (caps : Caps)
    (alloc : AtomName → Bool)
    (ha : ctx.atoms = (primed (r300_setup_atoms r0 caps alloc) caps).atoms)
    (hl : ctx.atom_list = (r300_setup_atoms r0 caps alloc).atom_list) :
    (emit_dirty_state ctx).1
      = [blend_color_state, scissor_state, invariant_state, pvs_flush,
         vap_invariant_state]
        ++ (if caps.has_tcl = true then [clip_state] else [])
        ++ [texture_cache_inval, textures_state] := by
  unfold emit_dirty_state
  rw [hl, foldl_emit_step _ (setup_atom_list_nodup r0 caps alloc), ha]
  have hc : (r300_setup_atoms r0 caps alloc).atom_list.filter
        (fun a => ((primed (r300_setup_atoms r0 caps alloc) caps).atoms a).dirty)
      = (r300_setup_atoms r0 caps alloc).atom_list.filter
        (fun a => decide (a ∈ [invariant_state, pvs_flush, vap_invariant_state,
              texture_cache_inval, textures_state])
          || decide (a = blend_color_state) || decide (a = scissor_state)
          || (caps.has_tcl && decide (a = clip_state))) := by
    apply List.filter_congr
    intro a hmem
    rw [primed_dirty]
    have := setup_dirty_iff r0 caps alloc a hmem
    congr 3
    rw [Bool.eq_iff_iff, this]
    simp
  rw [hc]
  rcases setup_atom_list_cases r0 caps alloc with h | h | h <;>
    rw [h] <;> cases caps.has_tcl <;> decide

/-- Dirty flags of the three priming atoms in a primed registry. -/
theorem primed_setup_flags (r0 : r300_context) (caps : Caps)
    (alloc : AtomName → Bool) :
    ((primed (r300_setup_atoms r0 caps alloc) caps).atoms invariant_state).dirty
      = true ∧
    ((primed (r300_setup_atoms r0 caps alloc) caps).atoms viewport_state).dirty
      = false ∧
    ((primed (r300_setup_atoms r0 caps alloc) caps).atoms clip_state).dirty
      = caps.has_tcl := by
  have hm : ∀ a ∈ registry_base, a ∈ (r300_setup_atoms r0 caps alloc).atom_list := by
    intro a ha
    rw [mem_setup_atom_list]
    exact Or.inl ha
  have h1 := setup_dirty_iff r0 caps alloc invariant_state (hm _ (by decide))
  have h2 := setup_dirty_iff r0 caps alloc viewport_state (hm _ (by decide))
  have h3 := setup_dirty_iff r0 caps alloc clip_state (hm _ (by decide))
  have e1 : ((r300_setup_atoms r0 caps alloc).atoms invariant_state).dirty = true :=
    h1.mpr (by decide)
  have e2 : ((r300_setup_atoms r0 caps alloc).atoms viewport_state).dirty = false := by
    cases hd : ((r300_setup_atoms r0 caps alloc).atoms viewport_state).dirty
    · rfl
    · exact absurd (h2.mp hd) (by decide)
  have e3 : ((r300_setup_atoms r0 caps alloc).atoms clip_state).dirty = false := by
    cases hd : ((r300_setup_atoms r0 caps alloc).atoms clip_state).dirty
    · rfl
    · exact absurd (h3.mp hd) (by decide)
  refine ⟨?_, ?_, ?_⟩
  · rw [primed_dirty, e1]; rfl
  · rw [primed_dirty, e2]; simp
  · rw [primed_dirty, e3]; simp

/-- C7 (as the code has it): after a successful `r300_create_context` and
no further state-set or draw call, the first flush emits exactly
`blend_color_state`, `scissor_state`, `invariant_state`, `pvs_flush`,
`vap_invariant_state`, `clip_state` (only with hardware TCL),
`texture_cache_inval` and `textures_state`, in registry order: the set is
non-empty and contains `invariant_state`, it contains `clip_state` exactly
when `has_tcl` holds, and it does not contain `viewport_state`; the dirty
flags of the three atoms say the same. -/
theorem C7_first_stream_after_create (s : r300_screen) (caps : Caps)
    (plan : alloc_plan) (res : create_result) (ctx : r300_context)
    (h : r300_create_context s caps plan = some res)
    (hc : res.context = some ctx) :
    (emit_dirty_state ctx).1
      = [blend_color_state, scissor_state, invariant_state, pvs_flush,
         vap_invariant_state]
        ++ (if caps.has_tcl = true then [clip_state] else [])
        ++ [texture_cache_inval, textures_state] ∧
    (emit_dirty_state ctx).1 ≠ [] ∧
    invariant_state ∈ (emit_dirty_state ctx).1 ∧
    (clip_state ∈ (emit_dirty_state ctx).1 ↔ caps.has_tcl = true) ∧
    viewport_state ∉ (emit_dirty_state ctx).1 ∧
    (ctx.atoms invariant_state).dirty = true ∧
    (ctx.atoms viewport_state).dirty = false ∧
    (ctx.atoms clip_state).dirty = caps.has_tcl := by
  rcases create_cases s caps plan res h with ⟨h1, -⟩ | ⟨h1, -⟩ | ⟨c, r0, h1, -, h3, h4⟩
  · rw [h1] at hc; cases hc
  · rw [h1] at hc; cases hc
  · rw [h1] at hc
    cases hc
    have he := emit_primed _ r0 caps _ h3 h4
    obtain ⟨f1, f2, f3⟩ := primed_setup_flags r0 caps plan.atom_state
    refine ⟨he, ?_, ?_, ?_, ?_, ?_, ?_, ?_⟩
    · rw [he]; cases caps.has_tcl <;> decide
    · rw [he]; cases caps.has_tcl <;> decide
    · rw [he]; cases caps.has_tcl <;> decide
    · rw [he]; cases caps.has_tcl <;> decide
    · rw [h3]; exact f1
    · rw [h3]; exact f2
    · rw [h3]; exact f3

/-- C7, as stated, fails: on a chip without hardware TCL a successful create
leaves neither `viewport_state` nor `clip_state` dirty, so the first flush
emits neither. -/
theorem C7_counterexample :
    ∃ res ctx,
      r300_create_context screen_init caps_swtcl alloc_plan.all_ok = some res ∧
      res.context = some ctx ∧
      (ctx.atoms viewport_state).dirty = false ∧
      (ctx.atoms clip_state).dirty = false ∧
      viewport_state ∉ (emit_dirty_state ctx).1 ∧
      clip_state ∉ (emit_dirty_state ctx).1 := by
  refine ⟨_, _, rfl, rfl, ?_, ?_, ?_, ?_⟩ <;> decide

/-- The trace of a completed destroy. -/
theorem destroy_some (r300 : r300_context) (s : r300_screen) (caps : Caps)
    (st : r300_screen × List action)
    (h : r300_destroy_context r300 s caps = some st) :
    (r300.atoms fb_state).state.isSome = true ∧
    (r300.atoms textures_state).state.isSome = true ∧
    st = (r300_update_num_contexts s (-1),
          destroy_release_steps r300 ++ [action.update_num_contexts (-1)]
            ++ free_atom_states (set_texkill_sampler r300 false) caps
            ++ [action.FREE_context]) := by
  unfold r300_destroy_context r300_release_referenced_objects at h
  by_cases h1 : (r300.atoms fb_state).state.isSome = true
  · by_cases h2 : (r300.atoms textures_state).state.isSome = true
    · simp only [h1, h2, if_true, Option.bind_eq_bind, Option.some_bind,
        Option.pure_def, Option.some.injEq] at h
      exact ⟨h1, h2, h.symm⟩
    · simp [h1, h2] at h
  · simp [h1] at h

theorem destroy_eq (r300 : r300_context) (s : r300_screen) (caps : Caps)
    (h1 : (r300.atoms fb_state).state.isSome = true)
    (h2 : (r300.atoms textures_state).state.isSome = true) :
    r300_destroy_context r300 s caps
      = some (r300_update_num_contexts s (-1),
          destroy_release_steps r300 ++ [action.update_num_contexts (-1)]
            ++ free_atom_states (set_texkill_sampler r300 false) caps
            ++ [action.FREE_context]) := by
  unfold r300_destroy_context r300_release_referenced_objects
  simp only [h1, h2, if_true, Option.bind_eq_bind, Option.some_bind,
    Option.pure_def]
  rfl

theorem destroy_none (r300 : r300_context) (s : r300_screen) (caps : Caps)
    (h : (r300.atoms textures_state).state = none) :
    r300_destroy_context r300 s caps = none := by
  unfold r300_destroy_context r300_release_referenced_objects
  simp [h]

/-- C11 (the code at the failing input): when `rws->cs_create` returns NULL,
`r300_setup_atoms` has not run, the texture state block is null, and the
teardown reads `textures->sampler_view_count` through it: neither
`r300_release_referenced_objects`, nor `r300_destroy_context`, nor the
`r300_create_context` call that jumped to `fail:` completes. -/
theorem C11_destroy_after_cs_failure (s : r300_screen) (caps : Caps) :
    ((set_cs r300_context.zero false).atoms textures_state).state = none ∧
    ((set_cs r300_context.zero false).atoms fb_state).state = none ∧
    r300_release_referenced_objects (set_cs r300_context.zero false) = none ∧
    r300_destroy_context (set_cs r300_context.zero false) s caps = none ∧
    r300_create_context s caps plan_cs_fails = none := by
  refine ⟨rfl, rfl, rfl, destroy_none _ _ _ rfl, ?_⟩
  unfold r300_create_context create_fail
  simp only [plan_cs_fails, alloc_plan.all_ok, Bool.not_true, Bool.false_eq_true,
    if_false, set_cs, r300_context.zero, Bool.not_false, if_true]
  rw [destroy_none _ _ _ rfl]
  rfl

/-- After `r300_setup_atoms` a registered atom has a state block exactly
when the block is one the function allocates and the allocation succeeded. -/
theorem setup_state_isSome (r300 : r300_context) (caps : Caps)
    (alloc : AtomName → Bool) (a : AtomName)
    (ha : a ∈ (r300_setup_atoms r300 caps alloc).atom_list) :
    ((r300_setup_atoms r300 caps alloc).atoms a).state.isSome
      = ((decide (a ∈ setup_alloc_atoms)
          || (decide (a = vertex_stream_state) && !caps.has_tcl)) && alloc a) := by
  rw [mem_setup_atom_list] at ha
  cases a <;>
    simp [r300_setup_atoms, init_atom_atoms, set_state_atoms,
      set_allow_null_state_atoms, set_dirty_atoms, set_emit_r500_atoms,
      ite_ctx_atoms, registry_base, setup_alloc_atoms] at ha ⊢ <;>
    (try split) <;> (try simp_all)
  all_goals cases alloc vertex_stream_state
  all_goals rfl

theorem subsystems_modify (r : r300_context) (a : AtomName)
    (f : r300_atom → r300_atom) : subsystems (r.modify a f) = subsystems r := rfl

theorem subsystems_init (r : r300_context) (a : AtomName) (n : Nat) :
    subsystems (R300_INIT_ATOM r a n) = subsystems r := rfl

theorem subsystems_ite (c : Prop) [Decidable c] (x y : r300_context) :
    subsystems (if c then x else y) = if c then subsystems x else subsystems y := by
  split <;> rfl

/-- `r300_setup_atoms` writes atoms and the atom list only. -/
theorem setup_subsystems (r300 : r300_context) (caps : Caps)
    (alloc : AtomName → Bool) :
    subsystems (r300_setup_atoms r300 caps alloc) = subsystems r300 := by
  simp [r300_setup_atoms, subsystems_init, subsystems_ite, set_state,
    set_allow_null_state, set_dirty, set_emit_r500, subsystems_modify]
  rfl

/-- Priming writes atoms only. -/
theorem primed_subsystems (r : r300_context) (caps : Caps) :
    subsystems (primed r caps) = subsystems r := by
  unfold primed
  cases caps.has_tcl <;> rfl

/-- The teardown of the `fail:` path completes when the framebuffer and
texture state blocks exist; it returns `NULL` and decrements the count. -/
theorem create_fail_eq (r : r300_context) (s : r300_screen) (caps : Caps)
    (h1 : (r.atoms fb_state).state.isSome = true)
    (h2 : (r.atoms textures_state).state.isSome = true) :
    create_fail r s caps
      = some { context := none, screen := r300_update_num_contexts s (-1),
               teardown := destroy_release_steps r
                 ++ [action.update_num_contexts (-1)]
                 ++ free_atom_states (set_texkill_sampler r false) caps
                 ++ [action.FREE_context] } := by
  unfold create_fail
  rw [destroy_eq r s caps h1 h2]
  rfl

/-- A failure of the blitter, the hyper-Z manager, an upload manager or the
translate cache sends the subsystem stage through the teardown. -/
theorem create_subsystems_fail (r : r300_context) (s : r300_screen)
    (caps : Caps) (plan : alloc_plan)
    (h1 : (r.atoms fb_state).state.isSome = true)
    (h2 : (r.atoms textures_state).state.isSome = true)
    (hf : plan.blitter = false ∨ (caps.can_hyperz = true ∧ plan.hyperz_mm = false) ∨
      plan.upload_ib = false ∨ plan.upload_vb = false ∨
      plan.translate_cache = false) :
    ∃ t, create_subsystems r s caps plan
      = some { context := none, screen := r300_update_num_contexts s (-1),
               teardown := t } := by
  unfold create_subsystems
  dsimp only
  split_ifs with c1 c2 c3 c4 c5 c6 c7 c8 c9
  all_goals first
    | exact ⟨_, create_fail_eq _ s caps h1 h2⟩
    | (exfalso
       simp only [set_blitter, set_upload_ib, set_upload_vb, set_translate_cache,
         Bool.not_eq_true', Bool.and_eq_true, Bool.not_eq_true, not_and,
         Bool.not_eq_false] at *
       rcases hf with hf | ⟨hf, hf2⟩ | hf | hf | hf <;> simp_all)

theorem setup_state_of_alloc (r300 : r300_context) (caps : Caps)
    (alloc : AtomName → Bool) (a : AtomName) (ha : a ∈ setup_alloc_atoms)
    (h : alloc a = true) :
    ((r300_setup_atoms r300 caps alloc).atoms a).state.isSome = true := by
  have hm : a ∈ (r300_setup_atoms r300 caps alloc).atom_list := by
    rw [mem_setup_atom_list]
    left
    simp only [setup_alloc_atoms, List.mem_cons, List.mem_singleton,
      List.not_mem_nil, or_false] at ha
    rcases ha with e | e | e | e | e | e | e | e | e | e | e | e | e | e | e <;>
      rw [e] <;> decide
  rw [setup_state_isSome r300 caps alloc a hm]
  simp [ha, h]

theorem create_finish_eq (r : r300_context) (s : r300_screen) (caps : Caps)
    (plan : alloc_plan) (hp : caps.is_r500 = true ∨ plan.texkill_tex = true)
    (h1 : (r.atoms blend_color_state).state.isSome = true)
    (h2 : (r.atoms scissor_state).state.isSome = true)
    (h3 : (r.atoms clip_state).state.isSome = true)
    (h4 : (r.atoms gpu_flush).state.isSome = true)
    (h5 : (r.atoms vap_invariant_state).state.isSome = true)
    (h6 : (r.atoms invariant_state).state.isSome = true)
    (h7 : (r.atoms hyperz_state).state.isSome = true) :
    create_finish r s caps plan
      = some { context := some (if (!caps.is_r500) = true then
                 set_texkill_sampler (primed r caps) plan.texkill_view
                 else primed r caps),
               screen := s, teardown := [] } := by
  unfold create_finish
  rw [init_states_ok r caps h1 h2 h3 h4 h5 h6 h7]
  dsimp only
  cases h5 : caps.is_r500
  · have ht : plan.texkill_tex = true := by
      rcases hp with hp | hp
      · rw [h5] at hp; cases hp
      · exact hp
    simp [ht]
  · simp

theorem create_subsystems_ok (r : r300_context) (s : r300_screen) (caps : Caps)
    (plan : alloc_plan) (hb : plan.blitter = true)
    (hz : caps.can_hyperz = true → plan.hyperz_mm = true)
    (hi : plan.upload_ib = true) (hv : plan.upload_vb = true)
    (ht : plan.translate_cache = true) :
    create_subsystems r s caps plan
      = create_finish (with_subsystems r caps) s caps plan := by
  unfold create_subsystems with_subsystems
  simp only [hb, hi, hv, ht, set_blitter, set_upload_ib, set_upload_vb,
    set_translate_cache, Bool.not_true, Bool.false_eq_true, if_false]
  cases hc : caps.can_hyperz
  · simp
  · simp [hz hc]

theorem with_subsystems_atoms (r : r300_context) (caps : Caps) :
    (with_subsystems r caps).atoms = r.atoms := by
  unfold with_subsystems
  cases caps.can_hyperz <;> rfl

/-- A create whose tested and dereferenced allocations succeed returns the
context `created_context` and increments the count. -/
theorem create_ok (s : r300_screen) (caps : Caps) (plan : alloc_plan)
    (h : plan_reaches_return caps plan) :
    r300_create_context s caps plan
      = some { context := some (created_context caps plan),
               screen := r300_update_num_contexts s 1, teardown := [] } := by
  obtain ⟨hctx, hcs, hdraw, hb, hz, hi, hv, ht, hp, ha⟩ := h
  have hst : ∀ a ∈ [blend_color_state, scissor_state, clip_state, gpu_flush,
      vap_invariant_state, invariant_state, hyperz_state],
      ((with_subsystems (r300_setup_atoms (context_before_atoms caps) caps
          plan.atom_state) caps).atoms a).state.isSome = true := by
    intro a hm
    rw [with_subsystems_atoms]
    apply setup_state_of_alloc _ _ _ _ _ (ha a hm)
    simp only [List.mem_cons, List.mem_singleton, List.not_mem_nil, or_false] at hm
    rcases hm with e | e | e | e | e | e | e <;> rw [e] <;> decide
  have key : r300_create_context s caps plan
      = create_subsystems (r300_setup_atoms (context_before_atoms caps) caps
          plan.atom_state) (r300_update_num_contexts s 1) caps plan := by
    unfold r300_create_context context_before_atoms
    simp only [hctx, hcs, set_cs, Bool.not_true, Bool.false_eq_true, if_false]
    cases htc : caps.has_tcl
    · have hd : plan.draw = true := by
        rcases hdraw with hd | hd
        · rw [htc] at hd; cases hd
        · exact hd
      simp [hd]
    · simp
  rw [key, create_subsystems_ok _ _ _ _ hb hz hi hv ht,
    create_finish_eq _ _ _ _ hp (hst _ (by decide)) (hst _ (by decide))
      (hst _ (by decide)) (hst _ (by decide)) (hst _ (by decide))
      (hst _ (by decide)) (hst _ (by decide))]
  rfl

/-- A failure at the first tested allocation after `r300_setup_atoms` that
fails: the whole create returns `NULL` after one increment and one
decrement. -/
theorem create_late_failure (s : r300_screen) (caps : Caps) (plan : alloc_plan)
    (hctx : plan.context = true) (hcs : plan.cs = true)
    (hdraw : caps.has_tcl = true ∨ plan.draw = true)
    (hfb : plan.atom_state fb_state = true)
    (htx : plan.atom_state textures_state = true)
    (hf : plan.blitter = false ∨ (caps.can_hyperz = true ∧ plan.hyperz_mm = false) ∨
      plan.upload_ib = false ∨ plan.upload_vb = false ∨
      plan.translate_cache = false) :
    ∃ t, r300_create_context s caps plan
      = some { context := none,
               screen := r300_update_num_contexts (r300_update_num_contexts s 1) (-1),
               teardown := t } := by
  have key : r300_create_context s caps plan
      = create_subsystems (r300_setup_atoms (context_before_atoms caps) caps
          plan.atom_state) (r300_update_num_contexts s 1) caps plan := by
    unfold r300_create_context context_before_atoms
    simp only [hctx, hcs, set_cs, Bool.not_true, Bool.false_eq_true, if_false]
    cases htc : caps.has_tcl
    · have hd : plan.draw = true := by
        rcases hdraw with hd | hd
        · rw [htc] at hd; cases hd
        · exact hd
      simp [hd]
    · simp
  rw [key]
  exact create_subsystems_fail _ _ caps plan
    (setup_state_of_alloc _ _ _ _ (by decide) hfb)
    (setup_state_of_alloc _ _ _ _ (by decide) htx) hf

theorem create_no_context (s : r300_screen) (caps : Caps) (plan : alloc_plan)
    (h : plan.context = false) :
    r300_create_context s caps plan
      = some { context := none, screen := s, teardown := [] } := by
  unfold r300_create_context
  simp [h]

/-- An increment followed by a decrement restores a screen that satisfies
the coordinator invariant. -/
theorem update_roundtrip (s : r300_screen)
    (h : s.pool_buffers = UTIL_MEMPOOL_SINGLETHREADED ↔ s.num_contexts ≤ 1) :
    r300_update_num_contexts (r300_update_num_contexts s 1) (-1) = s := by
  obtain ⟨n, p, hn⟩ := s
  simp only at h
  have e1 : wrap_int32 (wrap_int32 (n + 1) - 1) = n := by unfold wrap_int32; omega
  have e2 : wrap_int32 (n + 1) > 1 ↔ (1 ≤ n ∧ n < 2147483647) := by
    unfold wrap_int32; omega
  cases p <;> simp only [r300_update_num_contexts] <;> split_ifs <;>
    simp_all <;> omega

theorem created_context_state (caps : Caps) (plan : alloc_plan) (a : AtomName) :
    ((created_context caps plan).atoms a).state
      = ((r300_setup_atoms (context_before_atoms caps) caps plan.atom_state).atoms
          a).state := by
  unfold created_context
  have e : ((primed (with_subsystems (r300_setup_atoms (context_before_atoms caps)
      caps plan.atom_state) caps) caps).atoms a).state
      = ((r300_setup_atoms (context_before_atoms caps) caps plan.atom_state).atoms
          a).state := by
    rw [primed_state, with_subsystems_atoms]
  cases caps.is_r500 <;> exact e

theorem created_context_texkill (caps : Caps) (plan : alloc_plan)
    (h : caps.is_r500 = false) :
    (created_context caps plan).texkill_sampler = plan.texkill_view := by
  unfold created_context
  simp [h, set_texkill_sampler]

/-- C12, as the code behaves: not every allocation failure surfaces as
`NULL`.  With only the texkill sampler view failing, or only the `aa_state`
state block, `r300_create_context` returns a context that lacks the object,
because these results are never tested; with only the command stream, the
draw module or the dummy texkill texture failing, the call runs into a null
dereference instead of returning `NULL`. -/
theorem C12_untested_allocation_failures :
    (∃ res ctx,
      r300_create_context screen_init caps_swtcl plan_texkill_view_fails = some res ∧
      res.context = some ctx ∧ ctx.texkill_sampler = false) ∧
    (∃ res ctx,
      r300_create_context screen_init caps_swtcl plan_aa_state_fails = some res ∧
      res.context = some ctx ∧ (ctx.atoms aa_state).state = none) ∧
    r300_create_context screen_init caps_swtcl plan_cs_fails = none ∧
    r300_create_context screen_init caps_swtcl plan_draw_fails = none ∧
    r300_create_context screen_init caps_swtcl plan_texkill_tex_fails = none := by
  refine ⟨⟨_, _, rfl, rfl, ?_⟩, ⟨_, _, rfl, rfl, ?_⟩, rfl, rfl, rfl⟩ <;> decide

/-- C13: from a screen on which the pool is single-threaded iff
`num_contexts <= 1`, a create that fails at the context-struct allocation
returns `NULL` with the screen untouched, and a create that fails at the
blitter, the hyper-Z manager, the index or vertex upload manager or the
translate cache returns `NULL` with `num_contexts` and the pool mode equal to
their values before the call; so does every create that completes with
`NULL`. -/
theorem C13_failed_create_leaves_pool (s : r300_screen) (caps : Caps)
    (plan : alloc_plan)
    (hinv : s.pool_buffers = UTIL_MEMPOOL_SINGLETHREADED ↔ s.num_contexts ≤ 1) :
    (plan.context = false →
      r300_create_context s caps plan
        = some { context := none, screen := s, teardown := [] }) ∧
    (plan.context = true → plan.cs = true →
      (caps.has_tcl = true ∨ plan.draw = true) →
      plan.atom_state fb_state = true → plan.atom_state textures_state = true →
      (plan.blitter = false ∨ (caps.can_hyperz = true ∧ plan.hyperz_mm = false) ∨
        plan.upload_ib = false ∨ plan.upload_vb = false ∨
        plan.translate_cache = false) →
      ∃ res, r300_create_context s caps plan = some res ∧ res.context = none ∧
        res.screen.num_contexts = s.num_contexts ∧
        res.screen.pool_buffers = s.pool_buffers) ∧
    (∀ res, r300_create_context s caps plan = some res → res.context = none →
      res.screen = s) := by
  refine ⟨create_no_context s caps plan, ?_, ?_⟩
  · intro hctx hcs hdraw hfb htx hf
    obtain ⟨t, ht⟩ := create_late_failure s caps plan hctx hcs hdraw hfb htx hf
    rw [update_roundtrip s hinv] at ht
    exact ⟨_, ht, rfl, rfl, rfl⟩
  · intro res h hn
    rcases create_cases s caps plan res h with ⟨-, h2⟩ | ⟨-, h2⟩ | ⟨ctx, r0, h1, -⟩
    · exact h2
    · rw [h2, update_roundtrip s hinv]
    · rw [hn] at h1; cases h1

/-- The release steps as a concatenation of guarded single steps. -/
theorem destroy_release_steps_eq (r : r300_context) :
    destroy_release_steps r
      = (if r.blitter = true then [action.util_blitter_destroy] else [])
        ++ (if r.draw = true then [action.draw_destroy] else [])
        ++ (if r.upload_vb = true then [action.u_upload_destroy_vb] else [])
        ++ (if r.upload_ib = true then [action.u_upload_destroy_ib] else [])
        ++ (if r.translate_cache = true then [action.translate_cache_destroy] else [])
        ++ [action.release_referenced_objects]
        ++ (if r.zmask_mm = true then [action.r300_hyperz_destroy_mm] else [])
        ++ (if r.cs = true then [action.cs_destroy] else [])
        ++ [action.util_mempool_destroy] := by
  unfold destroy_release_steps
  cases r.blitter <;> cases r.draw <;> cases r.upload_vb <;> cases r.upload_ib <;>
    cases r.translate_cache <;> cases r.zmask_mm <;> cases r.cs <;> rfl

theorem free_calls_append (t u : List action) :
    free_calls (t ++ u) = free_calls t ++ free_calls u := by
  unfold free_calls; exact List.filterMap_append _ _ _

theorem freed_blocks_append (t u : List action) :
    freed_blocks (t ++ u) = freed_blocks t ++ freed_blocks u := by
  unfold freed_blocks; exact List.filterMap_append _ _ _

theorem free_calls_release_steps (r : r300_context) :
    free_calls (destroy_release_steps r) = [] := by
  rw [destroy_release_steps_eq]
  simp only [free_calls_append]
  cases r.blitter <;> cases r.draw <;> cases r.upload_vb <;> cases r.upload_ib <;>
    cases r.translate_cache <;> cases r.zmask_mm <;> cases r.cs <;> rfl

theorem freed_blocks_release_steps (r : r300_context) :
    freed_blocks (destroy_release_steps r) = [] := by
  rw [destroy_release_steps_eq]
  simp only [freed_blocks_append]
  cases r.blitter <;> cases r.draw <;> cases r.upload_vb <;> cases r.upload_ib <;>
    cases r.translate_cache <;> cases r.zmask_mm <;> cases r.cs <;> rfl

theorem free_calls_map (l : List AtomName) (f : AtomName → Option state_struct) :
    free_calls (l.map (fun a => action.FREE_state a (f a))) = l := by
  induction l with
  | nil => rfl
  | cons a l ih =>
    simp only [free_calls, List.map_cons, List.filterMap_cons] at ih ⊢
    rw [ih]

theorem freed_blocks_map (l : List AtomName) (f : AtomName → Option state_struct) :
    freed_blocks (l.map (fun a => action.FREE_state a (f a)))
      = l.filter (fun a => (f a).isSome) := by
  induction l with
  | nil => rfl
  | cons a l ih =>
    simp only [freed_blocks, List.map_cons, List.filterMap_cons] at ih ⊢
    cases h : f a with
    | none => simp [h, ih]
    | some v => simp [h, ih]

/-- On a context whose atoms start without state blocks, an atom has a state
block after `r300_setup_atoms` exactly when the block is one the function
allocates and the allocation succeeded. -/
theorem setup_state_isSome_all (r300 : r300_context) (caps : Caps)
    (alloc : AtomName → Bool) (h0 : ∀ a, (r300.atoms a).state = none)
    (a : AtomName) :
    ((r300_setup_atoms r300 caps alloc).atoms a).state.isSome
      = ((decide (a ∈ setup_alloc_atoms)
          || (decide (a = vertex_stream_state) && !caps.has_tcl)) && alloc a) := by
  cases a <;>
    simp [r300_setup_atoms, init_atom_atoms, set_state_atoms,
      set_allow_null_state_atoms, set_dirty_atoms, set_emit_r500_atoms,
      ite_ctx_atoms, setup_alloc_atoms, h0] <;>
    (try split) <;> (try simp_all)
  all_goals first
    | (cases alloc vertex_stream_state <;> rfl)
    | (split <;> simp [h0])

theorem context_before_atoms_state (caps : Caps) (a : AtomName) :
    ((context_before_atoms caps).atoms a).state = none := by
  unfold context_before_atoms
  cases caps.has_tcl <;> rfl

/-- The trace of the `FREE` block on a context whose `aa_state` block
exists. -/
theorem free_atom_states_eq (r : r300_context) (caps : Caps)
    (h : (r.atoms aa_state).state.isSome = true) :
    free_atom_states r caps
      = (setup_alloc_atoms
          ++ (if caps.has_tcl = true then [] else [vertex_stream_state])).map
          (fun a => action.FREE_state a (r.atoms a).state) := by
  unfold free_atom_states
  rw [if_pos h]
  cases caps.has_tcl <;> rfl

/-- C14: when a created context is destroyed and its `aa_state` block
exists, the `FREE` calls of `r300_destroy_context` name pairwise distinct
atoms, and the blocks they release are exactly the state blocks
`r300_setup_atoms` allocated: the fifteen unconditional ones and
`vertex_stream_state` exactly when `has_tcl` is false, each where its
allocation succeeded. -/
theorem C14_destroy_frees_what_setup_allocated (s : r300_screen) (caps : Caps)
    (plan : alloc_plan) (haa : plan.atom_state aa_state = true)
    (hfb : plan.atom_state fb_state = true)
    (htx : plan.atom_state textures_state = true) :
    (plan_reaches_return caps plan →
      ∀ s0, r300_create_context s0 caps plan
        = some { context := some (created_context caps plan),
                 screen := r300_update_num_contexts s0 1, teardown := [] }) ∧
    ∃ s1 t, r300_destroy_context (created_context caps plan) s caps = some (s1, t) ∧
      (free_calls t).Nodup ∧
      (vertex_stream_state ∈ free_calls t ↔ caps.has_tcl = false) ∧
      (freed_blocks t).Nodup ∧
      (∀ a, a ∈ freed_blocks t ↔
        ((r300_setup_atoms (context_before_atoms caps) caps plan.atom_state).atoms
          a).state.isSome = true) ∧
      (∀ a, a ∈ freed_blocks t ↔
        ((a ∈ [aa_state, blend_color_state, clip_state, fb_state, gpu_flush,
               hyperz_state, invariant_state, rs_block_state, scissor_state,
               textures_state, vap_invariant_state, viewport_state, ztop_state,
               fs_constants, vs_constants]
           ∨ (a = vertex_stream_state ∧ caps.has_tcl = false))
         ∧ plan.atom_state a = true)) := by
  have hst : ∀ a, ((created_context caps plan).atoms a).state.isSome
      = ((decide (a ∈ setup_alloc_atoms)
          || (decide (a = vertex_stream_state) && !caps.has_tcl))
          && plan.atom_state a) := by
    intro a
    rw [created_context_state,
      setup_state_isSome_all _ _ _ (context_before_atoms_state caps)]
  have h1 : ((created_context caps plan).atoms fb_state).state.isSome = true := by
    rw [hst, hfb]; rfl
  have h2 : ((created_context caps plan).atoms textures_state).state.isSome = true := by
    rw [hst, htx]; rfl
  have h3 : ((set_texkill_sampler (created_context caps plan) false).atoms
      aa_state).state.isSome = true := by
    show ((created_context caps plan).atoms aa_state).state.isSome = true
    rw [hst, haa]; rfl
  have hnd : (setup_alloc_atoms
      ++ (if caps.has_tcl = true then [] else [vertex_stream_state])).Nodup := by
    cases caps.has_tcl <;> decide
  have hL : ∀ a, a ∈ setup_alloc_atoms
        ++ (if caps.has_tcl = true then [] else [vertex_stream_state])
      ↔ (a ∈ setup_alloc_atoms ∨ (a = vertex_stream_state ∧ caps.has_tcl = false)) := by
    intro a
    cases caps.has_tcl <;> simp
  have hmem : ∀ a, a ∈ freed_blocks (destroy_release_steps (created_context caps plan)
        ++ [action.update_num_contexts (-1)]
        ++ free_atom_states (set_texkill_sampler (created_context caps plan) false) caps
        ++ [action.FREE_context])
      ↔ ((a ∈ setup_alloc_atoms ∨ (a = vertex_stream_state ∧ caps.has_tcl = false))
          ∧ plan.atom_state a = true) := by
    intro a
    have hs : ((set_texkill_sampler (created_context caps plan) false).atoms a).state
        = ((created_context caps plan).atoms a).state := rfl
    simp only [freed_blocks_append, freed_blocks_release_steps,
      free_atom_states_eq _ caps h3, freed_blocks_map]
    have e1 : freed_blocks [action.update_num_contexts (-1)] = [] := rfl
    have e2 : freed_blocks [action.FREE_context] = [] := rfl
    simp only [e1, e2, List.nil_append, List.append_nil, List.mem_filter, hL]
    rw [hs, hst]
    simp only [Bool.and_eq_true, Bool.or_eq_true, decide_eq_true_eq,
      Bool.not_eq_true']
    tauto
  refine ⟨fun hp s0 => create_ok s0 caps plan hp,
    _, _, destroy_eq _ s caps h1 h2, ?_, ?_, ?_, ?_, ?_⟩
  · simp only [free_calls_append, free_calls_release_steps,
      free_atom_states_eq _ caps h3, free_calls_map]
    simpa [free_calls] using hnd
  · simp only [free_calls_append, free_calls_release_steps,
      free_atom_states_eq _ caps h3, free_calls_map]
    cases caps.has_tcl <;> simp [free_calls, setup_alloc_atoms]
  · simp only [freed_blocks_append, freed_blocks_release_steps,
      free_atom_states_eq _ caps h3, freed_blocks_map]
    simpa [freed_blocks] using hnd.filter _
  · intro a
    rw [hmem a, setup_state_isSome_all _ _ _ (context_before_atoms_state caps)]
    simp only [Bool.and_eq_true, Bool.or_eq_true, decide_eq_true_eq,
      Bool.not_eq_true']
  · intro a
    exact hmem a

/-- The subsystem pointers of the context a successful create returns. -/
theorem created_context_subsystems (caps : Caps) (plan : alloc_plan) :
    (created_context caps plan).cs = true ∧
    (created_context caps plan).draw = !caps.has_tcl ∧
    (created_context caps plan).blitter = true ∧
    (created_context caps plan).zmask_mm = caps.can_hyperz ∧
    (created_context caps plan).upload_ib = true ∧
    (created_context caps plan).upload_vb = true ∧
    (created_context caps plan).translate_cache = true := by
  have e1 := primed_subsystems (with_subsystems
    (r300_setup_atoms (context_before_atoms caps) caps plan.atom_state) caps) caps
  have e2 := setup_subsystems (context_before_atoms caps) caps plan.atom_state
  simp only [subsystems, Prod.mk.injEq] at e1 e2
  obtain ⟨p1, p2, p3, p4, p5, p6, p7, -, -⟩ := e1
  obtain ⟨q1, q2, q3, q4, -, -, -, -, -⟩ := e2
  have c1 : (context_before_atoms caps).cs = true := by
    unfold context_before_atoms; cases caps.has_tcl <;> rfl
  have c2 : (context_before_atoms caps).draw = !caps.has_tcl := by
    unfold context_before_atoms; cases caps.has_tcl <;> rfl
  have c4 : (context_before_atoms caps).zmask_mm = false := by
    unfold context_before_atoms; cases caps.has_tcl <;> rfl
  have w1 : ∀ r : r300_context, (with_subsystems r caps).cs = r.cs := by
    intro r; unfold with_subsystems; cases caps.can_hyperz <;> rfl
  have w2 : ∀ r : r300_context, (with_subsystems r caps).draw = r.draw := by
    intro r; unfold with_subsystems; cases caps.can_hyperz <;> rfl
  have w3 : ∀ r : r300_context, (with_subsystems r caps).blitter = true := by
    intro r; unfold with_subsystems; cases caps.can_hyperz <;> rfl
  have w4 : ∀ r : r300_context, r.zmask_mm = false →
      (with_subsystems r caps).zmask_mm = caps.can_hyperz := by
    intro r hr; unfold with_subsystems
    cases caps.can_hyperz
    · exact hr
    · rfl
  have w5 : ∀ r : r300_context, (with_subsystems r caps).upload_ib = true := by
    intro r; unfold with_subsystems; cases caps.can_hyperz <;> rfl
  have w6 : ∀ r : r300_context, (with_subsystems r caps).upload_vb = true := by
    intro r; unfold with_subsystems; cases caps.can_hyperz <;> rfl
  have w7 : ∀ r : r300_context, (with_subsystems r caps).translate_cache = true := by
    intro r; unfold with_subsystems; cases caps.can_hyperz <;> rfl
  unfold created_context
  cases caps.is_r500
  · exact ⟨p1.trans ((w1 _).trans (q1.trans c1)), p2.trans ((w2 _).trans (q2.trans c2)),
      p3.trans (w3 _), p4.trans (w4 _ (q4.trans c4)), p5.trans (w5 _),
      p6.trans (w6 _), p7.trans (w7 _)⟩
  · exact ⟨p1.trans ((w1 _).trans (q1.trans c1)), p2.trans ((w2 _).trans (q2.trans c2)),
      p3.trans (w3 _), p4.trans (w4 _ (q4.trans c4)), p5.trans (w5 _),
      p6.trans (w6 _), p7.trans (w7 _)⟩

/-- The release steps taken when a created context is destroyed. -/
theorem created_release_steps (caps : Caps) (plan : alloc_plan) :
    destroy_release_steps (created_context caps plan)
      = [action.util_blitter_destroy]
        ++ (if caps.has_tcl = true then [] else [action.draw_destroy])
        ++ [action.u_upload_destroy_vb, action.u_upload_destroy_ib,
            action.translate_cache_destroy, action.release_referenced_objects]
        ++ (if caps.can_hyperz = true then [action.r300_hyperz_destroy_mm] else [])
        ++ [action.cs_destroy, action.util_mempool_destroy] := by
  obtain ⟨f1, f2, f3, f4, f5, f6, f7⟩ := created_context_subsystems caps plan
  rw [destroy_release_steps_eq, f1, f2, f3, f4, f5, f6, f7]
  cases caps.has_tcl <;> cases caps.can_hyperz <;> rfl

/-- The `FREE` block of the teardown contains `FREE` calls only. -/
theorem free_atom_states_mem (r : r300_context) (caps : Caps) (x : action)
    (h : x ∈ free_atom_states r caps) :
    ∃ a, x = action.FREE_state a (r.atoms a).state := by
  unfold free_atom_states at h
  by_cases hh : (r.atoms aa_state).state.isSome = true
  · rw [if_pos hh] at h
    obtain ⟨a, -, rfl⟩ := List.mem_map.mp h
    exact ⟨a, rfl⟩
  · rw [if_neg hh] at h
    cases h

theorem free_atom_states_count (r : r300_context) (caps : Caps) (x : action)
    (h : ∀ a p, x ≠ action.FREE_state a p) :
    (free_atom_states r caps).count x = 0 := by
  rw [List.count_eq_zero]
  intro hm
  obtain ⟨a, ha⟩ := free_atom_states_mem r caps x hm
  exact h a _ ha

theorem release_steps_count_flush (r : r300_context) :
    (destroy_release_steps r).count action.context_flush = 0 := by
  rw [destroy_release_steps_eq]
  cases r.blitter <;> cases r.draw <;> cases r.upload_vb <;> cases r.upload_ib <;>
    cases r.translate_cache <;> cases r.zmask_mm <;> cases r.cs <;> rfl

theorem release_steps_count_cs (r : r300_context) :
    (destroy_release_steps r).count action.cs_destroy
      = if r.cs = true then 1 else 0 := by
  rw [destroy_release_steps_eq]
  cases r.blitter <;> cases r.draw <;> cases r.upload_vb <;> cases r.upload_ib <;>
    cases r.translate_cache <;> cases r.zmask_mm <;> cases r.cs <;> rfl

/-- C15 (as the code has it): `r300_destroy_context` never flushes: a
completed destroy makes no call of the context's flush entry, which is all
`r300_flush_cb` does, and it calls `rws->cs_destroy` exactly once when the
context owns a command stream and not at all otherwise. -/
theorem C15_destroy_does_not_flush (r300 : r300_context) (s : r300_screen)
    (caps : Caps) (st : r300_screen × List action)
    (h : r300_destroy_context r300 s caps = some st) :
    st.2.count action.context_flush = 0 ∧
    (∀ x ∈ r300_flush_cb, x ∉ st.2) ∧
    st.2.count action.cs_destroy = (if r300.cs = true then 1 else 0) := by
  obtain ⟨-, -, rfl⟩ := destroy_some r300 s caps st h
  have hc : (destroy_release_steps r300 ++ [action.update_num_contexts (-1)]
        ++ free_atom_states (set_texkill_sampler r300 false) caps
        ++ [action.FREE_context]).count action.context_flush = 0 := by
    simp only [List.count_append, release_steps_count_flush,
      free_atom_states_count _ _ action.context_flush (by intro a p hx; cases hx)]
    rfl
  refine ⟨hc, ?_, ?_⟩
  · intro x hx
    simp only [r300_flush_cb, List.mem_singleton] at hx
    rw [hx]
    exact List.count_eq_zero.mp hc
  · simp only [List.count_append, release_steps_count_cs,
      free_atom_states_count _ _ action.cs_destroy (by intro a p hx; cases hx)]
    split_ifs <;> rfl

/-- C15, as stated, fails: destroying the context created on a chip without
hardware TCL, which owns a command stream, destroys the stream without any
flush. -/
theorem C15_counterexample :
    r300_create_context screen_init caps_swtcl alloc_plan.all_ok
      = some { context := some (created_context caps_swtcl alloc_plan.all_ok),
               screen := r300_update_num_contexts screen_init 1, teardown := [] } ∧
    (created_context caps_swtcl alloc_plan.all_ok).cs = true ∧
    ∃ s1 t,
      r300_destroy_context (created_context caps_swtcl alloc_plan.all_ok)
        (r300_update_num_contexts screen_init 1) caps_swtcl = some (s1, t) ∧
      action.cs_destroy ∈ t ∧ action.context_flush ∉ t := by
  refine ⟨rfl, rfl, _, _, rfl, ?_, ?_⟩ <;> decide

/-- C16: destroying a fully created context (every allocation succeeded)
takes these steps in this order: the blitter, the draw module (without
hardware TCL), the two upload managers and the translate cache; then the
release of the referenced objects; then the hyper-Z manager (if any), the
command stream and `pool_transfers`; then the one decrement of the
coordinator's count; then the `FREE` calls on the atom state blocks, all on
allocated blocks; then `FREE` of the context.  The count is decremented
exactly once: the screen afterwards is the screen after one
`r300_update_num_contexts(-1)`, whose count is one less (the 32-bit counter
wraps only from -2^31). -/
theorem C16_destroy_phase_order (s : r300_screen) (caps : Caps) :
    (∀ s0, r300_create_context s0 caps alloc_plan.all_ok
      = some { context := some (created_context caps alloc_plan.all_ok),
               screen := r300_update_num_contexts s0 1, teardown := [] }) ∧
    ∃ s1 frees,
      r300_destroy_context (created_context caps alloc_plan.all_ok) s caps
        = some (s1,
            ([action.util_blitter_destroy]
              ++ (if caps.has_tcl = true then [] else [action.draw_destroy])
              ++ [action.u_upload_destroy_vb, action.u_upload_destroy_ib,
                  action.translate_cache_destroy])
            ++ [action.release_referenced_objects]
            ++ ((if caps.can_hyperz = true then [action.r300_hyperz_destroy_mm]
                 else [])
              ++ [action.cs_destroy, action.util_mempool_destroy])
            ++ [action.update_num_contexts (-1)]
            ++ frees
            ++ [action.FREE_context]) ∧
      s1 = r300_update_num_contexts s (-1) ∧
      s1.num_contexts = wrap_int32 (s.num_contexts - 1) ∧
      (-2147483648 < s.num_contexts → s1.num_contexts = s.num_contexts - 1) ∧
      free_calls frees
        = [aa_state, blend_color_state, clip_state, fb_state, gpu_flush,
           hyperz_state, invariant_state, rs_block_state, scissor_state,
           textures_state, vap_invariant_state, viewport_state, ztop_state,
           fs_constants, vs_constants]
          ++ (if caps.has_tcl = true then [] else [vertex_stream_state]) ∧
      (∀ x ∈ frees, ∃ a p, x = action.FREE_state a (some p)) ∧
      (∀ d, action.update_num_contexts d ∉ frees) := by
  have hp : plan_reaches_return caps alloc_plan.all_ok := by
    unfold plan_reaches_return
    simp [alloc_plan.all_ok, alloc_all]
  have hst : ∀ a, ((created_context caps alloc_plan.all_ok).atoms a).state.isSome
      = (decide (a ∈ setup_alloc_atoms)
          || (decide (a = vertex_stream_state) && !caps.has_tcl)) := by
    intro a
    rw [created_context_state,
      setup_state_isSome_all _ _ _ (context_before_atoms_state caps)]
    simp [alloc_plan.all_ok, alloc_all]
  have h1 : ((created_context caps alloc_plan.all_ok).atoms fb_state).state.isSome
      = true := by rw [hst]; rfl
  have h2 : ((created_context caps alloc_plan.all_ok).atoms textures_state).state.isSome
      = true := by rw [hst]; rfl
  have h3 : ((set_texkill_sampler (created_context caps alloc_plan.all_ok) false).atoms
      aa_state).state.isSome = true := by
    show ((created_context caps alloc_plan.all_ok).atoms aa_state).state.isSome = true
    rw [hst]; rfl
  refine ⟨fun s0 => create_ok s0 caps _ hp, r300_update_num_contexts s (-1),
    free_atom_states (set_texkill_sampler (created_context caps alloc_plan.all_ok) false)
      caps, ?_, rfl, ?_, ?_, ?_, ?_, ?_⟩
  · rw [destroy_eq _ s caps h1 h2, created_release_steps]
    cases caps.has_tcl <;> cases caps.can_hyperz <;> rfl
  · rw [update_num_contexts_count]; rfl
  · intro hgt
    have hr := s.num_contexts_int32
    rw [update_num_contexts_count]
    simp only [show ((-1 : Int) > 0) = False from by simp, if_false]
    unfold wrap_int32; omega
  · rw [free_atom_states_eq _ caps h3, free_calls_map]; rfl
  · intro x hx
    rw [free_atom_states_eq _ caps h3] at hx
    obtain ⟨a, ha, rfl⟩ := List.mem_map.mp hx
    have hs : ((created_context caps alloc_plan.all_ok).atoms a).state.isSome = true := by
      rw [hst]
      cases htc : caps.has_tcl <;> rw [htc] at ha <;>
        simp only [Bool.false_eq_true, if_false, if_true, List.append_nil,
          List.mem_append, List.mem_singleton] at ha
      · rcases ha with ha | ha
        · simp [ha]
        · simp [ha]
      · simp [ha]
    obtain ⟨p, hp2⟩ := Option.isSome_iff_exists.mp hs
    exact ⟨a, p, by
      show action.FREE_state a ((created_context caps alloc_plan.all_ok).atoms a).state
        = action.FREE_state a (some p)
      rw [hp2]⟩
  · intro d hd
    obtain ⟨a, ha⟩ := free_atom_states_mem _ _ _ hd
    cases ha

/-- C19: `r300_setup_atoms` binds the r500 routine to exactly `fs`,
`fs_rc_constant_state` and `fs_constants` when `is_r500` holds and
`r300_emit_<name>` to every registered atom otherwise; the registry is the
same list as with `is_r500` false, and the three atoms keep the name, size,
dirty flag, state block and `allow_null_state` they have with `is_r500`
false. -/
theorem C19_emission_substitution (r300 : r300_context) (caps : Caps)
    (alloc : AtomName → Bool) :
    (∀ a ∈ (r300_setup_atoms r300 caps alloc).atom_list,
      ((r300_setup_atoms r300 caps alloc).atoms a).emit
        = if caps.is_r500 = true ∧ a ∈ [fs, fs_rc_constant_state, fs_constants]
          then emit_fn.r500_emit a else emit_fn.r300_emit a) ∧
    (r300_setup_atoms r300 caps alloc).atom_list
      = (r300_setup_atoms r300 { caps with is_r500 := false } alloc).atom_list ∧
    (∀ a ∈ [fs, fs_rc_constant_state, fs_constants],
      a ∈ (r300_setup_atoms r300 caps alloc).atom_list ∧
      ((r300_setup_atoms r300 caps alloc).atoms a).name
        = ((r300_setup_atoms r300 { caps with is_r500 := false } alloc).atoms a).name ∧
      ((r300_setup_atoms r300 caps alloc).atoms a).size
        = ((r300_setup_atoms r300 { caps with is_r500 := false } alloc).atoms a).size ∧
      ((r300_setup_atoms r300 caps alloc).atoms a).dirty
        = ((r300_setup_atoms r300 { caps with is_r500 := false } alloc).atoms a).dirty ∧
      ((r300_setup_atoms r300 caps alloc).atoms a).state
        = ((r300_setup_atoms r300 { caps with is_r500 := false } alloc).atoms a).state ∧
      ((r300_setup_atoms r300 caps alloc).atoms a).allow_null_state
        = ((r300_setup_atoms r300 { caps with is_r500 := false } alloc).atoms
            a).allow_null_state ∧
      ((r300_setup_atoms r300 { caps with is_r500 := false } alloc).atoms a).emit
        = emit_fn.r300_emit a) := by
  refine ⟨?_, ?_, ?_⟩
  · intro a ha
    rw [mem_setup_atom_list] at ha
    cases a <;>
      simp [r300_setup_atoms, init_atom_atoms, set_state_atoms,
        set_allow_null_state_atoms, set_dirty_atoms, set_emit_r500_atoms,
        ite_ctx_atoms, registry_base] at ha ⊢ <;>
      (try split) <;> simp_all
  · rw [setup_atom_list, setup_atom_list]
  · intro a ha
    have hm : a ∈ (r300_setup_atoms r300 caps alloc).atom_list := by
      rw [mem_setup_atom_list]
      left
      simp only [List.mem_cons, List.mem_singleton, List.not_mem_nil, or_false] at ha
      rcases ha with e | e | e <;> rw [e] <;> decide
    refine ⟨hm, ?_⟩
    simp only [List.mem_cons, List.mem_singleton, List.not_mem_nil, or_false] at ha
    rcases ha with e | e | e <;> subst e <;>
      simp [r300_setup_atoms, init_atom_atoms, set_state_atoms,
        set_allow_null_state_atoms, set_dirty_atoms, set_emit_r500_atoms,
        ite_ctx_atoms] <;>
      (try split) <;> simp_all

/-- C17: `r300_finish` on a context whose framebuffer state block is null,
or whose framebuffer state has no colour buffer and no depth/stencil buffer,
completes, issues no `buffer_wait` and leaves the context as it was. -/
theorem C17_finish_without_framebuffer (r300 : r300_references)
    (h : r300.fb_state = none ∨
      ∃ fb, r300.fb_state = some fb ∧ fb.nr_cbufs = 0 ∧ fb.zsbuf = none) :
    r300_finish r300 = some (r300, []) := by
  rcases h with h | ⟨fb, h, hn, hz⟩
  · simp [r300_finish, h]
  · simp [r300_finish, h, hn, hz, finish_cbufs]

theorem unreference_apply (rc : pipe_object → Nat) (o : Option pipe_object)
    (x : pipe_object) : unreference rc o x = rc x - o.toList.count x := by
  cases o with
  | none => simp [unreference]
  | some y =>
    by_cases h : x = y
    · subst h; simp [unreference]
    · have h2 : ¬ y = x := fun e => h e.symm
      simp [unreference, h, List.count_cons, h2]

theorem unreference_slots_count {α : Type} (mk : α → pipe_object) (n : Nat)
    (l : List (Option α)) (rc : pipe_object → Nat) (x : pipe_object) :
    (unreference_slots mk n l rc).2 x
      = rc x - ((l.take n).filterMap (Option.map mk)).count x := by
  induction n generalizing l rc with
  | zero => simp [unreference_slots]
  | succ n ih =>
    cases l with
    | nil => simp [unreference_slots]
    | cons s l =>
      simp only [unreference_slots, List.take_succ_cons, List.filterMap_cons]
      rw [ih, unreference_apply]
      cases s with
      | none => simp
      | some v => simp [List.count_cons, Nat.sub_sub, Nat.add_comm]

theorem unreference_slots_cleared {α : Type} (mk : α → pipe_object) (n : Nat)
    (l : List (Option α)) (rc : pipe_object → Nat) :
    (((unreference_slots mk n l rc).1).take n).filterMap (Option.map mk) = [] := by
  induction n generalizing l rc with
  | zero => simp
  | succ n ih =>
    cases l with
    | nil => simp [unreference_slots]
    | cons s l =>
      simp only [unreference_slots, List.take_succ_cons, List.filterMap_cons,
        Option.map_none']
      exact ih l _

/-- What a completed release does to the counts and to the slots: every
object loses as many references as the context held on it, and the context
holds none afterwards. -/
theorem release_counts (c c1 : r300_references) (rc rc1 : pipe_object → Nat)
    (h : r300_release_referenced_objects_counted c rc = some (c1, rc1)) :
    (∀ x, rc1 x = rc x - (held_references c).count x) ∧
    held_references c1 = [] := by
  unfold r300_release_referenced_objects_counted at h
  cases hfb : c.fb_state with
  | none => rw [hfb] at h; cases h
  | some fb =>
    cases htx : c.textures_state with
    | none => rw [hfb, htx] at h; cases h
    | some tex =>
      rw [hfb, htx] at h
      simp only [Option.some.injEq, Prod.mk.injEq] at h
      obtain ⟨hc, hr⟩ := h
      constructor
      · intro x
        rw [← hr, unreference_slots_count, unreference_apply]
        have hk : (if c.texkill_sampler.isSome = true then
              unreference (unreference_slots pipe_object.sampler_view
                tex.sampler_view_count tex.sampler_views
                (util_unreference_framebuffer_state fb rc).2).2
                (c.texkill_sampler.map pipe_object.sampler_view)
            else (unreference_slots pipe_object.sampler_view
                tex.sampler_view_count tex.sampler_views
                (util_unreference_framebuffer_state fb rc).2).2) x
            = (unreference_slots pipe_object.sampler_view
                tex.sampler_view_count tex.sampler_views
                (util_unreference_framebuffer_state fb rc).2).2 x
              - (c.texkill_sampler.map pipe_object.sampler_view).toList.count x := by
          cases c.texkill_sampler with
          | none => simp
          | some v => simp [unreference_apply]
        rw [hk, unreference_slots_count]
        simp only [util_unreference_framebuffer_state, unreference_apply,
          unreference_slots_count, held_references, hfb, htx, List.count_append,
          Nat.sub_sub]
      · rw [← hc]
        simp only [held_references, util_unreference_framebuffer_state,
          unreference_slots_cleared, List.take_zero, List.filterMap_nil,
          Option.map_none', Option.toList_none, List.append_nil]

theorem release_isSome (c : r300_references) (rc : pipe_object → Nat) :
    (r300_release_referenced_objects_counted c rc).isSome
      = (c.fb_state.isSome && c.textures_state.isSome) := by
  unfold r300_release_referenced_objects_counted
  cases c.fb_state <;> cases c.textures_state <;> rfl

/-- C18: `r300_release_referenced_objects` completes when the framebuffer
and texture state blocks exist; it takes from every object exactly as many
references as the context held on it through its slots (each bound
framebuffer surface, each of the `sampler_view_count` sampler views, the
texkill sampler if set, the SWTCL vbo, each of the `vertex_buffer_count`
vertex buffers) and leaves those slots empty.  So an object that a second
context also references, its count covering the references of both, keeps a
positive count after the first context's release and reaches zero, when the
two contexts were its only holders, only with the second context's
release. -/
theorem C18_shared_resources_survive (c1 c2 c1r c2r : r300_references)
    (rc rc1 rc2 : pipe_object → Nat)
    (h1 : r300_release_referenced_objects_counted c1 rc = some (c1r, rc1))
    (h2 : r300_release_referenced_objects_counted c2 rc1 = some (c2r, rc2)) :
    (∀ x, rc1 x = rc x - (held_references c1).count x) ∧
    held_references c1r = [] ∧
    (∀ x, rc2 x = rc x - (held_references c1).count x - (held_references c2).count x) ∧
    held_references c2r = [] ∧
    (∀ x, x ∈ held_references c2 →
      (held_references c1).count x + (held_references c2).count x ≤ rc x →
      0 < rc1 x) ∧
    (∀ x, x ∈ held_references c2 →
      (held_references c1).count x + (held_references c2).count x = rc x →
      0 < rc1 x ∧ rc2 x = 0) ∧
    (∀ (c : r300_references) (r : pipe_object → Nat),
      (r300_release_referenced_objects_counted c r).isSome
        = (c.fb_state.isSome && c.textures_state.isSome)) := by
  obtain ⟨a1, b1⟩ := release_counts c1 c1r rc rc1 h1
  obtain ⟨a2, b2⟩ := release_counts c2 c2r rc1 rc2 h2
  have hpos : ∀ x, x ∈ held_references c2 → 0 < (held_references c2).count x :=
    fun x hx => List.count_pos_iff.mpr hx
  refine ⟨a1, b1, ?_, b2, ?_, ?_, release_isSome⟩
  · intro x; rw [a2, a1]
  · intro x hx hle
    have := hpos x hx
    rw [a1]; omega
  · intro x hx he
    have := hpos x hx
    rw [a2, a1]
    constructor <;> omega

/-- C24: `r300_update_num_contexts` looks only at the sign of `diff`: every
`diff > 0` adds exactly 1 to the count and every `diff <= 0`, 0 included,
takes exactly 1 off, as long as the 32-bit counter does not wrap (it is
below 2^31 - 1 before an increment, above -2^31 before a decrement); the
pool mode is written only when the new count exceeds 1 after an increment
(multi-threaded) or is at most 1 after a decrement (single-threaded), and is
left alone otherwise. -/
theorem C24_update_moves_one_step (s : r300_screen) (diff : Int) :
    (diff > 0 → s.num_contexts < 2147483647 →
      (r300_update_num_contexts s diff).num_contexts = s.num_contexts + 1 ∧
      (r300_update_num_contexts s diff).pool_buffers
        = (if s.num_contexts + 1 > 1 then UTIL_MEMPOOL_MULTITHREADED
           else s.pool_buffers)) ∧
    (diff ≤ 0 → -2147483648 < s.num_contexts →
      (r300_update_num_contexts s diff).num_contexts = s.num_contexts - 1 ∧
      (r300_update_num_contexts s diff).pool_buffers
        = (if s.num_contexts - 1 ≤ 1 then UTIL_MEMPOOL_SINGLETHREADED
           else s.pool_buffers)) ∧
    r300_update_num_contexts s diff
      = r300_update_num_contexts s (if diff > 0 then 1 else -1) := by
  have hr := s.num_contexts_int32
  refine ⟨?_, ?_, ?_⟩
  · intro h hlt
    have e : wrap_int32 (s.num_contexts + 1) = s.num_contexts + 1 := by
      unfold wrap_int32; omega
    simp only [r300_update_num_contexts, h, if_true, e]
    split_ifs <;> exact ⟨rfl, rfl⟩
  · intro h hgt
    have h2 : ¬ diff > 0 := by omega
    have e : wrap_int32 (s.num_contexts - 1) = s.num_contexts - 1 := by
      unfold wrap_int32; omega
    simp only [r300_update_num_contexts, h2, if_false, e]
    split_ifs <;> exact ⟨rfl, rfl⟩
  · by_cases h : diff > 0
    · simp [r300_update_num_contexts, h]
    · simp [r300_update_num_contexts, h]

/-- A thread that executes its three statements without another thread in
between does what `r300_update_num_contexts` does. -/
theorem interleave_alone (s : r300_screen) (diff : Int) :
    interleave s [update_thread.start diff] [0, 0, 0]
      = (r300_update_num_contexts s diff,
         [{ diff := diff, pc := 3,
            test := if diff > 0 then
                decide ((r300_update_num_contexts s diff).num_contexts > 1)
              else decide ((r300_update_num_contexts s diff).num_contexts ≤ 1) }]) := by
  by_cases h : diff > 0
  · by_cases c : wrap_int32 (s.num_contexts + 1) > 1
    · simp [interleave, micro_step, update_thread.start, r300_update_num_contexts, h, c]
    · simp [interleave, micro_step, update_thread.start, r300_update_num_contexts, h, c]
  · by_cases c : wrap_int32 (s.num_contexts - 1) ≤ 1
    · simp [interleave, micro_step, update_thread.start, r300_update_num_contexts, h, c]
    · simp [interleave, micro_step, update_thread.start, r300_update_num_contexts, h, c]

/-- C21, as the code behaves: the increment or decrement is atomic, but the
threshold test reads the counter again and the mode is written later, so the
three statements of two concurrent calls can interleave.  With two contexts
live and the pool multi-threaded, a destroy (thread 0) that decrements and
tests, then a create (thread 1) that runs to its end, then the mode write of
the destroy, leave two live contexts with the pool single-threaded; either
call running alone first gives the multi-threaded pool. -/
theorem C21_mode_switch_races :
    pool_inv screen_two ∧
    update_seq screen_init [1, 1] = screen_two ∧
    (interleave screen_two [update_thread.start (-1), update_thread.start 1]
      [0, 0, 1, 1, 1, 0]).1.num_contexts = 2 ∧
    (interleave screen_two [update_thread.start (-1), update_thread.start 1]
      [0, 0, 1, 1, 1, 0]).1.pool_buffers = UTIL_MEMPOOL_SINGLETHREADED ∧
    (interleave screen_two [update_thread.start (-1), update_thread.start 1]
      [0, 0, 1, 1, 1, 0]).2.map update_thread.pc = [3, 3] ∧
    ¬ pool_inv (interleave screen_two
      [update_thread.start (-1), update_thread.start 1] [0, 0, 1, 1, 1, 0]).1 ∧
    (interleave screen_two [update_thread.start (-1), update_thread.start 1]
      [0, 0, 0, 1, 1, 1]).1 = screen_two ∧
    (interleave screen_two [update_thread.start (-1), update_thread.start 1]
      [1, 1, 1, 0, 0, 0]).1 = screen_two := by
  refine ⟨by unfold pool_inv; decide, by decide, by decide, by decide, by decide, ?_,
    by decide, by decide⟩
  unfold pool_inv
  decide

/-- The name `R300_INIT_ATOM` gives a registered atom. -/
theorem setup_name (r300 : r300_context) (caps : Caps)
    (alloc : AtomName → Bool) (a : AtomName)
    (ha : a ∈ (r300_setup_atoms r300 caps alloc).atom_list) :
    ((r300_setup_atoms r300 caps alloc).atoms a).name = a.cname := by
  rw [mem_setup_atom_list] at ha
  cases a <;>
    simp [r300_setup_atoms, init_atom_atoms, set_state_atoms,
      set_allow_null_state_atoms, set_dirty_atoms, set_emit_r500_atoms,
      ite_ctx_atoms, registry_base] at ha ⊢ <;>
    (try split) <;> simp_all

theorem cname_injective : ∀ a b : AtomName, a.cname = b.cname → a = b := by
  decide

/-- C25: in the list built by `r300_setup_atoms` every atom appears exactly
once, the names of the registered atoms are pairwise distinct, and the list
has 26 atoms without hyper-Z, 27 with hyper-Z and no HiZ RAM, and 28 with
hyper-Z and HiZ RAM. -/
theorem C25_registry_no_duplicates (r300 : r300_context) (caps : Caps)
    (alloc : AtomName → Bool) :
    (r300_setup_atoms r300 caps alloc).atom_list.Nodup ∧
    (∀ a ∈ (r300_setup_atoms r300 caps alloc).atom_list,
      (r300_setup_atoms r300 caps alloc).atom_list.count a = 1) ∧
    ((r300_setup_atoms r300 caps alloc).atom_list.map
      (fun a => ((r300_setup_atoms r300 caps alloc).atoms a).name)).Nodup ∧
    (r300_setup_atoms r300 caps alloc).atom_list.length
      = (if caps.can_hyperz = true then (if caps.hiz_ram > 0 then 28 else 27)
         else 26) := by
  have hnd := setup_atom_list_nodup r300 caps alloc
  refine ⟨hnd, fun a ha => List.count_eq_one_of_mem hnd ha, ?_, ?_⟩
  · rw [List.map_congr_left (fun a ha => setup_name r300 caps alloc a ha)]
    exact List.Nodup.map (fun a b h => cname_injective a b h) hnd
  · rw [setup_atom_list]
    by_cases hz : caps.can_hyperz = true <;> by_cases hh : caps.hiz_ram > 0 <;>
      simp [hz, hh, registry_base]

/-- The colour-buffer loop of `r300_finish` on non-null surfaces: it stops
at the lowest index whose surface has a texture, or runs through. -/
theorem finish_cbufs_spec : ∀ (n : Nat) (l : List (Option pipe_surface)),
    n ≤ l.length → (∀ x ∈ l.take n, x ≠ none) →
    (∃ i s b, i < n ∧ l.get? i = some (some s) ∧ s.texture = some b ∧
        (∀ j, j < i → ∀ sj, l.get? j = some (some sj) → sj.texture = none) ∧
        finish_cbufs n l = some (some b)) ∨
    ((∀ i, i < n → ∀ s, l.get? i = some (some s) → s.texture = none) ∧
      finish_cbufs n l = some none) := by
  intro n
  induction n with
  | zero =>
    intro l _ _
    right
    exact ⟨fun i hi => absurd hi (Nat.not_lt_zero i), rfl⟩
  | succ n ih =>
    intro l hlen hnn
    cases l with
    | nil => simp at hlen
    | cons x l =>
      cases x with
      | none => exact absurd rfl (hnn none (by simp))
      | some s =>
        have hlen1 : n ≤ l.length := by simpa using hlen
        have hnn1 : ∀ x ∈ l.take n, x ≠ none := by
          intro x hx
          exact hnn x (by simp [List.take_succ_cons, hx])
        cases ht : s.texture with
        | some b =>
          left
          refine ⟨0, s, b, Nat.succ_pos n, rfl, ht, ?_, ?_⟩
          · intro j hj; exact absurd hj (Nat.not_lt_zero j)
          · simp [finish_cbufs, ht]
        | none =>
          have hstep : finish_cbufs (n + 1) (some s :: l) = finish_cbufs n l := by
            simp [finish_cbufs, ht]
          rcases ih l hlen1 hnn1 with ⟨i, s1, b, hi, hg, hb, hmin, hr⟩ | ⟨hall, hr⟩
          · left
            refine ⟨i + 1, s1, b, Nat.succ_lt_succ hi, by simpa using hg, hb, ?_,
              by rw [hstep, hr]⟩
            intro j hj sj hsj
            cases j with
            | zero =>
              simp at hsj
              rw [← hsj]; exact ht
            | succ j =>
              exact hmin j (Nat.lt_of_succ_lt_succ hj) sj (by simpa using hsj)
          · right
            refine ⟨?_, by rw [hstep, hr]⟩
            intro i hi s1 hs1
            cases i with
            | zero =>
              simp at hs1
              rw [← hs1]; exact ht
            | succ i =>
              exact hall i (Nat.lt_of_succ_lt_succ hi) s1 (by simpa using hs1)

/-- C22: on a framebuffer state whose first `nr_cbufs` colour surfaces are
non-null, `r300_finish` completes, leaves the context as it was and issues
at most one `buffer_wait`: on the buffer of the lowest-indexed colour buffer
whose texture is non-null when there is one; otherwise, when no colour
buffer has a texture, on the depth/stencil texture's buffer exactly when
`zsbuf` and its texture are non-null, and on nothing else. -/
theorem C22_finish_waits_colour_first (r300 : r300_references)
    (fb : pipe_framebuffer_state) (hfb : r300.fb_state = some fb)
    (hlen : fb.nr_cbufs ≤ fb.cbufs.length)
    (hnn : ∀ x ∈ fb.cbufs.take fb.nr_cbufs, x ≠ none) :
    ∃ waits, r300_finish r300 = some (r300, waits) ∧ waits.length ≤ 1 ∧
      (∀ i s b, i < fb.nr_cbufs → fb.cbufs.get? i = some (some s) →
        s.texture = some b →
        (∀ j, j < i → ∀ sj, fb.cbufs.get? j = some (some sj) → sj.texture = none) →
        waits = [b]) ∧
      ((∀ i, i < fb.nr_cbufs → ∀ s, fb.cbufs.get? i = some (some s) →
          s.texture = none) →
        (∀ zs b, fb.zsbuf = some zs → zs.texture = some b → waits = [b]) ∧
        (fb.zsbuf = none → waits = []) ∧
        (∀ zs, fb.zsbuf = some zs → zs.texture = none → waits = [])) := by
  rcases finish_cbufs_spec fb.nr_cbufs fb.cbufs hlen hnn with
    ⟨i, s, b, hi, hg, hb, hmin, hr⟩ | ⟨hall, hr⟩
  · refine ⟨[b], by simp [r300_finish, hfb, hr], by simp, ?_, ?_⟩
    · intro i1 s1 b1 hi1 hg1 hb1 hmin1
      rcases Nat.lt_trichotomy i i1 with h | h | h
      · have := hmin1 i h s hg
        rw [hb] at this; cases this
      · subst h
        rw [hg] at hg1
        cases hg1
        rw [hb] at hb1
        cases hb1
        rfl
      · have := hmin i1 h s1 hg1
        rw [hb1] at this; cases this
    · intro hnone
      have := hnone i hi s hg
      rw [hb] at this; cases this
  · cases hz : fb.zsbuf with
    | none =>
      refine ⟨[], by simp [r300_finish, hfb, hr, hz], by simp, ?_, ?_⟩
      · intro i s b hi hg hb _
        have := hall i hi s hg
        rw [hb] at this; cases this
      · intro _
        exact ⟨fun zs b h => (by cases h), fun _ => rfl, fun _ _ _ => rfl⟩
    | some zs =>
      cases ht : zs.texture with
      | none =>
        refine ⟨[], by simp [r300_finish, hfb, hr, hz, ht], by simp, ?_, ?_⟩
        · intro i s b hi hg hb _
          have := hall i hi s hg
          rw [hb] at this; cases this
        · intro _
          refine ⟨?_, fun h => (by cases h), fun _ _ _ => rfl⟩
          intro zs1 b h1 h2
          cases h1
          rw [ht] at h2; cases h2
      | some b =>
        refine ⟨[b], by simp [r300_finish, hfb, hr, hz, ht], by simp, ?_, ?_⟩
        · intro i s b1 hi hg hb _
          have := hall i hi s hg
          rw [hb] at this; cases this
        · intro _
          refine ⟨?_, fun h => (by cases h), ?_⟩
          · intro zs1 b1 h1 h2
            cases h1
            rw [ht] at h2; cases h2
            rfl
          · intro zs1 h1 h2
            cases h1
            rw [ht] at h2; cases h2

/-- Past the command stream and the draw module, `r300_create_context` is
`r300_setup_atoms` followed by the subsystem stage. -/
theorem create_eq_subsystems (s : r300_screen) (caps : Caps) (plan : alloc_plan)
    (hctx : plan.context = true) (hcs : plan.cs = true)
    (hdraw : caps.has_tcl = true ∨ plan.draw = true) :
    r300_create_context s caps plan
      = create_subsystems (r300_setup_atoms (context_before_atoms caps) caps
          plan.atom_state) (r300_update_num_contexts s 1) caps plan := by
  unfold r300_create_context context_before_atoms
  simp only [hctx, hcs, set_cs, Bool.not_true, Bool.false_eq_true, if_false]
  cases htc : caps.has_tcl
  · have hd : plan.draw = true := by
      rcases hdraw with hd | hd
      · rw [htc] at hd; cases hd
      · exact hd
    simp [hd]
  · simp

/-- The `FREE` block reads the atoms only. -/
theorem free_atom_states_congr (r r1 : r300_context) (caps : Caps)
    (h : r.atoms = r1.atoms) :
    free_atom_states r caps = free_atom_states r1 caps := by
  unfold free_atom_states
  rw [h]

/-- The subsystem pointers `r300_setup_atoms` is handed by create. -/
theorem setup_before_atoms_subsystems (caps : Caps) (alloc : AtomName → Bool) :
    subsystems (r300_setup_atoms (context_before_atoms caps) caps alloc)
      = (true, !caps.has_tcl, false, false, false, false, false, false, false) := by
  rw [setup_subsystems]
  unfold context_before_atoms
  cases caps.has_tcl <;> rfl

/-- The teardown trace of a subsystem stage that fails, on a context whose
command stream exists and whose later subsystems are still null. -/
theorem create_subsystems_trace (r : r300_context) (s : r300_screen)
    (caps : Caps) (plan : alloc_plan) (d : Bool)
    (hs : subsystems r = (true, d, false, false, false, false, false, false, false))
    (h1 : (r.atoms fb_state).state.isSome = true)
    (h2 : (r.atoms textures_state).state.isSome = true) :
    (plan.blitter = false →
      create_subsystems r s caps plan
        = some { context := none, screen := r300_update_num_contexts s (-1),
                 teardown :=
                   (if d = true then [action.draw_destroy] else [])
                   ++ [action.release_referenced_objects, action.cs_destroy,
                       action.util_mempool_destroy, action.update_num_contexts (-1)]
                   ++ free_atom_states r caps ++ [action.FREE_context] }) ∧
    (plan.blitter = true → caps.can_hyperz = true → plan.hyperz_mm = false →
      create_subsystems r s caps plan
        = some { context := none, screen := r300_update_num_contexts s (-1),
                 teardown :=
                   [action.util_blitter_destroy]
                   ++ (if d = true then [action.draw_destroy] else [])
                   ++ [action.release_referenced_objects, action.cs_destroy,
                       action.util_mempool_destroy, action.update_num_contexts (-1)]
                   ++ free_atom_states r caps ++ [action.FREE_context] }) ∧
    (plan.blitter = true → (caps.can_hyperz = true → plan.hyperz_mm = true) →
      plan.upload_ib = false →
      create_subsystems r s caps plan
        = some { context := none, screen := r300_update_num_contexts s (-1),
                 teardown :=
                   [action.util_blitter_destroy]
                   ++ (if d = true then [action.draw_destroy] else [])
                   ++ [action.release_referenced_objects]
                   ++ (if caps.can_hyperz = true then [action.r300_hyperz_destroy_mm]
                       else [])
                   ++ [action.cs_destroy,
                       action.util_mempool_destroy, action.update_num_contexts (-1)]
                   ++ free_atom_states r caps ++ [action.FREE_context] }) ∧
    (plan.blitter = true → (caps.can_hyperz = true → plan.hyperz_mm = true) →
      plan.upload_ib = true → plan.upload_vb = false →
      create_subsystems r s caps plan
        = some { context := none, screen := r300_update_num_contexts s (-1),
                 teardown :=
                   [action.util_blitter_destroy]
                   ++ (if d = true then [action.draw_destroy] else [])
                   ++ [action.u_upload_destroy_ib, action.release_referenced_objects]
                   ++ (if caps.can_hyperz = true then [action.r300_hyperz_destroy_mm]
                       else [])
                   ++ [action.cs_destroy,
                       action.util_mempool_destroy, action.update_num_contexts (-1)]
                   ++ free_atom_states r caps ++ [action.FREE_context] }) ∧
    (plan.blitter = true → (caps.can_hyperz = true → plan.hyperz_mm = true) →
      plan.upload_ib = true → plan.upload_vb = true →
      plan.translate_cache = false →
      create_subsystems r s caps plan
        = some { context := none, screen := r300_update_num_contexts s (-1),
                 teardown :=
                   [action.util_blitter_destroy]
                   ++ (if d = true then [action.draw_destroy] else [])
                   ++ [action.u_upload_destroy_vb, action.u_upload_destroy_ib,
                       action.release_referenced_objects]
                   ++ (if caps.can_hyperz = true then [action.r300_hyperz_destroy_mm]
                       else [])
                   ++ [action.cs_destroy,
                       action.util_mempool_destroy, action.update_num_contexts (-1)]
                   ++ free_atom_states r caps ++ [action.FREE_context] }) := by
  obtain ⟨atoms, atom_list, cs, draw, blitter, zmask_mm, upload_ib, upload_vb,
    translate_cache, texkill_sampler, flush_cb_set⟩ := r
  simp only [subsystems, Prod.mk.injEq] at hs
  obtain ⟨rfl, rfl, rfl, rfl, rfl, rfl, rfl, rfl, rfl⟩ := hs
  refine ⟨?_, ?_, ?_, ?_, ?_⟩
  · intro hb
    unfold create_subsystems
    simp only [set_blitter, hb, Bool.not_false, if_true]
    refine (create_fail_eq _ s caps ?_ ?_).trans ?_
    · exact h1
    · exact h2
    · rw [destroy_release_steps_eq]
      cases draw <;> rfl
  · intro hb hz hm
    unfold create_subsystems
    simp only [set_blitter, set_flush_cb, hb, hz, hm, Bool.not_false, Bool.not_true,
      Bool.and_true, Bool.false_eq_true, if_true, if_false]
    refine (create_fail_eq _ s caps ?_ ?_).trans ?_
    · exact h1
    · exact h2
    · rw [destroy_release_steps_eq]
      cases draw <;> rfl
  · intro hb hz hi
    unfold create_subsystems
    cases hc : caps.can_hyperz
    · simp only [set_blitter, set_flush_cb, set_upload_ib, hb, hi, Bool.not_false,
        Bool.not_true, Bool.false_and, Bool.false_eq_true, if_true, if_false]
      refine (create_fail_eq _ s caps ?_ ?_).trans ?_
      · exact h1
      · exact h2
      · rw [destroy_release_steps_eq]
        cases draw <;> rfl
    · have hm := hz hc
      simp only [set_blitter, set_flush_cb, set_upload_ib, set_zmask_mm, hb, hi, hm,
        Bool.not_false, Bool.not_true, Bool.and_false, Bool.false_eq_true, if_true,
        if_false]
      refine (create_fail_eq _ s caps ?_ ?_).trans ?_
      · exact h1
      · exact h2
      · rw [destroy_release_steps_eq]
        cases draw <;> rfl
  · intro hb hz hi hv
    unfold create_subsystems
    cases hc : caps.can_hyperz
    · simp only [set_blitter, set_flush_cb, set_upload_ib, set_upload_vb, hb, hi, hv,
        Bool.not_false, Bool.not_true, Bool.false_and, Bool.false_eq_true, if_true,
        if_false]
      refine (create_fail_eq _ s caps ?_ ?_).trans ?_
      · exact h1
      · exact h2
      · rw [destroy_release_steps_eq]
        cases draw <;> rfl
    · have hm := hz hc
      simp only [set_blitter, set_flush_cb, set_upload_ib, set_upload_vb,
        set_zmask_mm, hb, hi, hv, hm, Bool.not_false, Bool.not_true, Bool.and_false,
        Bool.false_eq_true, if_true, if_false]
      refine (create_fail_eq _ s caps ?_ ?_).trans ?_
      · exact h1
      · exact h2
      · rw [destroy_release_steps_eq]
        cases draw <;> rfl
  · intro hb hz hi hv ht
    unfold create_subsystems
    cases hc : caps.can_hyperz
    · simp only [set_blitter, set_flush_cb, set_upload_ib, set_upload_vb,
        set_translate_cache, hb, hi, hv, ht, Bool.not_false, Bool.not_true,
        Bool.false_and, Bool.false_eq_true, if_true, if_false]
      refine (create_fail_eq _ s caps ?_ ?_).trans ?_
      · exact h1
      · exact h2
      · rw [destroy_release_steps_eq]
        cases draw <;> rfl
    · have hm := hz hc
      simp only [set_blitter, set_flush_cb, set_upload_ib, set_upload_vb,
        set_translate_cache, set_zmask_mm, hb, hi, hv, ht, hm, Bool.not_false,
        Bool.not_true, Bool.and_false, Bool.false_eq_true, if_true, if_false]
      refine (create_fail_eq _ s caps ?_ ?_).trans ?_
      · exact h1
      · exact h2
      · rw [destroy_release_steps_eq]
        cases draw <;> rfl

/-- C23: when `r300_create_context` fails at one of the five creations after
`r300_setup_atoms` (the context struct, the command stream, the draw module
where needed and the framebuffer and texture state blocks having been
allocated), the call completes with `NULL` and the re-entered
`r300_destroy_context` takes exactly these steps: one release for each
subsystem created before the failure (blitter unless it was the failure, the
draw module without hardware TCL, the vertex and index upload managers when
already created, the hyper-Z manager when already created, the command
stream, the transfer pool), none for a later one, the single decrement, the
`FREE` block and the context; the state blocks it dereferences are
non-null. -/
theorem C23_late_failure_teardown (s : r300_screen) (caps : Caps)
    (plan : alloc_plan)
    (hctx : plan.context = true) (hcs : plan.cs = true)
    (hdraw : caps.has_tcl = true ∨ plan.draw = true)
    (hfb : plan.atom_state fb_state = true)
    (htx : plan.atom_state textures_state = true) :
    (plan.blitter = false →
      r300_create_context s caps plan
        = some { context := none,
                 screen := r300_update_num_contexts (r300_update_num_contexts s 1) (-1),
                 teardown :=
                   (if caps.has_tcl = true then [] else [action.draw_destroy])
                   ++ [action.release_referenced_objects, action.cs_destroy,
                       action.util_mempool_destroy, action.update_num_contexts (-1)]
                   ++ free_atom_states (r300_setup_atoms (context_before_atoms caps)
                        caps plan.atom_state) caps
                   ++ [action.FREE_context] }) ∧
    (plan.blitter = true → caps.can_hyperz = true → plan.hyperz_mm = false →
      r300_create_context s caps plan
        = some { context := none,
                 screen := r300_update_num_contexts (r300_update_num_contexts s 1) (-1),
                 teardown :=
                   [action.util_blitter_destroy]
                   ++ (if caps.has_tcl = true then [] else [action.draw_destroy])
                   ++ [action.release_referenced_objects, action.cs_destroy,
                       action.util_mempool_destroy, action.update_num_contexts (-1)]
                   ++ free_atom_states (r300_setup_atoms (context_before_atoms caps)
                        caps plan.atom_state) caps
                   ++ [action.FREE_context] }) ∧
    (plan.blitter = true → (caps.can_hyperz = true → plan.hyperz_mm = true) →
      plan.upload_ib = false →
      r300_create_context s caps plan
        = some { context := none,
                 screen := r300_update_num_contexts (r300_update_num_contexts s 1) (-1),
                 teardown :=
                   [action.util_blitter_destroy]
                   ++ (if caps.has_tcl = true then [] else [action.draw_destroy])
                   ++ [action.release_referenced_objects]
                   ++ (if caps.can_hyperz = true then [action.r300_hyperz_destroy_mm]
                       else [])
                   ++ [action.cs_destroy,
                       action.util_mempool_destroy, action.update_num_contexts (-1)]
                   ++ free_atom_states (r300_setup_atoms (context_before_atoms caps)
                        caps plan.atom_state) caps
                   ++ [action.FREE_context] }) ∧
    (plan.blitter = true → (caps.can_hyperz = true → plan.hyperz_mm = true) →
      plan.upload_ib = true → plan.upload_vb = false →
      r300_create_context s caps plan
        = some { context := none,
                 screen := r300_update_num_contexts (r300_update_num_contexts s 1) (-1),
                 teardown :=
                   [action.util_blitter_destroy]
                   ++ (if caps.has_tcl = true then [] else [action.draw_destroy])
                   ++ [action.u_upload_destroy_ib, action.release_referenced_objects]
                   ++ (if caps.can_hyperz = true then [action.r300_hyperz_destroy_mm]
                       else [])
                   ++ [action.cs_destroy,
                       action.util_mempool_destroy, action.update_num_contexts (-1)]
                   ++ free_atom_states (r300_setup_atoms (context_before_atoms caps)
                        caps plan.atom_state) caps
                   ++ [action.FREE_context] }) ∧
    (plan.blitter = true → (caps.can_hyperz = true → plan.hyperz_mm = true) →
      plan.upload_ib = true → plan.upload_vb = true →
      plan.translate_cache = false →
      r300_create_context s caps plan
        = some { context := none,
                 screen := r300_update_num_contexts (r300_update_num_contexts s 1) (-1),
                 teardown :=
                   [action.util_blitter_destroy]
                   ++ (if caps.has_tcl = true then [] else [action.draw_destroy])
                   ++ [action.u_upload_destroy_vb, action.u_upload_destroy_ib,
                       action.release_referenced_objects]
                   ++ (if caps.can_hyperz = true then [action.r300_hyperz_destroy_mm]
                       else [])
                   ++ [action.cs_destroy,
                       action.util_mempool_destroy, action.update_num_contexts (-1)]
                   ++ free_atom_states (r300_setup_atoms (context_before_atoms caps)
                        caps plan.atom_state) caps
                   ++ [action.FREE_context] }) ∧
    ((r300_setup_atoms (context_before_atoms caps) caps plan.atom_state).atoms
        fb_state).state.isSome = true ∧
    ((r300_setup_atoms (context_before_atoms caps) caps plan.atom_state).atoms
        textures_state).state.isSome = true := by
  have h1 := setup_state_of_alloc (context_before_atoms caps) caps plan.atom_state
    fb_state (by decide) hfb
  have h2 := setup_state_of_alloc (context_before_atoms caps) caps plan.atom_state
    textures_state (by decide) htx
  have hd : ∀ x : List action,
      (if (!caps.has_tcl) = true then x else []) = (if caps.has_tcl = true then [] else x) := by
    intro x; cases caps.has_tcl <;> rfl
  have T := create_subsystems_trace
    (r300_setup_atoms (context_before_atoms caps) caps plan.atom_state)
    (r300_update_num_contexts s 1) caps plan (!caps.has_tcl)
    (setup_before_atoms_subsystems caps plan.atom_state) h1 h2
  simp only [hd] at T
  rw [create_eq_subsystems s caps plan hctx hcs hdraw]
  exact ⟨T.1, T.2.1, T.2.2.1, T.2.2.2.1, T.2.2.2.2, h1, h2⟩

/-! ## Instances at a concrete capability set -/

/-- Instance of C1: two creates, a destroy, and two calls with other values
of `diff`. -/
theorem C1_pool_mode_invariant_witness :
    ([1, 1, -1, 5, 0] : List Int).length ≤ 2147483647 ∧
    (update_seq screen_init [1, 1, -1, 5, 0]).num_contexts = 1 ∧
    ((update_seq screen_init [1, 1, -1, 5, 0]).pool_buffers
        = UTIL_MEMPOOL_SINGLETHREADED
      ↔ (update_seq screen_init [1, 1, -1, 5, 0]).num_contexts ≤ 1) :=
  ⟨by decide, by decide,
   (C1_pool_mode_invariant [1, 1, -1, 5, 0] (Or.inl (by decide))).1⟩

/-- Instance of C2: two successful creates, one create failing at the
blitter and one destroy, on a chip without hardware TCL. -/
theorem C2_live_context_count_witness :
    ∃ w, world.init.run caps_swtcl
          [call.create alloc_plan.all_ok, call.create plan_blitter_fails,
           call.create alloc_plan.all_ok, call.destroy 0] = some w ∧
      w.screen.num_contexts = (w.live.length : Int) ∧
      0 ≤ w.screen.num_contexts := by
  have hs : (world.init.run caps_swtcl
          [call.create alloc_plan.all_ok, call.create plan_blitter_fails,
           call.create alloc_plan.all_ok, call.destroy 0]).isSome = true := by
    decide
  obtain ⟨w, hw⟩ := Option.isSome_iff_exists.mp hs
  exact ⟨w, hw, ((C2_live_context_count caps_swtcl).1 _ w hw).2 (Or.inl (by decide))⟩

/-- Instance of C3: marking `fs` then `aa_state` emits the same sequence
as marking `aa_state` then `fs`. -/
theorem C3_emission_order_witness :
    (r300_setup_atoms r300_context.zero caps_swtcl alloc_all).atom_list
      = (r300_setup_atoms r300_context.zero caps_swtcl alloc_all).atom_list ∧
    (emit_dirty_state ([fs, aa_state].foldl mark_dirty
        (r300_setup_atoms r300_context.zero caps_swtcl alloc_all))).1
      = (emit_dirty_state ([aa_state, fs].foldl mark_dirty
        (r300_setup_atoms r300_context.zero caps_swtcl alloc_all))).1 :=
  ⟨rfl, (C3_emission_order r300_context.zero
      (r300_setup_atoms r300_context.zero caps_swtcl alloc_all) caps_swtcl
      alloc_all [aa_state, fs] rfl).2.2 [fs, aa_state] (List.Perm.swap _ _ _)⟩

/-- Instance of C6 at `pvs_flush`. -/
theorem C6_initial_dirty_set_witness :
    pvs_flush ∈ (r300_setup_atoms r300_context.zero caps_swtcl alloc_all).atom_list ∧
    (((r300_setup_atoms r300_context.zero caps_swtcl alloc_all).atoms pvs_flush).dirty
        = true ↔
      pvs_flush ∈ [invariant_state, pvs_flush, vap_invariant_state,
           texture_cache_inval, textures_state]) :=
  ⟨by decide,
   (C6_initial_dirty_set r300_context.zero caps_swtcl alloc_all).2 pvs_flush
     (by decide)⟩

/-- Instance of C8 at `invariant_state`, which is dirty and has a state
block. -/
theorem C8_null_state_safety_witness :
    invariant_state
      ∈ (r300_setup_atoms r300_context.zero caps_swtcl alloc_all).atom_list ∧
    ((r300_setup_atoms r300_context.zero caps_swtcl alloc_all).atoms
        invariant_state).dirty = true ∧
    (((r300_setup_atoms r300_context.zero caps_swtcl alloc_all).atoms
        invariant_state).state ≠ none ∨
     ((r300_setup_atoms r300_context.zero caps_swtcl alloc_all).atoms
        invariant_state).allow_null_state = true) :=
  ⟨by decide, by decide,
   C8_null_state_safety r300_context.zero caps_swtcl invariant_state
     (by decide) (by decide)⟩

/-- Instance of C9 at `fs`, a variable-size atom. -/
theorem C9_atom_sizes_witness :
    fs ∈ (r300_setup_atoms r300_context.zero caps_swtcl alloc_all).atom_list ∧
    (((r300_setup_atoms r300_context.zero caps_swtcl alloc_all).atoms fs).size = 0 ↔
      fs ∈ [fb_state, vertex_stream_state, vs_state, vs_constants,
            rs_block_state, rs_state, fs, fs_rc_constant_state, fs_constants,
            textures_state, hiz_clear, zmask_clear]) :=
  ⟨by decide,
   (C9_atom_sizes r300_context.zero caps_swtcl alloc_all).2.2.2.2.2.2.2.2.2.2.2.2.2.2.2.2
     fs (by decide)⟩

/-- Instance of C10: without hardware TCL the clip block is written and
holds the 2 dwords it reserved. -/
theorem C10_priming_reserved_size_witness :
    ∃ r1 blocks,
      r300_init_states (r300_setup_atoms r300_context.zero caps_swtcl alloc_all)
        caps_swtcl = some (r1, blocks) ∧
      clip_block ∈ blocks ∧ clip_block.atom = clip_state ∧
      clip_block.written = 2 ∧ clip_block.cs_count_at_END_CB = 0 := by
  obtain ⟨r1, blocks, h, -, h3, -, -, -, -, h8⟩ :=
    C10_priming_reserved_size r300_context.zero caps_swtcl
  have hm : clip_block ∈ blocks := by
    have e := init_states_ok
      (r300_setup_atoms r300_context.zero caps_swtcl alloc_all) caps_swtcl
      (by decide) (by decide) (by decide) (by decide) (by decide) (by decide)
      (by decide)
    rw [e] at h
    have hb : _ = blocks := congrArg Prod.snd (Option.some.inj h)
    rw [← hb]
    simp [caps_swtcl]
  exact ⟨r1, blocks, h, hm, rfl, h8 _ hm rfl, (h3 _ hm).2⟩

/-- Instance of C7 (as the code has it) on a chip without hardware TCL. -/
theorem C7_first_stream_after_create_witness :
    ∃ res ctx,
      r300_create_context screen_init caps_swtcl alloc_plan.all_ok = some res ∧
      res.context = some ctx ∧
      (emit_dirty_state ctx).1
        = [blend_color_state, scissor_state, invariant_state, pvs_flush,
           vap_invariant_state, texture_cache_inval, textures_state] := by
  obtain ⟨ctx, hc, -⟩ := create_all_ok screen_init caps_swtcl
  exact ⟨_, ctx, hc, rfl,
    (C7_first_stream_after_create screen_init caps_swtcl alloc_plan.all_ok _ ctx
      hc rfl).1⟩

/-- Instance of C13: a create that fails at the blitter on the initial
screen leaves count and mode as they were. -/
theorem C13_failed_create_leaves_pool_witness :
    (screen_init.pool_buffers = UTIL_MEMPOOL_SINGLETHREADED
      ↔ screen_init.num_contexts ≤ 1) ∧
    ∃ res, r300_create_context screen_init caps_swtcl plan_blitter_fails = some res ∧
      res.context = none ∧
      res.screen.num_contexts = screen_init.num_contexts ∧
      res.screen.pool_buffers = screen_init.pool_buffers :=
  ⟨by decide,
   (C13_failed_create_leaves_pool screen_init caps_swtcl plan_blitter_fails
      (by decide)).2.1 rfl rfl (Or.inr rfl) rfl rfl (Or.inl rfl)⟩

/-- Instance of C14 on a chip without hardware TCL: `vertex_stream_state`
is among the `FREE` calls. -/
theorem C14_destroy_frees_what_setup_allocated_witness :
    alloc_plan.all_ok.atom_state aa_state = true ∧
    ∃ s1 t, r300_destroy_context (created_context caps_swtcl alloc_plan.all_ok)
        screen_init caps_swtcl = some (s1, t) ∧
      (free_calls t).Nodup ∧ vertex_stream_state ∈ free_calls t := by
  obtain ⟨-, s1, t, h, hn, hv, -⟩ :=
    C14_destroy_frees_what_setup_allocated screen_init caps_swtcl
      alloc_plan.all_ok rfl rfl rfl
  exact ⟨rfl, s1, t, h, hn, hv.mpr rfl⟩

/-- Instance of C15 (as the code has it): destroying a created context that
owns a command stream calls `cs_destroy` once and never flushes. -/
theorem C15_destroy_does_not_flush_witness :
    ∃ st, r300_destroy_context (created_context caps_swtcl alloc_plan.all_ok)
        screen_init caps_swtcl = some st ∧
      st.2.count action.context_flush = 0 ∧
      st.2.count action.cs_destroy = 1 := by
  have hs : (r300_destroy_context (created_context caps_swtcl alloc_plan.all_ok)
      screen_init caps_swtcl).isSome = true := by decide
  obtain ⟨st, hst⟩ := Option.isSome_iff_exists.mp hs
  have h := C15_destroy_does_not_flush _ _ _ st hst
  exact ⟨st, hst, h.1, h.2.2⟩

/-- Instance of C16 on a chip without hardware TCL and without hyper-Z. -/
theorem C16_destroy_phase_order_witness :
    ∃ s1 frees,
      r300_destroy_context (created_context caps_swtcl alloc_plan.all_ok)
        screen_init caps_swtcl
        = some (s1,
            [action.util_blitter_destroy, action.draw_destroy,
             action.u_upload_destroy_vb, action.u_upload_destroy_ib,
             action.translate_cache_destroy, action.release_referenced_objects,
             action.cs_destroy, action.util_mempool_destroy,
             action.update_num_contexts (-1)] ++ frees ++ [action.FREE_context]) ∧
      (∀ x ∈ frees, ∃ a p, x = action.FREE_state a (some p)) := by
  obtain ⟨-, s1, frees, h, -, -, -, -, hf, -⟩ :=
    C16_destroy_phase_order screen_init caps_swtcl
  exact ⟨s1, frees, h, hf⟩

/-- Instance of C17: a context with an empty framebuffer state. -/
theorem C17_finish_without_framebuffer_witness :
    (refs_example2.fb_state = none ∨
      ∃ fb, refs_example2.fb_state = some fb ∧ fb.nr_cbufs = 0 ∧ fb.zsbuf = none) ∧
    r300_finish refs_example2 = some (refs_example2, []) :=
  ⟨Or.inr ⟨_, rfl, rfl, rfl⟩,
   C17_finish_without_framebuffer refs_example2 (Or.inr ⟨_, rfl, rfl, rfl⟩)⟩

/-- Instance of C18: sampler view 5 is held once by each of two contexts;
its count is 1 after the first release and 0 after the second. -/
theorem C18_shared_resources_survive_witness :
    ∃ c1r c2r rc1 rc2,
      r300_release_referenced_objects_counted refs_example counts_example
        = some (c1r, rc1) ∧
      r300_release_referenced_objects_counted refs_example2 rc1 = some (c2r, rc2) ∧
      0 < rc1 (pipe_object.sampler_view 5) ∧
      rc2 (pipe_object.sampler_view 5) = 0 := by
  have h := C18_shared_resources_survive refs_example refs_example2 _ _
    counts_example _ _ rfl rfl
  exact ⟨_, _, _, _, rfl, rfl,
    h.2.2.2.2.2.1 (pipe_object.sampler_view 5) (by decide) (by decide)⟩

/-- Instance of C19 on an r500: `fs` is bound to the r500 routine. -/
theorem C19_emission_substitution_witness :
    fs ∈ (r300_setup_atoms r300_context.zero
            { caps_swtcl with is_r500 := true } alloc_all).atom_list ∧
    ((r300_setup_atoms r300_context.zero
        { caps_swtcl with is_r500 := true } alloc_all).atoms fs).emit
      = emit_fn.r500_emit fs := by
  have h := (C19_emission_substitution r300_context.zero
    { caps_swtcl with is_r500 := true } alloc_all).1 fs (by decide)
  exact ⟨by decide, by rw [h]; decide⟩

/-- Instance of C24: `diff = 5` on the initial screen adds one; `diff = 0`
takes one off. -/
theorem C24_update_moves_one_step_witness :
    ((5 : Int) > 0) ∧ ((0 : Int) ≤ 0) ∧
    screen_init.num_contexts < 2147483647 ∧
    -2147483648 < screen_init.num_contexts ∧
    (r300_update_num_contexts screen_init 5).num_contexts = 0 + 1 ∧
    (r300_update_num_contexts screen_init 0).num_contexts = 0 - 1 :=
  ⟨by decide, by decide, by decide, by decide,
   ((C24_update_moves_one_step screen_init 5).1 (by decide) (by decide)).1,
   ((C24_update_moves_one_step screen_init 0).2.1 (by decide) (by decide)).1⟩

/-- Instance of C23: on the software-TCL capability set a failing translate
cache tears down blitter, draw module, both upload managers, command stream
and pool, once each. -/
theorem C23_late_failure_teardown_witness :
    plan_translate_cache_fails.context = true ∧
    plan_translate_cache_fails.cs = true ∧
    (caps_swtcl.has_tcl = true ∨ plan_translate_cache_fails.draw = true) ∧
    plan_translate_cache_fails.atom_state fb_state = true ∧
    plan_translate_cache_fails.atom_state textures_state = true ∧
    r300_create_context screen_init caps_swtcl plan_translate_cache_fails
      = some { context := none,
               screen := r300_update_num_contexts
                 (r300_update_num_contexts screen_init 1) (-1),
               teardown :=
                 [action.util_blitter_destroy]
                 ++ (if caps_swtcl.has_tcl = true then [] else [action.draw_destroy])
                 ++ [action.u_upload_destroy_vb, action.u_upload_destroy_ib,
                     action.release_referenced_objects]
                 ++ (if caps_swtcl.can_hyperz = true then [action.r300_hyperz_destroy_mm]
                     else [])
                 ++ [action.cs_destroy,
                     action.util_mempool_destroy, action.update_num_contexts (-1)]
                 ++ free_atom_states (r300_setup_atoms (context_before_atoms caps_swtcl)
                      caps_swtcl plan_translate_cache_fails.atom_state) caps_swtcl
                 ++ [action.FREE_context] } :=
  ⟨rfl, rfl, Or.inr rfl, rfl, rfl,
   (C23_late_failure_teardown screen_init caps_swtcl plan_translate_cache_fails
      rfl rfl (Or.inr rfl) rfl rfl).2.2.2.2.1 rfl (fun _ => rfl) rfl rfl rfl⟩

/-- Instance of C22: with a texture-less first colour buffer, a second colour
buffer on buffer 9 and a depth buffer on buffer 4, the one wait is on
buffer 9. -/
theorem C22_finish_waits_colour_first_witness :
    refs_two_cbufs.fb_state
      = some { nr_cbufs := 2,
               cbufs := [some { id := 1, texture := none },
                         some { id := 2, texture := some 9 }],
               zsbuf := some { id := 3, texture := some 4 } } ∧
    r300_finish refs_two_cbufs = some (refs_two_cbufs, [9]) := by
  refine ⟨rfl, ?_⟩
  obtain ⟨waits, h1, -, h3, -⟩ := C22_finish_waits_colour_first refs_two_cbufs
    { nr_cbufs := 2,
      cbufs := [some { id := 1, texture := none }, some { id := 2, texture := some 9 }],
      zsbuf := some { id := 3, texture := some 4 } } rfl (by decide) (by decide)
  have hw : waits = [9] := by
    refine h3 1 { id := 2, texture := some 9 } 9 (by decide) rfl rfl ?_
    intro j hj sj hsj
    have hj0 : j = 0 := by omega
    subst hj0
    simp at hsj
    rw [← hsj]
  rw [h1, hw]

/-- Instance of C25: on the software-TCL capability set the registry has 26
atoms, none twice. -/
theorem C25_registry_no_duplicates_witness :
    (r300_setup_atoms r300_context.zero caps_swtcl alloc_all).atom_list.Nodup ∧
    (r300_setup_atoms r300_context.zero caps_swtcl alloc_all).atom_list.length = 26 :=
  ⟨(C25_registry_no_duplicates r300_context.zero caps_swtcl alloc_all).1,
   (C25_registry_no_duplicates r300_context.zero caps_swtcl alloc_all).2.2.2⟩

/-- Instance of C5: on the software-TCL capability set `gpu_flush` heads the
registry and the dependents `fb_state_pipelined`, `vs_state` and
`vs_constants` are registered. -/
theorem C5_flush_atoms_precede_witness :
    (r300_setup_atoms r300_context.zero caps_swtcl alloc_all).atom_list.head?
      = some gpu_flush ∧
    fb_state_pipelined
      ∈ (r300_setup_atoms r300_context.zero caps_swtcl alloc_all).atom_list ∧
    vs_state ∈ (r300_setup_atoms r300_context.zero caps_swtcl alloc_all).atom_list ∧
    vs_constants
      ∈ (r300_setup_atoms r300_context.zero caps_swtcl alloc_all).atom_list :=
  ⟨(C5_flush_atoms_precede r300_context.zero caps_swtcl alloc_all).1,
   (C5_flush_atoms_precede r300_context.zero caps_swtcl alloc_all).2.2.2.2.2.2.2.2.2
     fb_state_pipelined (by decide),
   (C5_flush_atoms_precede r300_context.zero caps_swtcl alloc_all).2.2.2.2.2.2.2.2.2
     vs_state (by decide),
   (C5_flush_atoms_precede r300_context.zero caps_swtcl alloc_all).2.2.2.2.2.2.2.2.2
     vs_constants (by decide)⟩

end R300

namespace PPAPI

/-- C20: on every bound Graphics3D context, with or without a depth buffer,
`ResizeBuffers` returns `PP_ERROR_BADARGUMENT` and leaves the context as it
was when the width or the height is negative, and returns `PP_OK` when both
are non-negative, zero included; the expectations of `TestResizeBuffers` and
of `TestResizeAndSwapCallback` hold. -/
theorem C20_resize_rejects_negative (g : Graphics3D) (width height : Int) :
    ((width < 0 ∨ height < 0) →
      ResizeBuffers g width height = (pp_result.PP_ERROR_BADARGUMENT, g)) ∧
    ((0 ≤ width ∧ 0 ≤ height) →
      (ResizeBuffers g width height).1 = pp_result.PP_OK) ∧
    (ResizeBuffers g 0 0).1 = pp_result.PP_OK ∧
    TestResizeBuffers g
      = ([pp_result.PP_ERROR_BADARGUMENT, pp_result.PP_ERROR_BADARGUMENT,
          pp_result.PP_ERROR_BADARGUMENT], g) ∧
    (∀ frame_counter : Int,
      (TestResizeAndSwapCallback g frame_counter).1 = pp_result.PP_OK) := by
  refine ⟨?_, ?_, ?_, ?_, ?_⟩
  · intro h
    simp [ResizeBuffers, h]
  · intro h
    have hn : ¬ (width < 0 ∨ height < 0) := by omega
    simp [ResizeBuffers, hn]
  · simp [ResizeBuffers]
  · simp [TestResizeBuffers, ResizeBuffers]
  · intro fc
    simp only [TestResizeAndSwapCallback, ResizeBuffers]
    split_ifs <;> first | rfl | omega

/-- Instance of C20: the second call of `TestResizeBuffers`, on a context
with a depth buffer. -/
theorem C20_resize_rejects_negative_witness :
    ((100 : Int) < 0 ∨ (-1 : Int) < 0) ∧
    ResizeBuffers { width := 320, height := 200, depth_size := 32 } 100 (-1)
      = (pp_result.PP_ERROR_BADARGUMENT,
         { width := 320, height := 200, depth_size := 32 }) :=
  ⟨by decide,
   (C20_resize_rejects_negative { width := 320, height := 200, depth_size := 32 }
      100 (-1)).1 (by decide)⟩

end PPAPI

namespace MediaDeviceNotificationsLinux

theorem map_find_none_iff {V : Type} (m : List (String × V)) (k : String) :
    map_find m k = none ↔ k ∉ m.map Prod.fst := by
  induction m with
  | nil => simp [map_find]
  | cons x m ih =>
    obtain ⟨k1, v1⟩ := x
    by_cases h : k = k1
    · simp [map_find, h]
    · simp [map_find, h, ih]

theorem map_insert_perm {V : Type} (m : List (String × V)) (k : String) (v : V)
    (h : map_find m k = none) : (map_insert m k v).Perm ((k, v) :: m) := by
  induction m with
  | nil => exact List.Perm.refl _
  | cons x m ih =>
    obtain ⟨k1, v1⟩ := x
    have hk : k ≠ k1 := by
      intro e
      simp [map_find, e] at h
    have h1 : map_find m k = none := by
      simpa [map_find, hk] using h
    unfold map_insert
    by_cases hl : k.data < k1.data
    · rw [if_pos hl]
    · rw [if_neg hl, if_neg hk]
      exact ((ih h1).cons (k1, v1)).trans (List.Perm.swap _ _ _)

theorem map_insert_keys_nodup {V : Type} (m : List (String × V)) (k : String)
    (v : V) (h : map_find m k = none) (hn : (m.map Prod.fst).Nodup) :
    ((map_insert m k v).map Prod.fst).Nodup := by
  rw [((map_insert_perm m k v h).map Prod.fst).nodup_iff]
  simp only [List.map_cons, List.nodup_cons]
  exact ⟨(map_find_none_iff m k).mp h, hn⟩

theorem map_find_insert {V : Type} (m : List (String × V)) (k : String) (v : V)
    (k0 : String) (h : map_find m k = none) :
    map_find (map_insert m k v) k0 = if k0 = k then some v else map_find m k0 := by
  induction m with
  | nil => simp [map_insert, map_find]
  | cons x m ih =>
    obtain ⟨k1, v1⟩ := x
    have hk : k ≠ k1 := by
      intro e
      simp [map_find, e] at h
    have h1 : map_find m k = none := by
      simpa [map_find, hk] using h
    unfold map_insert
    by_cases hl : k.data < k1.data
    · rw [if_pos hl]
      simp [map_find]
    · rw [if_neg hl, if_neg hk]
      by_cases h0 : k0 = k1
      · subst h0
        have hk2 : ¬ k0 = k := fun e => hk e.symm
        simp [map_find, hk2]
      · simp [map_find, h0, ih h1]

theorem map_assign_keys {V : Type} (m : List (String × V)) (k : String) (v : V) :
    (map_assign m k v).map Prod.fst = m.map Prod.fst := by
  induction m with
  | nil => rfl
  | cons x m ih =>
    obtain ⟨k1, v1⟩ := x
    unfold map_assign
    by_cases hk : k = k1
    · rw [if_pos hk]; rfl
    · rw [if_neg hk]; simp [ih]

theorem map_find_assign {V : Type} (m : List (String × V)) (k : String) (v : V)
    (k0 : String) (h : (map_find m k).isSome = true) :
    map_find (map_assign m k v) k0 = if k0 = k then some v else map_find m k0 := by
  induction m with
  | nil => simp [map_find] at h
  | cons x m ih =>
    obtain ⟨k1, v1⟩ := x
    unfold map_assign
    by_cases hk : k = k1
    · rw [if_pos hk]
      by_cases h0 : k0 = k1
      · simp [map_find, h0, hk]
      · simp [map_find, h0, hk]
    · rw [if_neg hk]
      have h1 : (map_find m k).isSome = true := by
        simpa [map_find, hk] using h
      by_cases h0 : k0 = k1
      · subst h0
        have hk2 : ¬ k0 = k := fun e => hk e.symm
        simp [map_find, hk2]
      · simp [map_find, h0, ih h1]

theorem map_find_eq_some_iff {V : Type} (m : List (String × V)) (k : String)
    (v : V) (hn : (m.map Prod.fst).Nodup) :
    map_find m k = some v ↔ (k, v) ∈ m := by
  induction m with
  | nil => simp [map_find]
  | cons x m ih =>
    obtain ⟨k1, v1⟩ := x
    simp only [List.map_cons, List.nodup_cons] at hn
    by_cases hk : k = k1
    · subst hk
      have : ∀ w, (k, w) ∉ m := by
        intro w hw
        exact hn.1 (List.mem_map_of_mem Prod.fst hw)
      simp [map_find, this]
      exact eq_comm
    · simp [map_find, hk, ih hn.2]

theorem map_erase_sublist {V : Type} (m : List (String × V)) (k : String) :
    (map_erase m k).Sublist m := by
  induction m with
  | nil => exact List.Sublist.refl _
  | cons x m ih =>
    obtain ⟨k1, v1⟩ := x
    unfold map_erase
    by_cases hk : k = k1
    · rw [if_pos hk]; exact List.sublist_cons_self _ _
    · rw [if_neg hk]; exact ih.cons₂ _

theorem foldl_map_erase_sublist {V : Type} (ks : List String)
    (m : List (String × V)) : (ks.foldl map_erase m).Sublist m := by
  induction ks generalizing m with
  | nil => exact List.Sublist.refl _
  | cons k ks ih =>
    exact (ih (map_erase m k)).trans (map_erase_sublist m k)

/-- A line of an unknown file system type leaves the loop state as it
was. -/
theorem ReadMtab_entry_unknown (M : Nat) (acc : DeviceMap × Nat) (e : mntent)
    (h : e.mnt_type ∉ kKnownFileSystems) : ReadMtab_entry M acc e = acc := by
  unfold ReadMtab_entry
  rw [if_pos h]

theorem foldl_ReadMtab_entry_known (M : Nat) (es : List mntent)
    (acc : DeviceMap × Nat) :
    es.foldl (ReadMtab_entry M) acc
      = (known_entries es).foldl (ReadMtab_entry M) acc := by
  induction es generalizing acc with
  | nil => rfl
  | cons e es ih =>
    unfold known_entries
    by_cases h : e.mnt_type ∈ kKnownFileSystems
    · rw [List.filter_cons_of_pos (by simpa using h)]
      simp only [List.foldl_cons]
      exact ih _
    · rw [List.filter_cons_of_neg (by simpa using h)]
      simp only [List.foldl_cons]
      rw [ReadMtab_entry_unknown M acc e h]
      exact ih _

/-- C27: the map `ReadMtab` produces from a sequence of mount entries is the
map it produces from the sub-sequence of entries whose `mnt_type` is one of
ext2, ext3, ext4, fat, hfsplus, iso9660, msdos, ntfs, udf, vfat; a line of
any other type changes neither the device map nor the position counter, and
the same holds for the state of the reading loop. -/
theorem C27_ReadMtab_ignores_unknown (M : Nat) (es : List mntent)
    (mtab : MountMap) :
    kKnownFileSystems
      = ["ext2", "ext3", "ext4", "fat", "hfsplus", "iso9660", "msdos", "ntfs",
         "udf", "vfat"] ∧
    ReadMtab M (some es) mtab
      = ReadMtab M (some (es.filter (fun e => decide (e.mnt_type ∈ kKnownFileSystems))))
          mtab ∧
    (∀ acc, es.foldl (ReadMtab_entry M) acc
      = (es.filter (fun e => decide (e.mnt_type ∈ kKnownFileSystems))).foldl
          (ReadMtab_entry M) acc) ∧
    (∀ acc e, e.mnt_type ∉ kKnownFileSystems → ReadMtab_entry M acc e = acc) := by
  refine ⟨rfl, ?_, fun acc => foldl_ReadMtab_entry_known M es acc,
    fun acc e h => ReadMtab_entry_unknown M acc e h⟩
  unfold ReadMtab
  simp only
  rw [foldl_ReadMtab_entry_known M es]
  rfl

theorem known_entries_append (es : List mntent) (e : mntent) :
    known_entries (es ++ [e])
      = known_entries es ++ (if e.mnt_type ∈ kKnownFileSystems then [e] else []) := by
  unfold known_entries
  rw [List.filter_append]
  by_cases h : e.mnt_type ∈ kKnownFileSystems
  · rw [if_pos h, List.filter_cons_of_pos (by simpa using h)]; rfl
  · rw [if_neg h, List.filter_cons_of_neg (by simpa using h)]; rfl

/-- The last entry of a device after one more known-type line. -/
theorem is_last_snoc (ks : List mntent) (e : mntent) (d m : String) (p : Nat) :
    is_last (ks ++ [e]) d m p ↔
      (e.mnt_fsname = d ∧ e.mnt_dir = m ∧ p = ks.length) ∨
      (e.mnt_fsname ≠ d ∧ is_last ks d m p) := by
  constructor
  · rintro ⟨e0, hg, hd, hm, hlast⟩
    rcases Nat.lt_trichotomy p ks.length with hp | hp | hp
    · right
      have hne : e.mnt_fsname ≠ d :=
        hlast ks.length e hp (by simp [List.getElem?_append_right])
      refine ⟨hne, e0, ?_, hd, hm, ?_⟩
      · rw [List.get?_eq_getElem?] at hg ⊢
        rwa [List.getElem?_append_left hp] at hg
      · intro q e1 hq hg1
        have hq1 : q < ks.length := by
          rw [List.get?_eq_getElem?] at hg1
          exact (List.getElem?_eq_some_iff.mp hg1).1
        refine hlast q e1 hq ?_
        rw [List.get?_eq_getElem?] at hg1 ⊢
        rwa [List.getElem?_append_left hq1]
    · left
      subst hp
      rw [List.get?_eq_getElem?] at hg
      simp [List.getElem?_append_right] at hg
      subst hg
      exact ⟨hd, hm, rfl⟩
    · exfalso
      rw [List.get?_eq_getElem?] at hg
      have := (List.getElem?_eq_some_iff.mp hg).1
      simp at this
      omega
  · rintro (⟨hd, hm, hp⟩ | ⟨hne, e0, hg, hd, hm, hlast⟩)
    · subst hp
      refine ⟨e, by simp [List.get?_eq_getElem?, List.getElem?_append_right], hd, hm, ?_⟩
      intro q e1 hq hg1
      exfalso
      rw [List.get?_eq_getElem?] at hg1
      have := (List.getElem?_eq_some_iff.mp hg1).1
      simp at this
      omega
    · have hp : p < ks.length := by
        rw [List.get?_eq_getElem?] at hg
        exact (List.getElem?_eq_some_iff.mp hg).1
      refine ⟨e0, ?_, hd, hm, ?_⟩
      · rw [List.get?_eq_getElem?] at hg ⊢
        rwa [List.getElem?_append_left hp]
      · intro q e1 hq hg1
        rcases Nat.lt_trichotomy q ks.length with hq1 | hq1 | hq1
        · refine hlast q e1 hq ?_
          rw [List.get?_eq_getElem?] at hg1 ⊢
          rwa [List.getElem?_append_left hq1] at hg1
        · subst hq1
          rw [List.get?_eq_getElem?] at hg1
          simp [List.getElem?_append_right] at hg1
          subst hg1
          exact hne
        · exfalso
          rw [List.get?_eq_getElem?] at hg1
          have := (List.getElem?_eq_some_iff.mp hg1).1
          simp at this
          omega

/-- The value the reading loop stores for a known-type line. -/
theorem ReadMtab_entry_find (M : Nat) (acc : DeviceMap × Nat) (e : mntent)
    (h : e.mnt_type ∈ kKnownFileSystems) (d : String) :
    map_find (ReadMtab_entry M acc e).1 d
      = (if d = e.mnt_fsname then some (e.mnt_dir, acc.2) else map_find acc.1 d) ∧
    (ReadMtab_entry M acc e).2 = (acc.2 + 1) % M ∧
    ((acc.1.map Prod.fst).Nodup →
      ((ReadMtab_entry M acc e).1.map Prod.fst).Nodup) := by
  unfold ReadMtab_entry
  rw [if_neg (not_not.mpr h)]
  cases hf : map_find acc.1 e.mnt_fsname with
  | none =>
    exact ⟨map_find_insert _ _ _ _ hf, rfl, map_insert_keys_nodup _ _ _ hf⟩
  | some x =>
    refine ⟨map_find_assign _ _ _ _ (by rw [hf]; rfl), rfl, ?_⟩
    intro hn
    simp only
    rw [map_assign_keys]
    exact hn

/-- The state of the reading loop after a sequence of lines: the counter is
the number of known-type lines, wrapped, and the device map holds the last
line of each device. -/
theorem ReadMtab_loop_state (M : Nat) (es : List mntent) :
    (es.foldl (ReadMtab_entry M) ([], 0)).2 = (known_entries es).length % M ∧
    ((es.foldl (ReadMtab_entry M) ([], 0)).1.map Prod.fst).Nodup ∧
    ((known_entries es).length ≤ M → ∀ d m p,
      map_find (es.foldl (ReadMtab_entry M) ([], 0)).1 d = some (m, p) ↔
        is_last (known_entries es) d m p) := by
  induction es using List.reverseRecOn with
  | nil =>
    refine ⟨by simp [known_entries], by simp, ?_⟩
    intro _ d m p
    simp [known_entries, map_find, is_last]
  | append_singleton es e ih =>
    obtain ⟨ih1, ih2, ih3⟩ := ih
    rw [List.foldl_append, List.foldl_cons, List.foldl_nil, known_entries_append]
    by_cases h : e.mnt_type ∈ kKnownFileSystems
    · obtain ⟨-, f2, f3⟩ := ReadMtab_entry_find M
        (es.foldl (ReadMtab_entry M) ([], 0)) e h ""
      rw [if_pos h]
      refine ⟨?_, f3 ih2, ?_⟩
      · rw [f2, ih1, List.length_append, List.length_singleton]
        simp [Nat.add_mod]
      · intro hlen d m p
        rw [List.length_append, List.length_singleton] at hlen
        have hlt : (known_entries es).length < M := by omega
        rw [(ReadMtab_entry_find M (es.foldl (ReadMtab_entry M) ([], 0)) e h d).1,
          is_last_snoc, ih1, Nat.mod_eq_of_lt hlt]
        by_cases hd : d = e.mnt_fsname
        · rw [if_pos hd]
          constructor
          · intro hs
            simp only [Option.some.injEq, Prod.mk.injEq] at hs
            exact Or.inl ⟨hd.symm, hs.1, hs.2.symm⟩
          · rintro (⟨-, hm, hp⟩ | ⟨hne, -⟩)
            · rw [hm, hp]
            · exact absurd hd.symm hne
        · rw [if_neg hd, ih3 (by omega) d m p]
          constructor
          · intro hl
            exact Or.inr ⟨fun e1 => hd e1.symm, hl⟩
          · rintro (⟨he, -, -⟩ | ⟨-, hl⟩)
            · exact absurd he.symm hd
            · exact hl
    · rw [ReadMtab_entry_unknown M _ e h, if_neg h, List.append_nil]
      exact ⟨ih1, ih2, ih3⟩

/-- The value the device loop leaves at a mount point. -/
theorem ReadMtab_device_find (R : MountMap) (d0 m0 : String) (p0 : Nat)
    (m : String) :
    map_find (ReadMtab_device R (d0, (m0, p0))) m
      = (match map_find R m0 with
         | none => if m = m0 then some (d0, p0) else map_find R m
         | some ex =>
           if ex.2 > p0 then map_find R m
           else if m = m0 then some (d0, p0) else map_find R m) ∧
    ((R.map Prod.fst).Nodup →
      ((ReadMtab_device R (d0, (m0, p0))).map Prod.fst).Nodup) := by
  unfold ReadMtab_device
  simp only
  cases hf : map_find R m0 with
  | none =>
    exact ⟨map_find_insert _ _ _ _ hf, map_insert_keys_nodup _ _ _ hf⟩
  | some ex =>
    simp only
    by_cases hgt : ex.2 > p0
    · rw [if_pos hgt, if_pos hgt]
      exact ⟨rfl, id⟩
    · rw [if_neg hgt, if_neg hgt]
      refine ⟨map_find_assign _ _ _ _ (by rw [hf]; rfl), ?_⟩
      intro hn
      rw [map_assign_keys]
      exact hn

theorem resolved_step (R : MountMap) (L : List (String × (String × Nat)))
    (x : String × (String × Nat)) (h : resolved R L) :
    resolved (ReadMtab_device R x) (L ++ [x]) := by
  obtain ⟨d0, m0, p0⟩ := x
  obtain ⟨h1, h2, h3, h4⟩ := h
  have hfind := fun m => (ReadMtab_device_find R d0 m0 p0 m).1
  refine ⟨?_, ?_, ?_, (ReadMtab_device_find R d0 m0 p0 "").2 h4⟩
  · intro m d p hs
    rw [hfind m] at hs
    rw [List.mem_append, List.mem_singleton]
    cases hf : map_find R m0 with
    | none =>
      rw [hf] at hs
      simp only at hs
      by_cases hm : m = m0
      · rw [if_pos hm] at hs
        simp only [Option.some.injEq, Prod.mk.injEq] at hs
        right; rw [hm, ← hs.1, ← hs.2]
      · rw [if_neg hm] at hs
        exact Or.inl (h1 m d p hs)
    | some ex =>
      rw [hf] at hs
      simp only at hs
      by_cases hgt : ex.2 > p0
      · rw [if_pos hgt] at hs
        exact Or.inl (h1 m d p hs)
      · rw [if_neg hgt] at hs
        by_cases hm : m = m0
        · rw [if_pos hm] at hs
          simp only [Option.some.injEq, Prod.mk.injEq] at hs
          right; rw [hm, ← hs.1, ← hs.2]
        · rw [if_neg hm] at hs
          exact Or.inl (h1 m d p hs)
  · intro m d p hs d1 p1 hmem
    rw [hfind m] at hs
    rw [List.mem_append, List.mem_singleton] at hmem
    cases hf : map_find R m0 with
    | none =>
      rw [hf] at hs
      simp only at hs
      by_cases hm : m = m0
      · rw [if_pos hm] at hs
        simp only [Option.some.injEq, Prod.mk.injEq] at hs
        rcases hmem with hmem | hmem
        · have := h3 m d1 p1 hmem
          rw [hm, hf] at this
          cases this
        · simp only [Prod.mk.injEq] at hmem
          omega
      · rw [if_neg hm] at hs
        rcases hmem with hmem | hmem
        · exact h2 m d p hs d1 p1 hmem
        · simp only [Prod.mk.injEq] at hmem
          exact absurd hmem.2.1 hm
    | some ex =>
      rw [hf] at hs
      simp only at hs
      obtain ⟨exd, exp⟩ := ex
      by_cases hgt : exp > p0
      · rw [if_pos hgt] at hs
        rcases hmem with hmem | hmem
        · exact h2 m d p hs d1 p1 hmem
        · simp only [Prod.mk.injEq] at hmem
          obtain ⟨-, hm, hp⟩ := hmem
          rw [hm, hf] at hs
          simp only [Option.some.injEq, Prod.mk.injEq] at hs
          omega
      · rw [if_neg hgt] at hs
        by_cases hm : m = m0
        · rw [if_pos hm] at hs
          simp only [Option.some.injEq, Prod.mk.injEq] at hs
          rcases hmem with hmem | hmem
          · have := h2 m0 exd exp hf d1 p1 (hm ▸ hmem)
            omega
          · simp only [Prod.mk.injEq] at hmem
            omega
        · rw [if_neg hm] at hs
          rcases hmem with hmem | hmem
          · exact h2 m d p hs d1 p1 hmem
          · simp only [Prod.mk.injEq] at hmem
            exact absurd hmem.2.1 hm
  · intro m d p hmem
    rw [hfind m]
    rw [List.mem_append, List.mem_singleton] at hmem
    cases hf : map_find R m0 with
    | none =>
      simp only
      by_cases hm : m = m0
      · rw [if_pos hm]; rfl
      · rw [if_neg hm]
        rcases hmem with hmem | hmem
        · exact h3 m d p hmem
        · simp only [Prod.mk.injEq] at hmem
          exact absurd hmem.2.1 hm
    | some ex =>
      simp only
      by_cases hgt : ex.2 > p0
      · rw [if_pos hgt]
        rcases hmem with hmem | hmem
        · exact h3 m d p hmem
        · simp only [Prod.mk.injEq] at hmem
          rw [hmem.2.1, hf]; rfl
      · rw [if_neg hgt]
        by_cases hm : m = m0
        · rw [if_pos hm]; rfl
        · rw [if_neg hm]
          rcases hmem with hmem | hmem
          · exact h3 m d p hmem
          · simp only [Prod.mk.injEq] at hmem
            exact absurd hmem.2.1 hm

theorem resolved_foldl (rest L : List (String × (String × Nat))) (R : MountMap)
    (h : resolved R L) :
    resolved (rest.foldl ReadMtab_device R) (L ++ rest) := by
  induction rest generalizing L R with
  | nil => simpa using h
  | cons x rest ih =>
    have := ih (L ++ [x]) (ReadMtab_device R x) (resolved_step R L x h)
    simpa using this

/-- C26: for a sequence of mount entries read into an empty map, with at
most as many known-type entries as `DeviceIdType` has values and positions
numbering the known-type entries only: the keys of the map are exactly the
mount directories of the last known-type entry of some device, and a key `m`
maps to device `d` at position `p` exactly when the last entry of `d` is at
`m` with position `p` and no device whose last entry is at `m` has a greater
position; the keys are pairwise distinct. -/
theorem C26_ReadMtab_resolves_by_position (M : Nat) (es : List mntent)
    (hM : (known_entries es).length ≤ M) :
    (∀ m, (∃ v, map_find (ReadMtab M (some es) []) m = some v) ↔
      ∃ d p, is_last (known_entries es) d m p) ∧
    (∀ m d p, map_find (ReadMtab M (some es) []) m = some (d, p) ↔
      (is_last (known_entries es) d m p ∧
        ∀ d1 p1, is_last (known_entries es) d1 m p1 → p1 ≤ p)) ∧
    ((ReadMtab M (some es) []).map Prod.fst).Nodup := by
  obtain ⟨-, a2, a3⟩ := ReadMtab_loop_state M es
  have a3 := a3 hM
  have hmem : ∀ d m p, (d, (m, p)) ∈ (es.foldl (ReadMtab_entry M) ([], 0)).1 ↔
      is_last (known_entries es) d m p := by
    intro d m p
    rw [← a3 d m p, map_find_eq_some_iff _ _ _ a2]
  have hres : resolved (ReadMtab M (some es) [])
      (es.foldl (ReadMtab_entry M) ([], 0)).1 := by
    have := resolved_foldl (es.foldl (ReadMtab_entry M) ([], 0)).1 [] []
      ⟨fun m d p h => by simp [map_find] at h, fun m d p h => by simp [map_find] at h,
       fun m d p h => by simp at h, by simp⟩
    simpa [ReadMtab] using this
  obtain ⟨r1, r2, r3, r4⟩ := hres
  refine ⟨?_, ?_, r4⟩
  · intro m
    constructor
    · rintro ⟨⟨d, p⟩, hv⟩
      exact ⟨d, p, (hmem d m p).mp (r1 m d p hv)⟩
    · rintro ⟨d, p, hl⟩
      exact Option.isSome_iff_exists.mp (r3 m d p ((hmem d m p).mpr hl))
  · intro m d p
    constructor
    · intro hv
      refine ⟨(hmem d m p).mp (r1 m d p hv), ?_⟩
      intro d1 p1 hl
      exact r2 m d p hv d1 p1 ((hmem d1 m p1).mpr hl)
    · rintro ⟨hl, hmax⟩
      obtain ⟨⟨d1, p1⟩, hv⟩ := Option.isSome_iff_exists.mp
        (r3 m d p ((hmem d m p).mpr hl))
      have hl1 := (hmem d1 m p1).mp (r1 m d1 p1 hv)
      have hle1 : p1 ≤ p := hmax d1 p1 hl1
      have hle2 : p ≤ p1 := r2 m d1 p1 hv d p ((hmem d m p).mpr hl)
      have hp : p1 = p := le_antisymm hle1 hle2
      subst hp
      obtain ⟨e, hg, hd, -, -⟩ := hl
      obtain ⟨e1, hg1, hd1, -, -⟩ := hl1
      rw [hg] at hg1
      cases hg1
      rw [← hd, hd1] at *
      exact hv

/-- Instance of C26: in `mtab_conflict` device `a` wins `/x` over the stale
line of `b`, whose last line is at `/z`; the `proc` line has no position. -/
theorem C26_ReadMtab_resolves_by_position_witness :
    (known_entries mtab_conflict).length ≤ 4 ∧
    ReadMtab 4 (some mtab_conflict) [] = [("/x", ("a", 1)), ("/z", ("b", 2))] ∧
    (∀ m d p, map_find (ReadMtab 4 (some mtab_conflict) []) m = some (d, p) ↔
      (is_last (known_entries mtab_conflict) d m p ∧
        ∀ d1 p1, is_last (known_entries mtab_conflict) d1 m p1 → p1 ≤ p)) :=
  ⟨by decide, by decide,
   (C26_ReadMtab_resolves_by_position 4 mtab_conflict (by decide)).2.1⟩

theorem attached_ids_append (t u : List event) :
    attached_ids (t ++ u) = attached_ids t ++ attached_ids u := by
  unfold attached_ids; exact List.filterMap_append _ _ _

theorem attached_at_append (t u : List event) (m : String) :
    attached_at (t ++ u) m = attached_at t m ++ attached_at u m := by
  unfold attached_at; exact List.filterMap_append _ _ _

/-- The invariant reads the trace through its attach notifications only. -/
theorem notifier_inv_congr (M : Nat) (self : notifier) (t u : List event)
    (h1 : attached_ids u = attached_ids t)
    (h2 : ∀ m, attached_at u m = attached_at t m)
    (h : notifier_inv M self t) : notifier_inv M self u := by
  obtain ⟨a, b, c, d⟩ := h
  refine ⟨by rw [h1]; exact a, by rw [h1]; exact b, c, ?_⟩
  intro m dv id hf
  rw [h2 m]
  exact d m dv id hf

/-- A detach notification keeps the invariant. -/
theorem notifier_inv_detach (M : Nat) (self : notifier) (t : List event)
    (id : Nat) (h : notifier_inv M self t) :
    notifier_inv M self (t ++ RemoveOldDevice id) := by
  refine notifier_inv_congr M self t _ ?_ ?_ h
  · rw [attached_ids_append]; simp [RemoveOldDevice, attached_ids]
  · intro m; rw [attached_at_append]; simp [RemoveOldDevice, attached_at]

/-- `AddNewDevice` followed by storing its id at the mount point keeps the
invariant. -/
theorem notifier_inv_attach (M : Nat) (self : notifier) (t : List event)
    (d m : String) (mtab1 : MountMap) (h : notifier_inv M self t)
    (hn : (mtab1.map Prod.fst).Nodup)
    (hf : ∀ m1, map_find mtab1 m1
      = if m1 = m then some (d, self.current_device_id_) else map_find self.mtab_ m1) :
    notifier_inv M
      { (AddNewDevice M self d m).1 with mtab_ := mtab1 }
      (t ++ (AddNewDevice M self d m).2.2) := by
  obtain ⟨a, b, c, e⟩ := h
  have hids : attached_ids (t ++ (AddNewDevice M self d m).2.2)
      = attached_ids t ++ [self.current_device_id_] := by
    rw [attached_ids_append]; rfl
  have hlen : (attached_ids (t ++ (AddNewDevice M self d m).2.2)).length
      = (attached_ids t).length + 1 := by
    rw [hids, List.length_append, List.length_singleton]
  refine ⟨?_, ?_, hn, ?_⟩
  · rw [hlen]
    show (self.current_device_id_ + 1) % M = _
    rw [a]
    simp [Nat.add_mod]
  · rw [hlen, List.range_succ, List.map_append, ← b, hids, a]
    rfl
  · intro m1 d1 id1 hfind
    rw [hf m1] at hfind
    rw [attached_at_append]
    by_cases hm : m1 = m
    · rw [if_pos hm] at hfind
      simp only [Option.some.injEq, Prod.mk.injEq] at hfind
      have : attached_at (AddNewDevice M self d m).2.2 m1
          = [(self.current_device_id_, d)] := by
        simp [AddNewDevice, attached_at, hm]
      rw [this, List.getLast?_append, ← hfind.1, ← hfind.2]
      rfl
    · rw [if_neg hm] at hfind
      have : attached_at (AddNewDevice M self d m).2.2 m1 = [] := by
        have hm2 : ¬ m = m1 := fun x => hm x.symm
        simp [AddNewDevice, attached_at, hm2]
      rw [this, List.append_nil]
      exact e m1 d1 id1 hfind

/-- One pass of the last loop of `UpdateMtab` keeps the invariant. -/
theorem UpdateMtab_new_entry_inv (M : Nat) (DE : String → String → Bool)
    (t0 : List event) (acc : notifier × List event)
    (x : String × (String × Nat)) (h : notifier_inv M acc.1 (t0 ++ acc.2)) :
    notifier_inv M (UpdateMtab_new_entry M DE acc x).1
      (t0 ++ (UpdateMtab_new_entry M DE acc x).2) := by
  obtain ⟨self, ev⟩ := acc
  obtain ⟨m, d, p⟩ := x
  unfold UpdateMtab_new_entry
  simp only
  cases hf : map_find self.mtab_ m with
  | none =>
    simp only
    by_cases hmd : IsMediaDevice DE m = true
    · rw [if_pos hmd]
      simp only
      rw [← List.append_assoc]
      exact notifier_inv_attach M self (t0 ++ ev) d m _ h
        (map_insert_keys_nodup _ _ _ hf h.2.2.1)
        (fun m1 => map_find_insert _ _ _ _ hf)
    · rw [if_neg hmd]
      exact h
  | some old =>
    simp only
    by_cases hsame : d = old.1
    · rw [if_pos hsame]
      exact h
    · rw [if_neg hsame]
      have hdet := notifier_inv_detach M self (t0 ++ ev) old.2 h
      by_cases hmd : IsMediaDevice DE m = true
      · rw [if_pos hmd]
        simp only
        rw [← List.append_assoc, ← List.append_assoc]
        refine notifier_inv_attach M self (t0 ++ ev ++ RemoveOldDevice old.2) d m _
          hdet ?_ (fun m1 => map_find_assign _ _ _ _
            (by show (map_find self.mtab_ m).isSome = true; rw [hf]; rfl))
        show ((map_assign self.mtab_ m (d, self.current_device_id_)).map Prod.fst).Nodup
        rw [map_assign_keys]
        exact h.2.2.1
      · rw [if_neg hmd]
        simp only
        rw [← List.append_assoc]
        exact hdet

theorem foldl_UpdateMtab_new_entry_inv (M : Nat) (DE : String → String → Bool)
    (t0 : List event) (entries : MountMap) (acc : notifier × List event)
    (h : notifier_inv M acc.1 (t0 ++ acc.2)) :
    notifier_inv M (entries.foldl (UpdateMtab_new_entry M DE) acc).1
      (t0 ++ (entries.foldl (UpdateMtab_new_entry M DE) acc).2) := by
  induction entries generalizing acc with
  | nil => exact h
  | cons x entries ih =>
    exact ih _ (UpdateMtab_new_entry_inv M DE t0 acc x h)

/-- The first loop of `UpdateMtab` sends detach notifications only. -/
theorem foldl_UpdateMtab_old_entry_attached (new_mtab : MountMap)
    (entries : MountMap) (acc : List event × List String) :
    attached_ids (entries.foldl (UpdateMtab_old_entry new_mtab) acc).1
      = attached_ids acc.1 ∧
    ∀ m, attached_at (entries.foldl (UpdateMtab_old_entry new_mtab) acc).1 m
      = attached_at acc.1 m := by
  induction entries generalizing acc with
  | nil => exact ⟨rfl, fun _ => rfl⟩
  | cons x entries ih =>
    simp only [List.foldl_cons]
    obtain ⟨i1, i2⟩ := ih (UpdateMtab_old_entry new_mtab acc x)
    have hx : attached_ids (UpdateMtab_old_entry new_mtab acc x).1 = attached_ids acc.1 ∧
        ∀ m, attached_at (UpdateMtab_old_entry new_mtab acc x).1 m
          = attached_at acc.1 m := by
      unfold UpdateMtab_old_entry
      simp only
      cases map_find new_mtab x.1 with
      | none =>
        simp only
        refine ⟨?_, fun m => ?_⟩
        · rw [attached_ids_append]; simp [RemoveOldDevice, attached_ids]
        · rw [attached_at_append]; simp [RemoveOldDevice, attached_at]
      | some v => exact ⟨rfl, fun _ => rfl⟩
    exact ⟨i1.trans hx.1, fun m => (i2 m).trans (hx.2 m)⟩

/-- Erasing mount points keeps the invariant. -/
theorem notifier_inv_erase (M : Nat) (self : notifier) (t : List event)
    (ks : List String) (h : notifier_inv M self t) :
    notifier_inv M { self with mtab_ := ks.foldl map_erase self.mtab_ } t := by
  obtain ⟨a, b, c, e⟩ := h
  have hsub := foldl_map_erase_sublist ks self.mtab_
  have hn : ((ks.foldl map_erase self.mtab_).map Prod.fst).Nodup :=
    List.Nodup.sublist (hsub.map Prod.fst) c
  refine ⟨a, b, hn, ?_⟩
  intro m d id hf
  apply e m d id
  rw [map_find_eq_some_iff _ _ _ c]
  exact hsub.subset ((map_find_eq_some_iff _ _ _ hn).mp hf)

/-- One `UpdateMtab` call keeps the invariant. -/
theorem UpdateMtab_inv (M : Nat) (self : notifier) (fp : Option (List mntent))
    (DE : String → String → Bool) (t0 : List event)
    (h : notifier_inv M self t0) :
    notifier_inv M (UpdateMtab M self fp DE).1
      (t0 ++ (UpdateMtab M self fp DE).2) := by
  unfold UpdateMtab
  simp only
  apply foldl_UpdateMtab_new_entry_inv
  simp only
  obtain ⟨r1, r2⟩ := foldl_UpdateMtab_old_entry_attached (ReadMtab M fp [])
    self.mtab_ ([], [])
  apply notifier_inv_erase
  refine notifier_inv_congr M self t0 _ ?_ ?_ h
  · rw [attached_ids_append, r1]; simp [attached_ids]
  · intro m; rw [attached_at_append, r2 m]; simp [attached_at]

theorem UpdateMtab_seq_inv (M : Nat)
    (calls : List (Option (List mntent) × (String → String → Bool)))
    (self : notifier) (t0 : List event) (h : notifier_inv M self t0) :
    notifier_inv M (UpdateMtab_seq M self calls).1
      (t0 ++ (UpdateMtab_seq M self calls).2) := by
  induction calls generalizing self t0 with
  | nil => simpa [UpdateMtab_seq] using h
  | cons c calls ih =>
    unfold UpdateMtab_seq
    simp only
    rw [← List.append_assoc]
    exact ih _ _ (UpdateMtab_inv M self c.1 c.2 t0 h)

theorem notifier_inv_init (M : Nat) : notifier_inv M notifier.init [] := by
  refine ⟨by simp [notifier.init, attached_ids], by simp [attached_ids], by simp [notifier.init], ?_⟩
  intro m d id h
  simp [notifier.init, map_find] at h

/-- C29: over every sequence of `UpdateMtab` calls on a fresh instance, the
`k`-th attach notification (the `k`-th `AddNewDevice` call, from 0) carries
id `k % M`, where `M` is the number of values of `DeviceIdType`; while at
most `M` devices have been attached no two attach notifications carry the
same id; the counter stands at the number of attachments, wrapped; and the
device and id stored in `mtab_` for a mount point are those of the most
recent attach notification at that mount point. -/
theorem C29_device_ids_sequential (M : Nat)
    (calls : List (Option (List mntent) × (String → String → Bool))) :
    (∀ k id, (attached_ids (UpdateMtab_seq M notifier.init calls).2).get? k = some id →
      id = k % M) ∧
    ((attached_ids (UpdateMtab_seq M notifier.init calls).2).length ≤ M →
      (attached_ids (UpdateMtab_seq M notifier.init calls).2).Nodup) ∧
    (UpdateMtab_seq M notifier.init calls).1.current_device_id_
      = (attached_ids (UpdateMtab_seq M notifier.init calls).2).length % M ∧
    (∀ m d id,
      map_find (UpdateMtab_seq M notifier.init calls).1.mtab_ m = some (d, id) →
      (attached_at (UpdateMtab_seq M notifier.init calls).2 m).getLast? = some (id, d)) := by
  have h := UpdateMtab_seq_inv M calls notifier.init [] (notifier_inv_init M)
  rw [List.nil_append] at h
  obtain ⟨a, b, -, e⟩ := h
  refine ⟨?_, ?_, a, e⟩
  · intro k id hk
    rw [b, List.get?_eq_getElem?] at hk
    simp only [List.getElem?_map, List.getElem?_range, Option.map_eq_some'] at hk
    obtain ⟨k1, hk1, hk2⟩ := hk
    have : k1 = k := by
      by_cases hlt : k < (attached_ids (UpdateMtab_seq M notifier.init calls).2).length
      · rw [List.getElem?_range hlt] at hk1
        exact (Option.some.inj hk1).symm
      · rw [List.getElem?_eq_none (by simpa using hlt)] at hk1
        cases hk1
    rw [← hk2, this]
  · intro hlen
    rw [b]
    refine List.Nodup.map_on ?_ (List.nodup_range _)
    intro x hx y hy hxy
    rw [List.mem_range] at hx hy
    rw [Nat.mod_eq_of_lt (by omega), Nat.mod_eq_of_lt (by omega)] at hxy
    exact hxy

/-- Instance of C29: two cards attached in one call get ids 0 and 1, with a
32-bit `DeviceIdType`. -/
theorem C29_device_ids_sequential_witness :
    (attached_ids (UpdateMtab_seq 4294967296 notifier.init
      [(some mtab_two_devices, dcim_everywhere)]).2).length ≤ 4294967296 ∧
    attached_ids (UpdateMtab_seq 4294967296 notifier.init
      [(some mtab_two_devices, dcim_everywhere)]).2 = [0, 1] ∧
    (attached_ids (UpdateMtab_seq 4294967296 notifier.init
      [(some mtab_two_devices, dcim_everywhere)]).2).Nodup :=
  ⟨by decide, by decide,
   (C29_device_ids_sequential 4294967296
      [(some mtab_two_devices, dcim_everywhere)]).2.1 (by decide)⟩

/-- C28, as the code behaves: when a device without a `DCIM` directory
replaces an attached device at its mount point, `UpdateMtab` reports the old
id detached but leaves the old entry in `mtab_`, so the next `UpdateMtab`
call reports the same id detached a second time.  On `calls_stale_entry` id 0
is attached once and detached twice, for every width of `DeviceIdType`. -/
theorem C28_stale_entry_detached_twice (M : Nat) :
    (UpdateMtab_seq M notifier.init calls_stale_entry).2
      = [event.ProcessMediaDeviceAttached 0 "/dev/sdb1" "/media/cam",
         event.ProcessMediaDeviceDetached 0,
         event.ProcessMediaDeviceDetached 0] ∧
    (attached_ids (UpdateMtab_seq M notifier.init calls_stale_entry).2).count 0 = 1 ∧
    (detached_ids (UpdateMtab_seq M notifier.init calls_stale_entry).2).count 0 = 2 ∧
    (UpdateMtab_seq M notifier.init (calls_stale_entry.take 2)).2
      = [event.ProcessMediaDeviceAttached 0 "/dev/sdb1" "/media/cam",
         event.ProcessMediaDeviceDetached 0] ∧
    (UpdateMtab_seq M notifier.init (calls_stale_entry.take 2)).1.mtab_
      = [("/media/cam", ("/dev/sdb1", 0))] := by
  have h : (UpdateMtab_seq M notifier.init calls_stale_entry).2
      = [event.ProcessMediaDeviceAttached 0 "/dev/sdb1" "/media/cam",
         event.ProcessMediaDeviceDetached 0,
         event.ProcessMediaDeviceDetached 0] := rfl
  refine ⟨h, ?_, ?_, rfl, rfl⟩
  · rw [h]; rfl
  · rw [h]; rfl

theorem detached_were_attached_snoc (t : List event) (e : event)
    (h : detached_were_attached t)
    (he : ∀ id, e = event.ProcessMediaDeviceDetached id → id ∈ attached_ids t) :
    detached_were_attached (t ++ [e]) := by
  intro t1 t2 id heq
  rcases List.eq_nil_or_concat t2 with h2 | ⟨t3, b, h2⟩
  · subst h2
    have := List.append_inj' heq rfl
    obtain ⟨e1, e2⟩ := this
    subst e1
    exact he id (by simpa using e2)
  · subst h2
    have heq2 : t ++ [e] = (t1 ++ event.ProcessMediaDeviceDetached id :: t3) ++ [b] := by
      rw [heq]; simp
    have := List.append_inj' heq2 rfl
    exact h t1 t3 id this.1

theorem attached_at_mem (t : List event) (m : String) (id : Nat) (d : String)
    (h : (id, d) ∈ attached_at t m) : id ∈ attached_ids t := by
  unfold attached_at at h
  unfold attached_ids
  rw [List.mem_filterMap] at h ⊢
  obtain ⟨e, he, hv⟩ := h
  refine ⟨e, he, ?_⟩
  cases e with
  | ProcessMediaDeviceAttached id1 name path =>
    simp only at hv ⊢
    by_cases hp : path = m
    · rw [if_pos hp] at hv
      simp only [Option.some.injEq, Prod.mk.injEq] at hv
      rw [hv.1]
    · rw [if_neg hp] at hv
      cases hv
  | ProcessMediaDeviceDetached id1 => simp at hv

/-- An id stored in `mtab_` has been attached. -/
theorem notifier_inv_id_attached (M : Nat) (self : notifier) (t : List event)
    (h : notifier_inv M self t) (m d : String) (id : Nat)
    (hf : map_find self.mtab_ m = some (d, id)) : id ∈ attached_ids t := by
  have := h.2.2.2 m d id hf
  exact attached_at_mem t m id d (List.mem_of_getLast?_eq_some this)

theorem UpdateMtab_new_entry_detached (M : Nat) (DE : String → String → Bool)
    (t0 : List event) (acc : notifier × List event)
    (x : String × (String × Nat)) (h : notifier_inv M acc.1 (t0 ++ acc.2))
    (hd : detached_were_attached (t0 ++ acc.2)) :
    detached_were_attached (t0 ++ (UpdateMtab_new_entry M DE acc x).2) := by
  obtain ⟨self, ev⟩ := acc
  obtain ⟨m, d, p⟩ := x
  unfold UpdateMtab_new_entry
  simp only
  cases hf : map_find self.mtab_ m with
  | none =>
    simp only
    by_cases hmd : IsMediaDevice DE m = true
    · rw [if_pos hmd]
      simp only
      rw [← List.append_assoc]
      exact detached_were_attached_snoc _ _ hd (fun id h1 => by cases h1)
    · rw [if_neg hmd]
      exact hd
  | some old =>
    simp only
    by_cases hsame : d = old.1
    · rw [if_pos hsame]
      exact hd
    · rw [if_neg hsame]
      have hdet : detached_were_attached (t0 ++ ev ++ RemoveOldDevice old.2) := by
        refine detached_were_attached_snoc _ _ hd ?_
        intro id h1
        cases h1
        exact notifier_inv_id_attached M self (t0 ++ ev) h m old.1 old.2 hf
      by_cases hmd : IsMediaDevice DE m = true
      · rw [if_pos hmd]
        simp only
        rw [← List.append_assoc, ← List.append_assoc]
        exact detached_were_attached_snoc _ _ hdet (fun id h1 => by cases h1)
      · rw [if_neg hmd]
        simp only
        rw [← List.append_assoc]
        exact hdet

theorem foldl_UpdateMtab_new_entry_detached (M : Nat) (DE : String → String → Bool)
    (t0 : List event) (entries : MountMap) (acc : notifier × List event)
    (h : notifier_inv M acc.1 (t0 ++ acc.2))
    (hd : detached_were_attached (t0 ++ acc.2)) :
    detached_were_attached
      (t0 ++ (entries.foldl (UpdateMtab_new_entry M DE) acc).2) := by
  induction entries generalizing acc with
  | nil => exact hd
  | cons x entries ih =>
    exact ih _ (UpdateMtab_new_entry_inv M DE t0 acc x h)
      (UpdateMtab_new_entry_detached M DE t0 acc x h hd)

theorem foldl_UpdateMtab_old_entry_detached (new_mtab : MountMap)
    (t0 : List event) (entries : MountMap) (acc : List event × List String)
    (hids : ∀ x ∈ entries, x.2.2 ∈ attached_ids t0)
    (hd : detached_were_attached (t0 ++ acc.1)) :
    detached_were_attached
      (t0 ++ (entries.foldl (UpdateMtab_old_entry new_mtab) acc).1) := by
  induction entries generalizing acc with
  | nil => exact hd
  | cons x entries ih =>
    simp only [List.foldl_cons]
    refine ih _ (fun y hy => hids y (List.mem_cons_of_mem _ hy)) ?_
    unfold UpdateMtab_old_entry
    simp only
    cases map_find new_mtab x.1 with
    | none =>
      simp only
      rw [← List.append_assoc]
      refine detached_were_attached_snoc _ _ hd ?_
      intro id h1
      cases h1
      rw [attached_ids_append]
      exact List.mem_append_left _ (hids x (List.mem_cons_self _ _))
    | some v => exact hd

theorem UpdateMtab_detached (M : Nat) (self : notifier)
    (fp : Option (List mntent)) (DE : String → String → Bool) (t0 : List event)
    (h : notifier_inv M self t0) (hd : detached_were_attached t0) :
    detached_were_attached (t0 ++ (UpdateMtab M self fp DE).2) := by
  unfold UpdateMtab
  simp only
  obtain ⟨r1, r2⟩ := foldl_UpdateMtab_old_entry_attached (ReadMtab M fp [])
    self.mtab_ ([], [])
  apply foldl_UpdateMtab_new_entry_detached
  · simp only
    apply notifier_inv_erase
    refine notifier_inv_congr M self t0 _ ?_ ?_ h
    · rw [attached_ids_append, r1]; simp [attached_ids]
    · intro m; rw [attached_at_append, r2 m]; simp [attached_at]
  · simp only
    refine foldl_UpdateMtab_old_entry_detached _ t0 self.mtab_ ([], []) ?_
      (by simpa using hd)
    rintro ⟨m, d, id⟩ hx
    exact notifier_inv_id_attached M self t0 h m d id
      ((map_find_eq_some_iff _ _ _ h.2.2.1).mpr hx)

theorem UpdateMtab_seq_detached (M : Nat)
    (calls : List (Option (List mntent) × (String → String → Bool)))
    (self : notifier) (t0 : List event) (h : notifier_inv M self t0)
    (hd : detached_were_attached t0) :
    detached_were_attached (t0 ++ (UpdateMtab_seq M self calls).2) := by
  induction calls generalizing self t0 with
  | nil => simpa [UpdateMtab_seq] using hd
  | cons c calls ih =>
    unfold UpdateMtab_seq
    simp only
    rw [← List.append_assoc]
    exact ih _ _ (UpdateMtab_inv M self c.1 c.2 t0 h)
      (UpdateMtab_detached M self c.1 c.2 t0 h hd)

/-- Over every sequence of `UpdateMtab` calls on a fresh instance, an id
passed to `ProcessMediaDeviceDetached` was passed to
`ProcessMediaDeviceAttached` earlier in the trace. -/
theorem detached_ids_attached_before (M : Nat)
    (calls : List (Option (List mntent) × (String → String → Bool)))
    (t1 t2 : List event) (id : Nat)
    (h : (UpdateMtab_seq M notifier.init calls).2
      = t1 ++ event.ProcessMediaDeviceDetached id :: t2) :
    id ∈ attached_ids t1 := by
  have := UpdateMtab_seq_detached M calls notifier.init [] (notifier_inv_init M)
    (by intro a b c hh; simp at hh)
  rw [List.nil_append] at this
  exact this t1 t2 id h

/-- Instance of C27: the `proc` line of `mtab_conflict` leaves the loop state
as it was, and the map is that of the three known-type lines. -/
theorem C27_ReadMtab_ignores_unknown_witness :
    "proc" ∉ kKnownFileSystems ∧
    ReadMtab_entry 4 ([], 0)
      { mnt_fsname := "c", mnt_dir := "/y", mnt_type := "proc" } = ([], 0) ∧
    ReadMtab 4 (some mtab_conflict) []
      = ReadMtab 4 (some (mtab_conflict.filter
          (fun e => decide (e.mnt_type ∈ kKnownFileSystems)))) [] :=
  ⟨by decide,
   (C27_ReadMtab_ignores_unknown 4 mtab_conflict []).2.2.2 ([], 0)
     { mnt_fsname := "c", mnt_dir := "/y", mnt_type := "proc" } (by decide),
   (C27_ReadMtab_ignores_unknown 4 mtab_conflict []).2.1⟩

end MediaDeviceNotificationsLinux

namespace NetworkSelectionView

/-- C30: with an observer set, `ItemChanged` delivers `NETWORK_CONNECTED`
exactly when `new_index` differs from `prev_index`, `prev_index >= 0`,
`new_index > 0`, the network list is not empty, a network exists at
position `new_index - 1` and that network is not an encrypted WiFi network;
without an observer nothing is delivered.  For an encrypted WiFi network the
password dialog is opened and nothing else is done, and when `new_index` is 0
and `prev_index > 0` the selection is set back to `prev_index` and nothing
else is done. -/
theorem C30_ItemChanged_reports_connection (self : view)
    (prev_index new_index : Int) :
    (self.observer_ = true →
      (ui_call.OnExit ExitCodes.NETWORK_CONNECTED ∈ ItemChanged self prev_index new_index
        ↔ (new_index ≠ prev_index ∧ prev_index ≥ 0 ∧ new_index > 0 ∧
            self.IsEmpty = false ∧
            ∃ network, self.GetNetworkAt (new_index - 1) = some network ∧
              ¬ (network.network_type = NetworkType.NETWORK_WIFI ∧
                  network.wifi_network.encrypted = true)))) ∧
    (self.observer_ = false →
      ui_call.OnExit ExitCodes.NETWORK_CONNECTED
        ∉ ItemChanged self prev_index new_index) ∧
    (∀ network, new_index ≠ prev_index → prev_index ≥ 0 → new_index > 0 →
      self.IsEmpty = false → self.GetNetworkAt (new_index - 1) = some network →
      network.network_type = NetworkType.NETWORK_WIFI →
      network.wifi_network.encrypted = true →
      ItemChanged self prev_index new_index
        = [ui_call.OpenPasswordDialog network.wifi_network]) ∧
    (new_index = 0 → prev_index > 0 →
      ItemChanged self prev_index new_index
        = [ui_call.SetSelectedItem prev_index]) := by
  refine ⟨?_, ?_, ?_, ?_⟩
  · intro hobs
    unfold ItemChanged NotifyOnConnection
    by_cases h1 : new_index = prev_index ∨ new_index < 0 ∨ prev_index < 0
    · rw [if_pos h1]
      simp only [List.not_mem_nil, false_iff]
      rintro ⟨a, b, c, -⟩
      rcases h1 with h | h | h <;> omega
    · rw [if_neg h1]
      have h1a : new_index ≠ prev_index := fun h => h1 (Or.inl h)
      have h1b : prev_index ≥ 0 := by
        by_contra h; exact h1 (Or.inr (Or.inr (by omega)))
      have h1c : new_index ≥ 0 := by
        by_contra h; exact h1 (Or.inr (Or.inl (by omega)))
      by_cases h2 : new_index = 0
      · rw [if_pos h2]
        constructor
        · intro hm
          simp at hm
        · rintro ⟨-, -, c, -⟩
          omega
      · rw [if_neg h2]
        have h2a : new_index > 0 := by omega
        cases he : self.IsEmpty
        · simp only [Bool.false_eq_true, if_false]
          cases hg : self.GetNetworkAt (new_index - 1) with
          | none =>
            simp only [List.not_mem_nil, false_iff]
            rintro ⟨-, -, -, -, n, hn, -⟩
            cases hn
          | some network =>
            simp only [hobs, if_true]
            obtain ⟨ty, label, ⟨ssid, enc⟩, cell⟩ := network
            cases ty <;> cases enc <;>
              simp [h1a, h1b, h2a]
        · simp only [if_true, List.not_mem_nil, false_iff]
          rintro ⟨-, -, -, d, -⟩
          cases d
  · intro hobs
    unfold ItemChanged NotifyOnConnection
    simp only [hobs, Bool.false_eq_true, if_false, List.append_nil]
    split_ifs <;> try simp
    split <;> try simp
    split_ifs <;> simp
  · intro network h1 h2 h3 h4 h5 h6 h7
    unfold ItemChanged
    have c1 : ¬ (new_index = prev_index ∨ new_index < 0 ∨ prev_index < 0) := by
      rintro (h | h | h) <;> omega
    have c2 : ¬ new_index = 0 := by omega
    rw [if_neg c1, if_neg c2, h4]
    simp only [Bool.false_eq_true, if_false, h5, h6, h7, if_true]
  · intro h1 h2
    unfold ItemChanged
    have c1 : ¬ (new_index = prev_index ∨ new_index < 0 ∨ prev_index < 0) := by
      rintro (h | h | h) <;> omega
    rw [if_neg c1, if_pos h1]

/-- Instance of C30: selecting the open WiFi network at combobox index 1
connects and reports `NETWORK_CONNECTED`; going back to index 0 restores the
selection. -/
theorem C30_ItemChanged_reports_connection_witness :
    view_one_wifi.observer_ = true ∧
    ItemChanged view_one_wifi 0 1
      = [ui_call.ConnectToWifiNetwork item_open_wifi.wifi_network "",
         ui_call.OnExit ExitCodes.NETWORK_CONNECTED] ∧
    ui_call.OnExit ExitCodes.NETWORK_CONNECTED ∈ ItemChanged view_one_wifi 0 1 ∧
    ItemChanged view_one_wifi 1 0 = [ui_call.SetSelectedItem 1] :=
  ⟨rfl, by decide,
   ((C30_ItemChanged_reports_connection view_one_wifi 0 1).1 rfl).mpr
     ⟨by decide, by decide, by decide, rfl, item_open_wifi, rfl, by decide⟩,
   (C30_ItemChanged_reports_connection view_one_wifi 1 0).2.2.2 rfl (by decide)⟩

end NetworkSelectionView
